import Mathlib

/-!
Verification of the sudoku engine (`sudoku.py`): topology tables,
normalization and validation, the constraint-propagation engine
(`_assign` / `_eliminate`), the solution enumerator (`_solve` / `solve`),
and the puzzle generator (`_random_grid`).

Modelling conventions:
* a textual grid is a `List Char`; a candidate grid (`grid_map`, a Python
  dict from square index to its string of possible digits) is a
  `List (List Char)` with 81 entries, read through `List.getD`;
* Python's in-place mutation is modelled by state passing; `_eliminate`
  and `_assign` return a three-valued result: success with the new state,
  failure (Python `return False`, the mutated state is carried but every
  caller discards it), or fuel exhaustion.  The fuel counts the nesting
  depth of eliminations; the recursion is proved to need no more than
  `totalCand` fuel, so a fixed budget of 730 is complete for 81-cell
  9-digit grids;
* `DIGITS` in the source is a Python set, so the string produced by
  `''.join(DIGITS)` carries an unspecified iteration order.  The
  definitions are therefore parametrised by that joined string `ds`; the
  behaviour of any concrete run corresponds to some permutation of
  `stdDigits`;
* `random.choice` and `random.shuffle` are modelled by oracle parameters:
  a visiting order `order` and a stream of pick indices `picks`;
* exceptions (`ValueError` from `normalize`) are modelled by `Option`.
-/

namespace Sudoku

/-- Digits 1..9 in canonical order: membership in the Python set `DIGITS`. -/
def stdDigits : List Char := ['1', '2', '3', '4', '5', '6', '7', '8', '9']

/-- Characters accepted by `normalize` (`VALID_GRID_CHARS`). -/
def validGridChars : List Char := stdDigits ++ ['0', '.']

/-- Indices of the row of square `i` (`row_indices`). -/
def rowIndices (i : Nat) : List Nat :=
  (List.range 9).map (fun k => (i - i % 9) + k)

/-- Indices of the column of square `i` (`column_indices`). -/
def columnIndices (i : Nat) : List Nat :=
  (List.range 9).map (fun k => i % 9 + 9 * k)

/-- Indices of the box of square `i` (`box_indices`). -/
def boxIndices (i : Nat) : List Nat :=
  ((List.range 3).map (fun y =>
    (List.range 3).map (fun x => 27 * (i / 27) + 3 * ((i % 9) / 3) + 9 * y + x))).flatten

/-- The three units of square `i` (`unit_indices` / `UNITS[i]`). -/
def unitsOf (i : Nat) : List (List Nat) :=
  [rowIndices i, columnIndices i, boxIndices i]

/-- The 20 peers of square `i` (`peer_indices` / `PEERS[i]`); the Python set
is realised as a duplicate-free list. -/
def peersOf (i : Nat) : List Nat :=
  ((rowIndices i ++ columnIndices i ++ boxIndices i).filter (fun j => j ≠ i)).eraseDups

/-- The nine row units (`ROWS`). -/
def unitRows : List (List Nat) :=
  (List.range 9).map (fun r => (List.range 9).map (fun c => 9 * r + c))

/-- The nine column units (`COLUMNS`). -/
def unitColumns : List (List Nat) :=
  (List.range 9).map (fun c => (List.range 9).map (fun r => c + 9 * r))

/-- The nine box units (`BOXES`). -/
def unitBoxes : List (List Nat) :=
  (((List.range 3).map (fun z => (List.range 3).map (fun t => 27 * z + 3 * t))).flatten).map
    (fun s => ((List.range 3).map (fun y => (List.range 3).map (fun c => s + 9 * y + c))).flatten)

/-- The 27 units scanned by `is_valid` (`ROWS + COLUMNS + BOXES`). -/
def allUnits : List (List Nat) := unitRows ++ unitColumns ++ unitBoxes

/-- Normalization (`normalize`): keep recognised characters, map `'0'` to
`'.'`, and fail (`ValueError`) unless exactly 81 characters remain. -/
def filteredGrid (grid : List Char) : List Char :=
  (grid.filter (fun c => validGridChars.contains c)).map (fun c => if c == '0' then '.' else c)

/-- Return the normalized 81-character grid, or `none` for the `ValueError`. -/
def normalize (grid : List Char) : Option (List Char) :=
  if (filteredGrid grid).length = 81 then some (filteredGrid grid) else none

/-- Values already assigned inside one unit: the non-dot characters. -/
def unitValues (g : List Char) (u : List Nat) : List Char :=
  (u.map (fun i => g.getD i '.')).filter (fun c => !(c == '.'))

/-- Validity of a normalized grid: no unit holds a duplicate value
(the body of `is_valid` after its call to `normalize`). -/
def isValidN (g : List Char) : Bool :=
  allUnits.all (fun u => (unitValues g u).dedup.length = (unitValues g u).length)

/-- Public `is_valid`: normalize (possibly raising), then check every unit. -/
def is_valid (grid : List Char) : Option Bool :=
  (normalize grid).map isValidN

/-- Candidate grid: one list of possible digits per square
(the `grid_map` dict of the source). -/
abbrev GridMap := List (List Char)

/-- Result of a propagation step: success carrying the new state, failure
(Python `return False`; the mutated state is carried for stating invariants
but every caller of the source discards it), or fuel exhaustion. -/
inductive Res where
  | fuelOut : Res
  | failed : GridMap → Res
  | ok : GridMap → Res
deriving DecidableEq

/-- Total number of remaining candidates, the termination measure. -/
def totalCand (m : GridMap) : Nat := (m.map List.length).sum

/-- Short-circuiting loop shared by the `all(...)` generators of `_assign`
and `_eliminate`: thread the grid through `step` over a list, stopping at
the first failure. -/
def goList (step : GridMap → α → Res) : GridMap → List α → Res
  | m, [] => Res.ok m
  | m, x :: xs =>
    match step m x with
    | Res.fuelOut => Res.fuelOut
    | Res.failed m' => Res.failed m'
    | Res.ok m' => goList step m' xs

/-- Body of `_assign(grid_map, i, digit)` over an abstract eliminator:
eliminate every digit currently possible at square `i` other than `digit`. -/
def assignGo (elim : GridMap → Nat → Char → Res) (m : GridMap) (i : Nat)
    (digit : Char) : Res :=
  goList (fun mm d2 => elim mm i d2) m ((m.getD i []).filter (fun c => !(c == digit)))

/-- Unit loop of `_eliminate` over an abstract assigner: for each unit of
the square, fail when the eliminated digit has no remaining place, and
assign it when exactly one place remains. -/
def unitLoopGo (asg : GridMap → Nat → Char → Res) :
    GridMap → List (List Nat) → Char → Res
  | m, [], _ => Res.ok m
  | m, u :: us, digit =>
    let places := u.filter (fun i2 => (m.getD i2 []).contains digit)
    if places.length = 0 then Res.failed m
    else if places.length = 1 then
      match asg m (places.headD 0) digit with
      | Res.fuelOut => Res.fuelOut
      | Res.failed m' => Res.failed m'
      | Res.ok m' => unitLoopGo asg m' us digit
    else unitLoopGo asg m us digit

/-- Model of `_eliminate(grid_map, i, digit)`: remove `digit` from square
`i`, then propagate: failure on an emptied square, peer elimination when a
square becomes a singleton, and hidden-single assignment per unit.  Fuel
decreases exactly when an actual elimination recurses into its cascade, so
the budget bounds the nesting depth of eliminations. -/
def eliminateF : Nat → GridMap → Nat → Char → Res
  | 0, _, _, _ => Res.fuelOut
  | fuel + 1, m, i, digit =>
    let possible := m.getD i []
    if possible.contains digit then
      let possible2 := possible.filter (fun c => !(c == digit))
      let m1 := m.set i possible2
      if possible2.length = 0 then Res.failed m1
      else
        match (if possible2.length = 1 then
                 goList (fun mm p => eliminateF fuel mm p (possible2.headD digit))
                   m1 (peersOf i)
               else Res.ok m1) with
        | Res.fuelOut => Res.fuelOut
        | Res.failed m2 => Res.failed m2
        | Res.ok m2 => unitLoopGo (assignGo (eliminateF fuel)) m2 (unitsOf i) digit
    else Res.ok m

/-- Model of `_assign(grid_map, i, digit)`. -/
def assignF (fuel : Nat) : GridMap → Nat → Char → Res :=
  assignGo (eliminateF fuel)

/-- Project a `Res` onto the boolean view every caller of the source uses:
only a successful result is kept (Python truthiness of the return value). -/
def resOpt : Res → Option GridMap
  | Res.ok m => some m
  | _ => none

/-- Elimination fuel budget: one more than the largest possible number of
candidates of an 81-cell 9-digit grid, proved sufficient below. -/
def elimFuel : Nat := 730

/-- The all-candidates-open grid (`_grid_map_all_digits`), parametrised by
the joined digit string `ds`. -/
def gridMapAllDigits (ds : List Char) : GridMap := List.replicate 81 ds

/-- Assignment loop of `_grid_map_propogated`: assign every input digit in
index order, failing as soon as one assignment fails. -/
def propagateAssignments (fuel : Nat) (m : GridMap) : List (Nat × Char) → Option GridMap
  | [] => some m
  | (i, d) :: rest =>
    if stdDigits.contains d then
      match assignF fuel m i d with
      | Res.ok m' => propagateAssignments fuel m' rest
      | _ => none
    else propagateAssignments fuel m rest

/-- Model of `_grid_map_propogated(grid)`: start all-open and assign each
assigned digit of the normalized grid. -/
def gridMapPropagated (ds : List Char) (g : List Char) : Option GridMap :=
  propagateAssignments elimFuel (gridMapAllDigits ds) g.enum

/-- Whether every square has exactly one candidate left
(the solved test of `_solve`). -/
def allSingleton (m : GridMap) : Bool :=
  (List.range 81).all (fun i => (m.getD i []).length = 1)

/-- Branch square of `_solve`: the square of minimal `(len, i)` among
squares with more than one candidate, i.e. the most constrained square,
ties broken by lowest index.  The `0` fallback is unreachable on the grids
`_solve` receives. -/
def nextCell (m : GridMap) : Nat :=
  match (List.range 81).filter (fun i => 1 < (m.getD i []).length) with
  | [] => 0
  | c :: cs =>
    cs.foldl (fun best i =>
      if (m.getD i []).length < (m.getD best []).length then i else best) c

/-- The candidate digits tried at the branch square, in the order stored in
the candidate string (`for digit in possible_digits`). -/
def branchDigits (m : GridMap) : List Char := m.getD (nextCell m) []

/-- Search fuel budget: one more than the number of squares, proved
sufficient below. -/
def searchFuel : Nat := 82

/-- Model of the recursive enumerator `_solve(grid_map)`: `none` is the
Python falsy argument (a failed `_assign`), a solved grid is yielded, and
otherwise each candidate digit of the branch square is tried in order on a
copy. -/
def searchF : Nat → Option GridMap → List GridMap
  | _, none => []
  | 0, some _ => []
  | fuel + 1, some m =>
    if allSingleton m then [m]
    else
      (branchDigits m).flatMap (fun d =>
        searchF fuel (resOpt (assignF elimFuel m (nextCell m) d)))

/-- Model of `_to_grid(grid_map, unassigned_squares)`: a digit character for
each singleton square not marked unassigned, otherwise a dot. -/
def toGrid (m : GridMap) (unassigned : List Nat) : List Char :=
  (List.range 81).map (fun i =>
    if (m.getD i []).length == 1 && !(unassigned.contains i) then (m.getD i []).headD '.'
    else '.')

/-- Model of the generator `solve(grid)`: normalize (propagating the
`ValueError` as `none`), re-check validity through `is_valid`, build the
propagated candidate grid, and enumerate solutions as grids.  The yielded
sequence is the returned list. -/
def solve (ds : List Char) (grid : List Char) : Option (List (List Char)) :=
  match normalize grid with
  | none => none
  | some g =>
    match is_valid g with
    | none => none
    | some false => some []
    | some true =>
      match gridMapPropagated ds g with
      | none => some []
      | some m => some ((searchF searchFuel (some m)).map (fun sm => toGrid sm []))

/-- Uniqueness checkpoint of `_random_grid`: once enough squares are
assigned and at least eight distinct digits are used, count the solutions;
exactly one means success, zero or several aborts the attempt.  `none`
means the loop continues. -/
def genCheck (minAssigned : Nat) (m : GridMap) (assigned : List Nat) :
    Option (Option (List Char × List Char)) :=
  let uniqueDigits := (assigned.map (fun j => m.getD j [])).dedup
  if minAssigned ≤ assigned.length ∧ 8 ≤ uniqueDigits.length then
    let sols := searchF searchFuel (some m)
    if sols.length = 1 then
      let unassigned := (List.range 81).filter (fun j => !(assigned.contains j))
      some (some (toGrid m unassigned, toGrid (sols.headD m) []))
    else some none
  else none

/-- Mirror step of `_random_grid`: under symmetry, also assign a randomly
chosen candidate to the 180-degree mirror square `80 - i` when it differs
from `i`.  Returns the new state or `none` on a failed assignment. -/
def mirrorStep (symmetrical : Bool) (m : GridMap) (i : Nat)
    (assigned : List Nat) (picks : List Nat) :
    Option (GridMap × List Nat × List Nat) :=
  if symmetrical ∧ 80 - i ≠ i then
    let j := 80 - i
    let cands := m.getD j []
    let d := cands.getD (picks.headD 0 % cands.length) '.'
    match assignF elimFuel m j d with
    | Res.ok m2 => some (m2, assigned ++ [j], picks.tail)
    | _ => none
  else some (m, assigned, picks)

/-- Main loop of `_random_grid`: visit the shuffled squares, skip squares
already assigned as mirrors, assign a randomly chosen candidate (aborting
the attempt on failure), mirror if requested, and run the uniqueness
checkpoint.  Exhausting the walk without a successful checkpoint fails. -/
def randomStep (minAssigned : Nat) (symmetrical : Bool) :
    List Nat → GridMap → List Nat → List Nat → Option (List Char × List Char)
  | [], _, _, _ => none
  | i :: rest, m, assigned, picks =>
    if assigned.contains i then randomStep minAssigned symmetrical rest m assigned picks
    else
      let cands := m.getD i []
      let d := cands.getD (picks.headD 0 % cands.length) '.'
      match assignF elimFuel m i d with
      | Res.ok m1 =>
        match mirrorStep symmetrical m1 i (assigned ++ [i]) picks.tail with
        | none => none
        | some (m2, assigned2, picks2) =>
          match genCheck minAssigned m2 assigned2 with
          | some r => r
          | none => randomStep minAssigned symmetrical rest m2 assigned2 picks2
      | _ => none

/-- Model of `_random_grid(min_assigned_squares, symmetrical)`: clamp the
requested number of squares into `[17, 80]`, then run the random walk.
The shuffled visiting order and the `random.choice` draws are oracle
parameters `order` and `picks`. -/
def random_grid (minAssignedSquares : Nat) (symmetrical : Bool) (ds : List Char)
    (order : List Nat) (picks : List Nat) : Option (List Char × List Char) :=
  let minA := min (max minAssignedSquares 17) 80
  randomStep minA symmetrical order (gridMapAllDigits ds) [] picks

/-! ### Concrete grids and oracle data used by the checks -/

/-- A complete solved grid. -/
def fullS : List Char := "534678912672195348198342567859761423426853791713924856961537284287419635345286179".toList

/-- `fullS` with its last square hidden: the puzzle the generator run below
produces. -/
def puzzle80 : List Char := "53467891267219534819834256785976142342685379171392485696153728428741963534528617.".toList

/-- `random.choice` oracle indices driving one concrete generator run. -/
def genPicks : List Nat := [4, 2, 2, 2, 2, 2, 2, 0, 0, 2, 2, 1, 0, 3, 2, 0, 0, 0, 0, 1, 0, 1, 1, 0, 0, 0, 0, 4, 3, 4, 2, 3, 0, 1, 0, 0, 2, 1, 2, 1, 1, 0, 1, 0, 0, 1, 0, 0, 1, 0, 0, 1, 0, 0, 2, 1, 0, 1, 0, 0, 0, 0, 0, 0, 0, 0, 0, 0, 0, 0, 0, 0, 0, 0, 0, 0, 0, 0, 0, 0, 0]

/-- A legal iteration order of the `DIGITS` set with `'2'` before `'1'`. -/
def dsSwapped : List Char := ['2', '1', '3', '4', '5', '6', '7', '8', '9']

/-- The empty grid. -/
def blankG : List Char := List.replicate 81 '.'

/-- A grid with two `'1'`s in its first row. -/
def dupG : List Char := '1' :: '1' :: List.replicate 79 '.'

/-- Raw input with a stray letter and a `'0'`; it normalizes to `blankG`. -/
def junkG : List Char := 'A' :: '0' :: List.replicate 80 '.'

/-- `normalize` as the specification words it: strip every character
outside digits, `'0'` and `'.'`, map `'0'` to `'.'`, and fail unless
exactly 81 characters remain.  Stated from the specification text, to be
compared with `normalize`, which is modelled from the source. -/
def normalizeSpec (text : List Char) : Option (List Char) :=
  let mapped := (text.filter (fun c => decide (c ∈ stdDigits ∨ c = '0' ∨ c = '.'))).map
    (fun c => if c = '0' then '.' else c)
  if mapped.length = 81 then some mapped else none

/-- A well-formed candidate grid on which a single elimination nests more
than 123 levels deep. -/
def deepState : GridMap :=
  ["".toList,
   "41".toList,
   "8472613".toList,
   "6241".toList,
   "6594".toList,
   "54".toList,
   "261".toList,
   "45821".toList,
   "5637".toList,
   "51924".toList,
   "647".toList,
   "7459368".toList,
   "".toList,
   "187".toList,
   "".toList,
   "651273".toList,
   "".toList,
   "423".toList,
   "19".toList,
   "724".toList,
   "4".toList,
   "".toList,
   "8".toList,
   "5".toList,
   "19".toList,
   "".toList,
   "728".toList,
   "219".toList,
   "92".toList,
   "862753".toList,
   "89367".toList,
   "".toList,
   "".toList,
   "26153794".toList,
   "491".toList,
   "8123".toList,
   "291".toList,
   "672".toList,
   "2".toList,
   "38479".toList,
   "9".toList,
   "427".toList,
   "75389126".toList,
   "54".toList,
   "546".toList,
   "487".toList,
   "7983".toList,
   "41658".toList,
   "85791".toList,
   "528".toList,
   "29716458".toList,
   "".toList,
   "5".toList,
   "315867".toList,
   "897124".toList,
   "69178".toList,
   "5627".toList,
   "29563".toList,
   "8235764".toList,
   "4".toList,
   "4".toList,
   "748".toList,
   "37".toList,
   "713".toList,
   "2349".toList,
   "274386".toList,
   "18".toList,
   "7382".toList,
   "249653".toList,
   "98".toList,
   "51329".toList,
   "3".toList,
   "67423".toList,
   "8".toList,
   "52".toList,
   "7852".toList,
   "".toList,
   "17546".toList,
   "".toList,
   "837".toList,
   "75819".toList]

/-- Intermediate candidate grids of the recorded generator run. -/
def rsGm1 : GridMap :=
  ["5".toList, "12346789".toList, "12346789".toList, "12346789".toList, "12346789".toList, "12346789".toList, "12346789".toList, "12346789".toList, "12346789".toList, "12346789".toList, "12346789".toList, "12346789".toList, "123456789".toList, "123456789".toList, "123456789".toList, "123456789".toList, "123456789".toList, "123456789".toList, "12346789".toList, "12346789".toList, "12346789".toList, "123456789".toList, "123456789".toList, "123456789".toList, "123456789".toList, "123456789".toList, "123456789".toList, "12346789".toList, "123456789".toList, "123456789".toList, "123456789".toList, "123456789".toList, "123456789".toList, "123456789".toList, "123456789".toList, "123456789".toList, "12346789".toList, "123456789".toList, "123456789".toList, "123456789".toList, "123456789".toList, "123456789".toList, "123456789".toList, "123456789".toList, "123456789".toList, "12346789".toList, "123456789".toList, "123456789".toList, "123456789".toList, "123456789".toList, "123456789".toList, "123456789".toList, "123456789".toList, "123456789".toList, "12346789".toList, "123456789".toList, "123456789".toList, "123456789".toList, "123456789".toList, "123456789".toList, "123456789".toList, "123456789".toList, "123456789".toList, "12346789".toList, "123456789".toList, "123456789".toList, "123456789".toList, "123456789".toList, "123456789".toList, "123456789".toList, "123456789".toList, "123456789".toList, "12346789".toList, "123456789".toList, "123456789".toList, "123456789".toList, "123456789".toList, "123456789".toList, "123456789".toList, "123456789".toList, "123456789".toList]

def rsGm2 : GridMap :=
  ["5".toList, "3".toList, "1246789".toList, "1246789".toList, "1246789".toList, "1246789".toList, "1246789".toList, "1246789".toList, "1246789".toList, "1246789".toList, "1246789".toList, "1246789".toList, "123456789".toList, "123456789".toList, "123456789".toList, "123456789".toList, "123456789".toList, "123456789".toList, "1246789".toList, "1246789".toList, "1246789".toList, "123456789".toList, "123456789".toList, "123456789".toList, "123456789".toList, "123456789".toList, "123456789".toList, "12346789".toList, "12456789".toList, "123456789".toList, "123456789".toList, "123456789".toList, "123456789".toList, "123456789".toList, "123456789".toList, "123456789".toList, "12346789".toList, "12456789".toList, "123456789".toList, "123456789".toList, "123456789".toList, "123456789".toList, "123456789".toList, "123456789".toList, "123456789".toList, "12346789".toList, "12456789".toList, "123456789".toList, "123456789".toList, "123456789".toList, "123456789".toList, "123456789".toList, "123456789".toList, "123456789".toList, "12346789".toList, "12456789".toList, "123456789".toList, "123456789".toList, "123456789".toList, "123456789".toList, "123456789".toList, "123456789".toList, "123456789".toList, "12346789".toList, "12456789".toList, "123456789".toList, "123456789".toList, "123456789".toList, "123456789".toList, "123456789".toList, "123456789".toList, "123456789".toList, "12346789".toList, "12456789".toList, "123456789".toList, "123456789".toList, "123456789".toList, "123456789".toList, "123456789".toList, "123456789".toList, "123456789".toList]

def rsGm3 : GridMap :=
  ["5".toList, "3".toList, "4".toList, "126789".toList, "126789".toList, "126789".toList, "126789".toList, "126789".toList, "126789".toList, "126789".toList, "126789".toList, "126789".toList, "123456789".toList, "123456789".toList, "123456789".toList, "123456789".toList, "123456789".toList, "123456789".toList, "126789".toList, "126789".toList, "126789".toList, "123456789".toList, "123456789".toList, "123456789".toList, "123456789".toList, "123456789".toList, "123456789".toList, "12346789".toList, "12456789".toList, "12356789".toList, "123456789".toList, "123456789".toList, "123456789".toList, "123456789".toList, "123456789".toList, "123456789".toList, "12346789".toList, "12456789".toList, "12356789".toList, "123456789".toList, "123456789".toList, "123456789".toList, "123456789".toList, "123456789".toList, "123456789".toList, "12346789".toList, "12456789".toList, "12356789".toList, "123456789".toList, "123456789".toList, "123456789".toList, "123456789".toList, "123456789".toList, "123456789".toList, "12346789".toList, "12456789".toList, "12356789".toList, "123456789".toList, "123456789".toList, "123456789".toList, "123456789".toList, "123456789".toList, "123456789".toList, "12346789".toList, "12456789".toList, "12356789".toList, "123456789".toList, "123456789".toList, "123456789".toList, "123456789".toList, "123456789".toList, "123456789".toList, "12346789".toList, "12456789".toList, "12356789".toList, "123456789".toList, "123456789".toList, "123456789".toList, "123456789".toList, "123456789".toList, "123456789".toList]

def rsGm4 : GridMap :=
  ["5".toList, "3".toList, "4".toList, "6".toList, "12789".toList, "12789".toList, "12789".toList, "12789".toList, "12789".toList, "126789".toList, "126789".toList, "126789".toList, "12345789".toList, "12345789".toList, "12345789".toList, "123456789".toList, "123456789".toList, "123456789".toList, "126789".toList, "126789".toList, "126789".toList, "12345789".toList, "12345789".toList, "12345789".toList, "123456789".toList, "123456789".toList, "123456789".toList, "12346789".toList, "12456789".toList, "12356789".toList, "12345789".toList, "123456789".toList, "123456789".toList, "123456789".toList, "123456789".toList, "123456789".toList, "12346789".toList, "12456789".toList, "12356789".toList, "12345789".toList, "123456789".toList, "123456789".toList, "123456789".toList, "123456789".toList, "123456789".toList, "12346789".toList, "12456789".toList, "12356789".toList, "12345789".toList, "123456789".toList, "123456789".toList, "123456789".toList, "123456789".toList, "123456789".toList, "12346789".toList, "12456789".toList, "12356789".toList, "12345789".toList, "123456789".toList, "123456789".toList, "123456789".toList, "123456789".toList, "123456789".toList, "12346789".toList, "12456789".toList, "12356789".toList, "12345789".toList, "123456789".toList, "123456789".toList, "123456789".toList, "123456789".toList, "123456789".toList, "12346789".toList, "12456789".toList, "12356789".toList, "12345789".toList, "123456789".toList, "123456789".toList, "123456789".toList, "123456789".toList, "123456789".toList]

def rsGm5 : GridMap :=
  ["5".toList, "3".toList, "4".toList, "6".toList, "7".toList, "1289".toList, "1289".toList, "1289".toList, "1289".toList, "126789".toList, "126789".toList, "126789".toList, "1234589".toList, "1234589".toList, "1234589".toList, "123456789".toList, "123456789".toList, "123456789".toList, "126789".toList, "126789".toList, "126789".toList, "1234589".toList, "1234589".toList, "1234589".toList, "123456789".toList, "123456789".toList, "123456789".toList, "12346789".toList, "12456789".toList, "12356789".toList, "12345789".toList, "12345689".toList, "123456789".toList, "123456789".toList, "123456789".toList, "123456789".toList, "12346789".toList, "12456789".toList, "12356789".toList, "12345789".toList, "12345689".toList, "123456789".toList, "123456789".toList, "123456789".toList, "123456789".toList, "12346789".toList, "12456789".toList, "12356789".toList, "12345789".toList, "12345689".toList, "123456789".toList, "123456789".toList, "123456789".toList, "123456789".toList, "12346789".toList, "12456789".toList, "12356789".toList, "12345789".toList, "12345689".toList, "123456789".toList, "123456789".toList, "123456789".toList, "123456789".toList, "12346789".toList, "12456789".toList, "12356789".toList, "12345789".toList, "12345689".toList, "123456789".toList, "123456789".toList, "123456789".toList, "123456789".toList, "12346789".toList, "12456789".toList, "12356789".toList, "12345789".toList, "12345689".toList, "123456789".toList, "123456789".toList, "123456789".toList, "123456789".toList]

def rsGm6 : GridMap :=
  ["5".toList, "3".toList, "4".toList, "6".toList, "7".toList, "8".toList, "129".toList, "129".toList, "129".toList, "126789".toList, "126789".toList, "126789".toList, "123459".toList, "123459".toList, "123459".toList, "123456789".toList, "123456789".toList, "123456789".toList, "126789".toList, "126789".toList, "126789".toList, "123459".toList, "123459".toList, "123459".toList, "123456789".toList, "123456789".toList, "123456789".toList, "12346789".toList, "12456789".toList, "12356789".toList, "12345789".toList, "12345689".toList, "12345679".toList, "123456789".toList, "123456789".toList, "123456789".toList, "12346789".toList, "12456789".toList, "12356789".toList, "12345789".toList, "12345689".toList, "12345679".toList, "123456789".toList, "123456789".toList, "123456789".toList, "12346789".toList, "12456789".toList, "12356789".toList, "12345789".toList, "12345689".toList, "12345679".toList, "123456789".toList, "123456789".toList, "123456789".toList, "12346789".toList, "12456789".toList, "12356789".toList, "12345789".toList, "12345689".toList, "12345679".toList, "123456789".toList, "123456789".toList, "123456789".toList, "12346789".toList, "12456789".toList, "12356789".toList, "12345789".toList, "12345689".toList, "12345679".toList, "123456789".toList, "123456789".toList, "123456789".toList, "12346789".toList, "12456789".toList, "12356789".toList, "12345789".toList, "12345689".toList, "12345679".toList, "123456789".toList, "123456789".toList, "123456789".toList]

def rsGm7 : GridMap :=
  ["5".toList, "3".toList, "4".toList, "6".toList, "7".toList, "8".toList, "9".toList, "12".toList, "12".toList, "126789".toList, "126789".toList, "126789".toList, "123459".toList, "123459".toList, "123459".toList, "12345678".toList, "12345678".toList, "12345678".toList, "126789".toList, "126789".toList, "126789".toList, "123459".toList, "123459".toList, "123459".toList, "12345678".toList, "12345678".toList, "12345678".toList, "12346789".toList, "12456789".toList, "12356789".toList, "12345789".toList, "12345689".toList, "12345679".toList, "12345678".toList, "123456789".toList, "123456789".toList, "12346789".toList, "12456789".toList, "12356789".toList, "12345789".toList, "12345689".toList, "12345679".toList, "12345678".toList, "123456789".toList, "123456789".toList, "12346789".toList, "12456789".toList, "12356789".toList, "12345789".toList, "12345689".toList, "12345679".toList, "12345678".toList, "123456789".toList, "123456789".toList, "12346789".toList, "12456789".toList, "12356789".toList, "12345789".toList, "12345689".toList, "12345679".toList, "12345678".toList, "123456789".toList, "123456789".toList, "12346789".toList, "12456789".toList, "12356789".toList, "12345789".toList, "12345689".toList, "12345679".toList, "12345678".toList, "123456789".toList, "123456789".toList, "12346789".toList, "12456789".toList, "12356789".toList, "12345789".toList, "12345689".toList, "12345679".toList, "12345678".toList, "123456789".toList, "123456789".toList]

def rsGm8 : GridMap :=
  ["5".toList, "3".toList, "4".toList, "6".toList, "7".toList, "8".toList, "9".toList, "1".toList, "2".toList, "126789".toList, "126789".toList, "126789".toList, "123459".toList, "123459".toList, "123459".toList, "345678".toList, "345678".toList, "345678".toList, "126789".toList, "126789".toList, "126789".toList, "123459".toList, "123459".toList, "123459".toList, "345678".toList, "345678".toList, "345678".toList, "12346789".toList, "12456789".toList, "12356789".toList, "12345789".toList, "12345689".toList, "12345679".toList, "12345678".toList, "23456789".toList, "13456789".toList, "12346789".toList, "12456789".toList, "12356789".toList, "12345789".toList, "12345689".toList, "12345679".toList, "12345678".toList, "23456789".toList, "13456789".toList, "12346789".toList, "12456789".toList, "12356789".toList, "12345789".toList, "12345689".toList, "12345679".toList, "12345678".toList, "23456789".toList, "13456789".toList, "12346789".toList, "12456789".toList, "12356789".toList, "12345789".toList, "12345689".toList, "12345679".toList, "12345678".toList, "23456789".toList, "13456789".toList, "12346789".toList, "12456789".toList, "12356789".toList, "12345789".toList, "12345689".toList, "12345679".toList, "12345678".toList, "23456789".toList, "13456789".toList, "12346789".toList, "12456789".toList, "12356789".toList, "12345789".toList, "12345689".toList, "12345679".toList, "12345678".toList, "23456789".toList, "13456789".toList]

def rsGm9 : GridMap :=
  ["5".toList, "3".toList, "4".toList, "6".toList, "7".toList, "8".toList, "9".toList, "1".toList, "2".toList, "126789".toList, "126789".toList, "126789".toList, "123459".toList, "123459".toList, "123459".toList, "345678".toList, "345678".toList, "345678".toList, "126789".toList, "126789".toList, "126789".toList, "123459".toList, "123459".toList, "123459".toList, "345678".toList, "345678".toList, "345678".toList, "12346789".toList, "12456789".toList, "12356789".toList, "12345789".toList, "12345689".toList, "12345679".toList, "12345678".toList, "23456789".toList, "13456789".toList, "12346789".toList, "12456789".toList, "12356789".toList, "12345789".toList, "12345689".toList, "12345679".toList, "12345678".toList, "23456789".toList, "13456789".toList, "12346789".toList, "12456789".toList, "12356789".toList, "12345789".toList, "12345689".toList, "12345679".toList, "12345678".toList, "23456789".toList, "13456789".toList, "12346789".toList, "12456789".toList, "12356789".toList, "12345789".toList, "12345689".toList, "12345679".toList, "12345678".toList, "23456789".toList, "13456789".toList, "12346789".toList, "12456789".toList, "12356789".toList, "12345789".toList, "12345689".toList, "12345679".toList, "12345678".toList, "23456789".toList, "13456789".toList, "12346789".toList, "12456789".toList, "12356789".toList, "12345789".toList, "12345689".toList, "12345679".toList, "12345678".toList, "23456789".toList, "13456789".toList]

def rsGm10 : GridMap :=
  ["5".toList, "3".toList, "4".toList, "6".toList, "7".toList, "8".toList, "9".toList, "1".toList, "2".toList, "6".toList, "12789".toList, "12789".toList, "123459".toList, "123459".toList, "123459".toList, "34578".toList, "34578".toList, "34578".toList, "12789".toList, "12789".toList, "12789".toList, "123459".toList, "123459".toList, "123459".toList, "345678".toList, "345678".toList, "345678".toList, "1234789".toList, "12456789".toList, "12356789".toList, "12345789".toList, "12345689".toList, "12345679".toList, "12345678".toList, "23456789".toList, "13456789".toList, "1234789".toList, "12456789".toList, "12356789".toList, "12345789".toList, "12345689".toList, "12345679".toList, "12345678".toList, "23456789".toList, "13456789".toList, "1234789".toList, "12456789".toList, "12356789".toList, "12345789".toList, "12345689".toList, "12345679".toList, "12345678".toList, "23456789".toList, "13456789".toList, "1234789".toList, "12456789".toList, "12356789".toList, "12345789".toList, "12345689".toList, "12345679".toList, "12345678".toList, "23456789".toList, "13456789".toList, "1234789".toList, "12456789".toList, "12356789".toList, "12345789".toList, "12345689".toList, "12345679".toList, "12345678".toList, "23456789".toList, "13456789".toList, "1234789".toList, "12456789".toList, "12356789".toList, "12345789".toList, "12345689".toList, "12345679".toList, "12345678".toList, "23456789".toList, "13456789".toList]

def rsGm11 : GridMap :=
  ["5".toList, "3".toList, "4".toList, "6".toList, "7".toList, "8".toList, "9".toList, "1".toList, "2".toList, "6".toList, "7".toList, "1289".toList, "123459".toList, "123459".toList, "123459".toList, "3458".toList, "3458".toList, "3458".toList, "1289".toList, "1289".toList, "1289".toList, "123459".toList, "123459".toList, "123459".toList, "345678".toList, "345678".toList, "345678".toList, "1234789".toList, "1245689".toList, "12356789".toList, "12345789".toList, "12345689".toList, "12345679".toList, "12345678".toList, "23456789".toList, "13456789".toList, "1234789".toList, "1245689".toList, "12356789".toList, "12345789".toList, "12345689".toList, "12345679".toList, "12345678".toList, "23456789".toList, "13456789".toList, "1234789".toList, "1245689".toList, "12356789".toList, "12345789".toList, "12345689".toList, "12345679".toList, "12345678".toList, "23456789".toList, "13456789".toList, "1234789".toList, "1245689".toList, "12356789".toList, "12345789".toList, "12345689".toList, "12345679".toList, "12345678".toList, "23456789".toList, "13456789".toList, "1234789".toList, "1245689".toList, "12356789".toList, "12345789".toList, "12345689".toList, "12345679".toList, "12345678".toList, "23456789".toList, "13456789".toList, "1234789".toList, "1245689".toList, "12356789".toList, "12345789".toList, "12345689".toList, "12345679".toList, "12345678".toList, "23456789".toList, "13456789".toList]

def rsGm12 : GridMap :=
  ["5".toList, "3".toList, "4".toList, "6".toList, "7".toList, "8".toList, "9".toList, "1".toList, "2".toList, "6".toList, "7".toList, "2".toList, "13459".toList, "13459".toList, "13459".toList, "3458".toList, "3458".toList, "3458".toList, "189".toList, "189".toList, "189".toList, "123459".toList, "123459".toList, "123459".toList, "345678".toList, "345678".toList, "345678".toList, "1234789".toList, "1245689".toList, "1356789".toList, "12345789".toList, "12345689".toList, "12345679".toList, "12345678".toList, "23456789".toList, "13456789".toList, "1234789".toList, "1245689".toList, "1356789".toList, "12345789".toList, "12345689".toList, "12345679".toList, "12345678".toList, "23456789".toList, "13456789".toList, "1234789".toList, "1245689".toList, "1356789".toList, "12345789".toList, "12345689".toList, "12345679".toList, "12345678".toList, "23456789".toList, "13456789".toList, "1234789".toList, "1245689".toList, "1356789".toList, "12345789".toList, "12345689".toList, "12345679".toList, "12345678".toList, "23456789".toList, "13456789".toList, "1234789".toList, "1245689".toList, "1356789".toList, "12345789".toList, "12345689".toList, "12345679".toList, "12345678".toList, "23456789".toList, "13456789".toList, "1234789".toList, "1245689".toList, "1356789".toList, "12345789".toList, "12345689".toList, "12345679".toList, "12345678".toList, "23456789".toList, "13456789".toList]

def rsGm13 : GridMap :=
  ["5".toList, "3".toList, "4".toList, "6".toList, "7".toList, "8".toList, "9".toList, "1".toList, "2".toList, "6".toList, "7".toList, "2".toList, "1".toList, "3459".toList, "3459".toList, "3458".toList, "3458".toList, "3458".toList, "189".toList, "189".toList, "189".toList, "23459".toList, "23459".toList, "23459".toList, "345678".toList, "345678".toList, "345678".toList, "1234789".toList, "1245689".toList, "1356789".toList, "2345789".toList, "12345689".toList, "12345679".toList, "12345678".toList, "23456789".toList, "13456789".toList, "1234789".toList, "1245689".toList, "1356789".toList, "2345789".toList, "12345689".toList, "12345679".toList, "12345678".toList, "23456789".toList, "13456789".toList, "1234789".toList, "1245689".toList, "1356789".toList, "2345789".toList, "12345689".toList, "12345679".toList, "12345678".toList, "23456789".toList, "13456789".toList, "1234789".toList, "1245689".toList, "1356789".toList, "2345789".toList, "12345689".toList, "12345679".toList, "12345678".toList, "23456789".toList, "13456789".toList, "1234789".toList, "1245689".toList, "1356789".toList, "2345789".toList, "12345689".toList, "12345679".toList, "12345678".toList, "23456789".toList, "13456789".toList, "1234789".toList, "1245689".toList, "1356789".toList, "2345789".toList, "12345689".toList, "12345679".toList, "12345678".toList, "23456789".toList, "13456789".toList]

def rsGm14 : GridMap :=
  ["5".toList, "3".toList, "4".toList, "6".toList, "7".toList, "8".toList, "9".toList, "1".toList, "2".toList, "6".toList, "7".toList, "2".toList, "1".toList, "9".toList, "345".toList, "3458".toList, "3458".toList, "3458".toList, "189".toList, "189".toList, "189".toList, "2345".toList, "2345".toList, "2345".toList, "345678".toList, "345678".toList, "345678".toList, "1234789".toList, "1245689".toList, "1356789".toList, "2345789".toList, "1234568".toList, "12345679".toList, "12345678".toList, "23456789".toList, "13456789".toList, "1234789".toList, "1245689".toList, "1356789".toList, "2345789".toList, "1234568".toList, "12345679".toList, "12345678".toList, "23456789".toList, "13456789".toList, "1234789".toList, "1245689".toList, "1356789".toList, "2345789".toList, "1234568".toList, "12345679".toList, "12345678".toList, "23456789".toList, "13456789".toList, "1234789".toList, "1245689".toList, "1356789".toList, "2345789".toList, "1234568".toList, "12345679".toList, "12345678".toList, "23456789".toList, "13456789".toList, "1234789".toList, "1245689".toList, "1356789".toList, "2345789".toList, "1234568".toList, "12345679".toList, "12345678".toList, "23456789".toList, "13456789".toList, "1234789".toList, "1245689".toList, "1356789".toList, "2345789".toList, "1234568".toList, "12345679".toList, "12345678".toList, "23456789".toList, "13456789".toList]

def rsGm15 : GridMap :=
  ["5".toList, "3".toList, "4".toList, "6".toList, "7".toList, "8".toList, "9".toList, "1".toList, "2".toList, "6".toList, "7".toList, "2".toList, "1".toList, "9".toList, "5".toList, "348".toList, "348".toList, "348".toList, "189".toList, "189".toList, "189".toList, "234".toList, "234".toList, "234".toList, "345678".toList, "345678".toList, "345678".toList, "1234789".toList, "1245689".toList, "1356789".toList, "2345789".toList, "1234568".toList, "1234679".toList, "12345678".toList, "23456789".toList, "13456789".toList, "1234789".toList, "1245689".toList, "1356789".toList, "2345789".toList, "1234568".toList, "1234679".toList, "12345678".toList, "23456789".toList, "13456789".toList, "1234789".toList, "1245689".toList, "1356789".toList, "2345789".toList, "1234568".toList, "1234679".toList, "12345678".toList, "23456789".toList, "13456789".toList, "1234789".toList, "1245689".toList, "1356789".toList, "2345789".toList, "1234568".toList, "1234679".toList, "12345678".toList, "23456789".toList, "13456789".toList, "1234789".toList, "1245689".toList, "1356789".toList, "2345789".toList, "1234568".toList, "1234679".toList, "12345678".toList, "23456789".toList, "13456789".toList, "1234789".toList, "1245689".toList, "1356789".toList, "2345789".toList, "1234568".toList, "1234679".toList, "12345678".toList, "23456789".toList, "13456789".toList]

def rsGm16 : GridMap :=
  ["5".toList, "3".toList, "4".toList, "6".toList, "7".toList, "8".toList, "9".toList, "1".toList, "2".toList, "6".toList, "7".toList, "2".toList, "1".toList, "9".toList, "5".toList, "3".toList, "48".toList, "48".toList, "189".toList, "189".toList, "189".toList, "234".toList, "234".toList, "234".toList, "45678".toList, "45678".toList, "45678".toList, "1234789".toList, "1245689".toList, "1356789".toList, "2345789".toList, "1234568".toList, "1234679".toList, "1245678".toList, "23456789".toList, "13456789".toList, "1234789".toList, "1245689".toList, "1356789".toList, "2345789".toList, "1234568".toList, "1234679".toList, "1245678".toList, "23456789".toList, "13456789".toList, "1234789".toList, "1245689".toList, "1356789".toList, "2345789".toList, "1234568".toList, "1234679".toList, "1245678".toList, "23456789".toList, "13456789".toList, "1234789".toList, "1245689".toList, "1356789".toList, "2345789".toList, "1234568".toList, "1234679".toList, "1245678".toList, "23456789".toList, "13456789".toList, "1234789".toList, "1245689".toList, "1356789".toList, "2345789".toList, "1234568".toList, "1234679".toList, "1245678".toList, "23456789".toList, "13456789".toList, "1234789".toList, "1245689".toList, "1356789".toList, "2345789".toList, "1234568".toList, "1234679".toList, "1245678".toList, "23456789".toList, "13456789".toList]

def rsGm17 : GridMap :=
  ["5".toList, "3".toList, "4".toList, "6".toList, "7".toList, "8".toList, "9".toList, "1".toList, "2".toList, "6".toList, "7".toList, "2".toList, "1".toList, "9".toList, "5".toList, "3".toList, "4".toList, "8".toList, "189".toList, "189".toList, "189".toList, "234".toList, "234".toList, "234".toList, "567".toList, "567".toList, "567".toList, "1234789".toList, "1245689".toList, "1356789".toList, "2345789".toList, "1234568".toList, "1234679".toList, "1245678".toList, "2356789".toList, "1345679".toList, "1234789".toList, "1245689".toList, "1356789".toList, "2345789".toList, "1234568".toList, "1234679".toList, "1245678".toList, "2356789".toList, "1345679".toList, "1234789".toList, "1245689".toList, "1356789".toList, "2345789".toList, "1234568".toList, "1234679".toList, "1245678".toList, "2356789".toList, "1345679".toList, "1234789".toList, "1245689".toList, "1356789".toList, "2345789".toList, "1234568".toList, "1234679".toList, "1245678".toList, "2356789".toList, "1345679".toList, "1234789".toList, "1245689".toList, "1356789".toList, "2345789".toList, "1234568".toList, "1234679".toList, "1245678".toList, "2356789".toList, "1345679".toList, "1234789".toList, "1245689".toList, "1356789".toList, "2345789".toList, "1234568".toList, "1234679".toList, "1245678".toList, "2356789".toList, "1345679".toList]

def rsGm18 : GridMap :=
  ["5".toList, "3".toList, "4".toList, "6".toList, "7".toList, "8".toList, "9".toList, "1".toList, "2".toList, "6".toList, "7".toList, "2".toList, "1".toList, "9".toList, "5".toList, "3".toList, "4".toList, "8".toList, "189".toList, "189".toList, "189".toList, "234".toList, "234".toList, "234".toList, "567".toList, "567".toList, "567".toList, "1234789".toList, "1245689".toList, "1356789".toList, "2345789".toList, "1234568".toList, "1234679".toList, "1245678".toList, "2356789".toList, "1345679".toList, "1234789".toList, "1245689".toList, "1356789".toList, "2345789".toList, "1234568".toList, "1234679".toList, "1245678".toList, "2356789".toList, "1345679".toList, "1234789".toList, "1245689".toList, "1356789".toList, "2345789".toList, "1234568".toList, "1234679".toList, "1245678".toList, "2356789".toList, "1345679".toList, "1234789".toList, "1245689".toList, "1356789".toList, "2345789".toList, "1234568".toList, "1234679".toList, "1245678".toList, "2356789".toList, "1345679".toList, "1234789".toList, "1245689".toList, "1356789".toList, "2345789".toList, "1234568".toList, "1234679".toList, "1245678".toList, "2356789".toList, "1345679".toList, "1234789".toList, "1245689".toList, "1356789".toList, "2345789".toList, "1234568".toList, "1234679".toList, "1245678".toList, "2356789".toList, "1345679".toList]

def rsGm19 : GridMap :=
  ["5".toList, "3".toList, "4".toList, "6".toList, "7".toList, "8".toList, "9".toList, "1".toList, "2".toList, "6".toList, "7".toList, "2".toList, "1".toList, "9".toList, "5".toList, "3".toList, "4".toList, "8".toList, "1".toList, "89".toList, "89".toList, "234".toList, "234".toList, "234".toList, "567".toList, "567".toList, "567".toList, "234789".toList, "1245689".toList, "1356789".toList, "2345789".toList, "1234568".toList, "1234679".toList, "1245678".toList, "2356789".toList, "1345679".toList, "234789".toList, "1245689".toList, "1356789".toList, "2345789".toList, "1234568".toList, "1234679".toList, "1245678".toList, "2356789".toList, "1345679".toList, "234789".toList, "1245689".toList, "1356789".toList, "2345789".toList, "1234568".toList, "1234679".toList, "1245678".toList, "2356789".toList, "1345679".toList, "234789".toList, "1245689".toList, "1356789".toList, "2345789".toList, "1234568".toList, "1234679".toList, "1245678".toList, "2356789".toList, "1345679".toList, "234789".toList, "1245689".toList, "1356789".toList, "2345789".toList, "1234568".toList, "1234679".toList, "1245678".toList, "2356789".toList, "1345679".toList, "234789".toList, "1245689".toList, "1356789".toList, "2345789".toList, "1234568".toList, "1234679".toList, "1245678".toList, "2356789".toList, "1345679".toList]

def rsGm20 : GridMap :=
  ["5".toList, "3".toList, "4".toList, "6".toList, "7".toList, "8".toList, "9".toList, "1".toList, "2".toList, "6".toList, "7".toList, "2".toList, "1".toList, "9".toList, "5".toList, "3".toList, "4".toList, "8".toList, "1".toList, "9".toList, "8".toList, "234".toList, "234".toList, "234".toList, "567".toList, "567".toList, "567".toList, "234789".toList, "124568".toList, "135679".toList, "2345789".toList, "1234568".toList, "1234679".toList, "1245678".toList, "2356789".toList, "1345679".toList, "234789".toList, "124568".toList, "135679".toList, "2345789".toList, "1234568".toList, "1234679".toList, "1245678".toList, "2356789".toList, "1345679".toList, "234789".toList, "124568".toList, "135679".toList, "2345789".toList, "1234568".toList, "1234679".toList, "1245678".toList, "2356789".toList, "1345679".toList, "234789".toList, "124568".toList, "135679".toList, "2345789".toList, "1234568".toList, "1234679".toList, "1245678".toList, "2356789".toList, "1345679".toList, "234789".toList, "124568".toList, "135679".toList, "2345789".toList, "1234568".toList, "1234679".toList, "1245678".toList, "2356789".toList, "1345679".toList, "234789".toList, "124568".toList, "135679".toList, "2345789".toList, "1234568".toList, "1234679".toList, "1245678".toList, "2356789".toList, "1345679".toList]

def rsGm21 : GridMap :=
  ["5".toList, "3".toList, "4".toList, "6".toList, "7".toList, "8".toList, "9".toList, "1".toList, "2".toList, "6".toList, "7".toList, "2".toList, "1".toList, "9".toList, "5".toList, "3".toList, "4".toList, "8".toList, "1".toList, "9".toList, "8".toList, "234".toList, "234".toList, "234".toList, "567".toList, "567".toList, "567".toList, "234789".toList, "124568".toList, "135679".toList, "2345789".toList, "1234568".toList, "1234679".toList, "1245678".toList, "2356789".toList, "1345679".toList, "234789".toList, "124568".toList, "135679".toList, "2345789".toList, "1234568".toList, "1234679".toList, "1245678".toList, "2356789".toList, "1345679".toList, "234789".toList, "124568".toList, "135679".toList, "2345789".toList, "1234568".toList, "1234679".toList, "1245678".toList, "2356789".toList, "1345679".toList, "234789".toList, "124568".toList, "135679".toList, "2345789".toList, "1234568".toList, "1234679".toList, "1245678".toList, "2356789".toList, "1345679".toList, "234789".toList, "124568".toList, "135679".toList, "2345789".toList, "1234568".toList, "1234679".toList, "1245678".toList, "2356789".toList, "1345679".toList, "234789".toList, "124568".toList, "135679".toList, "2345789".toList, "1234568".toList, "1234679".toList, "1245678".toList, "2356789".toList, "1345679".toList]

def rsGm22 : GridMap :=
  ["5".toList, "3".toList, "4".toList, "6".toList, "7".toList, "8".toList, "9".toList, "1".toList, "2".toList, "6".toList, "7".toList, "2".toList, "1".toList, "9".toList, "5".toList, "3".toList, "4".toList, "8".toList, "1".toList, "9".toList, "8".toList, "3".toList, "24".toList, "24".toList, "567".toList, "567".toList, "567".toList, "234789".toList, "124568".toList, "135679".toList, "245789".toList, "1234568".toList, "1234679".toList, "1245678".toList, "2356789".toList, "1345679".toList, "234789".toList, "124568".toList, "135679".toList, "245789".toList, "1234568".toList, "1234679".toList, "1245678".toList, "2356789".toList, "1345679".toList, "234789".toList, "124568".toList, "135679".toList, "245789".toList, "1234568".toList, "1234679".toList, "1245678".toList, "2356789".toList, "1345679".toList, "234789".toList, "124568".toList, "135679".toList, "245789".toList, "1234568".toList, "1234679".toList, "1245678".toList, "2356789".toList, "1345679".toList, "234789".toList, "124568".toList, "135679".toList, "245789".toList, "1234568".toList, "1234679".toList, "1245678".toList, "2356789".toList, "1345679".toList, "234789".toList, "124568".toList, "135679".toList, "245789".toList, "1234568".toList, "1234679".toList, "1245678".toList, "2356789".toList, "1345679".toList]

def rsGm23 : GridMap :=
  ["5".toList, "3".toList, "4".toList, "6".toList, "7".toList, "8".toList, "9".toList, "1".toList, "2".toList, "6".toList, "7".toList, "2".toList, "1".toList, "9".toList, "5".toList, "3".toList, "4".toList, "8".toList, "1".toList, "9".toList, "8".toList, "3".toList, "4".toList, "2".toList, "567".toList, "567".toList, "567".toList, "234789".toList, "124568".toList, "135679".toList, "245789".toList, "123568".toList, "134679".toList, "1245678".toList, "2356789".toList, "1345679".toList, "234789".toList, "124568".toList, "135679".toList, "245789".toList, "123568".toList, "134679".toList, "1245678".toList, "2356789".toList, "1345679".toList, "234789".toList, "124568".toList, "135679".toList, "245789".toList, "123568".toList, "134679".toList, "1245678".toList, "2356789".toList, "1345679".toList, "234789".toList, "124568".toList, "135679".toList, "245789".toList, "123568".toList, "134679".toList, "1245678".toList, "2356789".toList, "1345679".toList, "234789".toList, "124568".toList, "135679".toList, "245789".toList, "123568".toList, "134679".toList, "1245678".toList, "2356789".toList, "1345679".toList, "234789".toList, "124568".toList, "135679".toList, "245789".toList, "123568".toList, "134679".toList, "1245678".toList, "2356789".toList, "1345679".toList]

def rsGm24 : GridMap :=
  ["5".toList, "3".toList, "4".toList, "6".toList, "7".toList, "8".toList, "9".toList, "1".toList, "2".toList, "6".toList, "7".toList, "2".toList, "1".toList, "9".toList, "5".toList, "3".toList, "4".toList, "8".toList, "1".toList, "9".toList, "8".toList, "3".toList, "4".toList, "2".toList, "567".toList, "567".toList, "567".toList, "234789".toList, "124568".toList, "135679".toList, "245789".toList, "123568".toList, "134679".toList, "1245678".toList, "2356789".toList, "1345679".toList, "234789".toList, "124568".toList, "135679".toList, "245789".toList, "123568".toList, "134679".toList, "1245678".toList, "2356789".toList, "1345679".toList, "234789".toList, "124568".toList, "135679".toList, "245789".toList, "123568".toList, "134679".toList, "1245678".toList, "2356789".toList, "1345679".toList, "234789".toList, "124568".toList, "135679".toList, "245789".toList, "123568".toList, "134679".toList, "1245678".toList, "2356789".toList, "1345679".toList, "234789".toList, "124568".toList, "135679".toList, "245789".toList, "123568".toList, "134679".toList, "1245678".toList, "2356789".toList, "1345679".toList, "234789".toList, "124568".toList, "135679".toList, "245789".toList, "123568".toList, "134679".toList, "1245678".toList, "2356789".toList, "1345679".toList]

def rsGm25 : GridMap :=
  ["5".toList, "3".toList, "4".toList, "6".toList, "7".toList, "8".toList, "9".toList, "1".toList, "2".toList, "6".toList, "7".toList, "2".toList, "1".toList, "9".toList, "5".toList, "3".toList, "4".toList, "8".toList, "1".toList, "9".toList, "8".toList, "3".toList, "4".toList, "2".toList, "5".toList, "67".toList, "67".toList, "234789".toList, "124568".toList, "135679".toList, "245789".toList, "123568".toList, "134679".toList, "124678".toList, "2356789".toList, "1345679".toList, "234789".toList, "124568".toList, "135679".toList, "245789".toList, "123568".toList, "134679".toList, "124678".toList, "2356789".toList, "1345679".toList, "234789".toList, "124568".toList, "135679".toList, "245789".toList, "123568".toList, "134679".toList, "124678".toList, "2356789".toList, "1345679".toList, "234789".toList, "124568".toList, "135679".toList, "245789".toList, "123568".toList, "134679".toList, "124678".toList, "2356789".toList, "1345679".toList, "234789".toList, "124568".toList, "135679".toList, "245789".toList, "123568".toList, "134679".toList, "124678".toList, "2356789".toList, "1345679".toList, "234789".toList, "124568".toList, "135679".toList, "245789".toList, "123568".toList, "134679".toList, "124678".toList, "2356789".toList, "1345679".toList]

def rsGm26 : GridMap :=
  ["5".toList, "3".toList, "4".toList, "6".toList, "7".toList, "8".toList, "9".toList, "1".toList, "2".toList, "6".toList, "7".toList, "2".toList, "1".toList, "9".toList, "5".toList, "3".toList, "4".toList, "8".toList, "1".toList, "9".toList, "8".toList, "3".toList, "4".toList, "2".toList, "5".toList, "6".toList, "7".toList, "234789".toList, "124568".toList, "135679".toList, "245789".toList, "123568".toList, "134679".toList, "124678".toList, "235789".toList, "134569".toList, "234789".toList, "124568".toList, "135679".toList, "245789".toList, "123568".toList, "134679".toList, "124678".toList, "235789".toList, "134569".toList, "234789".toList, "124568".toList, "135679".toList, "245789".toList, "123568".toList, "134679".toList, "124678".toList, "235789".toList, "134569".toList, "234789".toList, "124568".toList, "135679".toList, "245789".toList, "123568".toList, "134679".toList, "124678".toList, "235789".toList, "134569".toList, "234789".toList, "124568".toList, "135679".toList, "245789".toList, "123568".toList, "134679".toList, "124678".toList, "235789".toList, "134569".toList, "234789".toList, "124568".toList, "135679".toList, "245789".toList, "123568".toList, "134679".toList, "124678".toList, "235789".toList, "134569".toList]

def rsGm27 : GridMap :=
  ["5".toList, "3".toList, "4".toList, "6".toList, "7".toList, "8".toList, "9".toList, "1".toList, "2".toList, "6".toList, "7".toList, "2".toList, "1".toList, "9".toList, "5".toList, "3".toList, "4".toList, "8".toList, "1".toList, "9".toList, "8".toList, "3".toList, "4".toList, "2".toList, "5".toList, "6".toList, "7".toList, "234789".toList, "124568".toList, "135679".toList, "245789".toList, "123568".toList, "134679".toList, "124678".toList, "235789".toList, "134569".toList, "234789".toList, "124568".toList, "135679".toList, "245789".toList, "123568".toList, "134679".toList, "124678".toList, "235789".toList, "134569".toList, "234789".toList, "124568".toList, "135679".toList, "245789".toList, "123568".toList, "134679".toList, "124678".toList, "235789".toList, "134569".toList, "234789".toList, "124568".toList, "135679".toList, "245789".toList, "123568".toList, "134679".toList, "124678".toList, "235789".toList, "134569".toList, "234789".toList, "124568".toList, "135679".toList, "245789".toList, "123568".toList, "134679".toList, "124678".toList, "235789".toList, "134569".toList, "234789".toList, "124568".toList, "135679".toList, "245789".toList, "123568".toList, "134679".toList, "124678".toList, "235789".toList, "134569".toList]

def rsGm28 : GridMap :=
  ["5".toList, "3".toList, "4".toList, "6".toList, "7".toList, "8".toList, "9".toList, "1".toList, "2".toList, "6".toList, "7".toList, "2".toList, "1".toList, "9".toList, "5".toList, "3".toList, "4".toList, "8".toList, "1".toList, "9".toList, "8".toList, "3".toList, "4".toList, "2".toList, "5".toList, "6".toList, "7".toList, "8".toList, "12456".toList, "135679".toList, "24579".toList, "12356".toList, "134679".toList, "12467".toList, "23579".toList, "134569".toList, "23479".toList, "12456".toList, "135679".toList, "245789".toList, "123568".toList, "134679".toList, "124678".toList, "235789".toList, "134569".toList, "23479".toList, "12456".toList, "135679".toList, "245789".toList, "123568".toList, "134679".toList, "124678".toList, "235789".toList, "134569".toList, "23479".toList, "124568".toList, "135679".toList, "245789".toList, "123568".toList, "134679".toList, "124678".toList, "235789".toList, "134569".toList, "23479".toList, "124568".toList, "135679".toList, "245789".toList, "123568".toList, "134679".toList, "124678".toList, "235789".toList, "134569".toList, "23479".toList, "124568".toList, "135679".toList, "245789".toList, "123568".toList, "134679".toList, "124678".toList, "235789".toList, "134569".toList]

def rsGm29 : GridMap :=
  ["5".toList, "3".toList, "4".toList, "6".toList, "7".toList, "8".toList, "9".toList, "1".toList, "2".toList, "6".toList, "7".toList, "2".toList, "1".toList, "9".toList, "5".toList, "3".toList, "4".toList, "8".toList, "1".toList, "9".toList, "8".toList, "3".toList, "4".toList, "2".toList, "5".toList, "6".toList, "7".toList, "8".toList, "5".toList, "13679".toList, "2479".toList, "1236".toList, "134679".toList, "12467".toList, "2379".toList, "13469".toList, "23479".toList, "1246".toList, "13679".toList, "245789".toList, "123568".toList, "134679".toList, "124678".toList, "235789".toList, "134569".toList, "23479".toList, "1246".toList, "13679".toList, "245789".toList, "123568".toList, "134679".toList, "124678".toList, "235789".toList, "134569".toList, "23479".toList, "12468".toList, "135679".toList, "245789".toList, "123568".toList, "134679".toList, "124678".toList, "235789".toList, "134569".toList, "23479".toList, "12468".toList, "135679".toList, "245789".toList, "123568".toList, "134679".toList, "124678".toList, "235789".toList, "134569".toList, "23479".toList, "12468".toList, "135679".toList, "245789".toList, "123568".toList, "134679".toList, "124678".toList, "235789".toList, "134569".toList]

def rsGm30 : GridMap :=
  ["5".toList, "3".toList, "4".toList, "6".toList, "7".toList, "8".toList, "9".toList, "1".toList, "2".toList, "6".toList, "7".toList, "2".toList, "1".toList, "9".toList, "5".toList, "3".toList, "4".toList, "8".toList, "1".toList, "9".toList, "8".toList, "3".toList, "4".toList, "2".toList, "5".toList, "6".toList, "7".toList, "8".toList, "5".toList, "9".toList, "247".toList, "1236".toList, "13467".toList, "12467".toList, "237".toList, "1346".toList, "2347".toList, "1246".toList, "1367".toList, "245789".toList, "123568".toList, "134679".toList, "124678".toList, "235789".toList, "134569".toList, "2347".toList, "1246".toList, "1367".toList, "245789".toList, "123568".toList, "134679".toList, "124678".toList, "235789".toList, "134569".toList, "23479".toList, "12468".toList, "13567".toList, "245789".toList, "123568".toList, "134679".toList, "124678".toList, "235789".toList, "134569".toList, "23479".toList, "12468".toList, "13567".toList, "245789".toList, "123568".toList, "134679".toList, "124678".toList, "235789".toList, "134569".toList, "23479".toList, "12468".toList, "13567".toList, "245789".toList, "123568".toList, "134679".toList, "124678".toList, "235789".toList, "134569".toList]

def rsGm31 : GridMap :=
  ["5".toList, "3".toList, "4".toList, "6".toList, "7".toList, "8".toList, "9".toList, "1".toList, "2".toList, "6".toList, "7".toList, "2".toList, "1".toList, "9".toList, "5".toList, "3".toList, "4".toList, "8".toList, "1".toList, "9".toList, "8".toList, "3".toList, "4".toList, "2".toList, "5".toList, "6".toList, "7".toList, "8".toList, "5".toList, "9".toList, "7".toList, "1236".toList, "1346".toList, "1246".toList, "23".toList, "1346".toList, "2347".toList, "1246".toList, "1367".toList, "24589".toList, "123568".toList, "13469".toList, "124678".toList, "235789".toList, "134569".toList, "2347".toList, "1246".toList, "1367".toList, "24589".toList, "123568".toList, "13469".toList, "124678".toList, "235789".toList, "134569".toList, "23479".toList, "12468".toList, "13567".toList, "24589".toList, "123568".toList, "134679".toList, "124678".toList, "235789".toList, "134569".toList, "23479".toList, "12468".toList, "13567".toList, "24589".toList, "123568".toList, "134679".toList, "124678".toList, "235789".toList, "134569".toList, "23479".toList, "12468".toList, "13567".toList, "24589".toList, "123568".toList, "134679".toList, "124678".toList, "235789".toList, "134569".toList]

def rsGm32 : GridMap :=
  ["5".toList, "3".toList, "4".toList, "6".toList, "7".toList, "8".toList, "9".toList, "1".toList, "2".toList, "6".toList, "7".toList, "2".toList, "1".toList, "9".toList, "5".toList, "3".toList, "4".toList, "8".toList, "1".toList, "9".toList, "8".toList, "3".toList, "4".toList, "2".toList, "5".toList, "6".toList, "7".toList, "8".toList, "5".toList, "9".toList, "7".toList, "6".toList, "134".toList, "124".toList, "23".toList, "134".toList, "2347".toList, "1246".toList, "1367".toList, "24589".toList, "12358".toList, "1349".toList, "124678".toList, "235789".toList, "134569".toList, "2347".toList, "1246".toList, "1367".toList, "24589".toList, "12358".toList, "1349".toList, "124678".toList, "235789".toList, "134569".toList, "23479".toList, "12468".toList, "13567".toList, "24589".toList, "12358".toList, "134679".toList, "124678".toList, "235789".toList, "134569".toList, "23479".toList, "12468".toList, "13567".toList, "24589".toList, "12358".toList, "134679".toList, "124678".toList, "235789".toList, "134569".toList, "23479".toList, "12468".toList, "13567".toList, "24589".toList, "12358".toList, "134679".toList, "124678".toList, "235789".toList, "134569".toList]

def rsGm33 : GridMap :=
  ["5".toList, "3".toList, "4".toList, "6".toList, "7".toList, "8".toList, "9".toList, "1".toList, "2".toList, "6".toList, "7".toList, "2".toList, "1".toList, "9".toList, "5".toList, "3".toList, "4".toList, "8".toList, "1".toList, "9".toList, "8".toList, "3".toList, "4".toList, "2".toList, "5".toList, "6".toList, "7".toList, "8".toList, "5".toList, "9".toList, "7".toList, "6".toList, "1".toList, "24".toList, "23".toList, "34".toList, "2347".toList, "1246".toList, "1367".toList, "24589".toList, "2358".toList, "349".toList, "124678".toList, "235789".toList, "134569".toList, "2347".toList, "1246".toList, "1367".toList, "24589".toList, "2358".toList, "349".toList, "124678".toList, "235789".toList, "134569".toList, "23479".toList, "12468".toList, "13567".toList, "24589".toList, "12358".toList, "34679".toList, "124678".toList, "235789".toList, "134569".toList, "23479".toList, "12468".toList, "13567".toList, "24589".toList, "12358".toList, "34679".toList, "124678".toList, "235789".toList, "134569".toList, "23479".toList, "12468".toList, "13567".toList, "24589".toList, "12358".toList, "34679".toList, "124678".toList, "235789".toList, "134569".toList]

def rsGm34 : GridMap :=
  ["5".toList, "3".toList, "4".toList, "6".toList, "7".toList, "8".toList, "9".toList, "1".toList, "2".toList, "6".toList, "7".toList, "2".toList, "1".toList, "9".toList, "5".toList, "3".toList, "4".toList, "8".toList, "1".toList, "9".toList, "8".toList, "3".toList, "4".toList, "2".toList, "5".toList, "6".toList, "7".toList, "8".toList, "5".toList, "9".toList, "7".toList, "6".toList, "1".toList, "4".toList, "2".toList, "3".toList, "2347".toList, "1246".toList, "1367".toList, "24589".toList, "2358".toList, "349".toList, "1678".toList, "5789".toList, "1569".toList, "2347".toList, "1246".toList, "1367".toList, "24589".toList, "2358".toList, "349".toList, "1678".toList, "5789".toList, "1569".toList, "23479".toList, "12468".toList, "13567".toList, "24589".toList, "12358".toList, "34679".toList, "12678".toList, "35789".toList, "14569".toList, "23479".toList, "12468".toList, "13567".toList, "24589".toList, "12358".toList, "34679".toList, "12678".toList, "35789".toList, "14569".toList, "23479".toList, "12468".toList, "13567".toList, "24589".toList, "12358".toList, "34679".toList, "12678".toList, "35789".toList, "14569".toList]

def rsGm35 : GridMap :=
  ["5".toList, "3".toList, "4".toList, "6".toList, "7".toList, "8".toList, "9".toList, "1".toList, "2".toList, "6".toList, "7".toList, "2".toList, "1".toList, "9".toList, "5".toList, "3".toList, "4".toList, "8".toList, "1".toList, "9".toList, "8".toList, "3".toList, "4".toList, "2".toList, "5".toList, "6".toList, "7".toList, "8".toList, "5".toList, "9".toList, "7".toList, "6".toList, "1".toList, "4".toList, "2".toList, "3".toList, "2347".toList, "1246".toList, "1367".toList, "24589".toList, "2358".toList, "349".toList, "1678".toList, "5789".toList, "1569".toList, "2347".toList, "1246".toList, "1367".toList, "24589".toList, "2358".toList, "349".toList, "1678".toList, "5789".toList, "1569".toList, "23479".toList, "12468".toList, "13567".toList, "24589".toList, "12358".toList, "34679".toList, "12678".toList, "35789".toList, "14569".toList, "23479".toList, "12468".toList, "13567".toList, "24589".toList, "12358".toList, "34679".toList, "12678".toList, "35789".toList, "14569".toList, "23479".toList, "12468".toList, "13567".toList, "24589".toList, "12358".toList, "34679".toList, "12678".toList, "35789".toList, "14569".toList]

def rsGm36 : GridMap :=
  ["5".toList, "3".toList, "4".toList, "6".toList, "7".toList, "8".toList, "9".toList, "1".toList, "2".toList, "6".toList, "7".toList, "2".toList, "1".toList, "9".toList, "5".toList, "3".toList, "4".toList, "8".toList, "1".toList, "9".toList, "8".toList, "3".toList, "4".toList, "2".toList, "5".toList, "6".toList, "7".toList, "8".toList, "5".toList, "9".toList, "7".toList, "6".toList, "1".toList, "4".toList, "2".toList, "3".toList, "2347".toList, "1246".toList, "1367".toList, "24589".toList, "2358".toList, "349".toList, "1678".toList, "5789".toList, "1569".toList, "2347".toList, "1246".toList, "1367".toList, "24589".toList, "2358".toList, "349".toList, "1678".toList, "5789".toList, "1569".toList, "23479".toList, "12468".toList, "13567".toList, "24589".toList, "12358".toList, "34679".toList, "12678".toList, "35789".toList, "14569".toList, "23479".toList, "12468".toList, "13567".toList, "24589".toList, "12358".toList, "34679".toList, "12678".toList, "35789".toList, "14569".toList, "23479".toList, "12468".toList, "13567".toList, "24589".toList, "12358".toList, "34679".toList, "12678".toList, "35789".toList, "14569".toList]

def rsGm37 : GridMap :=
  ["5".toList, "3".toList, "4".toList, "6".toList, "7".toList, "8".toList, "9".toList, "1".toList, "2".toList, "6".toList, "7".toList, "2".toList, "1".toList, "9".toList, "5".toList, "3".toList, "4".toList, "8".toList, "1".toList, "9".toList, "8".toList, "3".toList, "4".toList, "2".toList, "5".toList, "6".toList, "7".toList, "8".toList, "5".toList, "9".toList, "7".toList, "6".toList, "1".toList, "4".toList, "2".toList, "3".toList, "4".toList, "126".toList, "1367".toList, "2589".toList, "2358".toList, "39".toList, "1678".toList, "5789".toList, "1569".toList, "237".toList, "126".toList, "1367".toList, "24589".toList, "2358".toList, "349".toList, "1678".toList, "5789".toList, "1569".toList, "2379".toList, "12468".toList, "13567".toList, "24589".toList, "12358".toList, "34679".toList, "12678".toList, "35789".toList, "14569".toList, "2379".toList, "12468".toList, "13567".toList, "24589".toList, "12358".toList, "34679".toList, "12678".toList, "35789".toList, "14569".toList, "2379".toList, "12468".toList, "13567".toList, "24589".toList, "12358".toList, "34679".toList, "12678".toList, "35789".toList, "14569".toList]

def rsGm38 : GridMap :=
  ["5".toList, "3".toList, "4".toList, "6".toList, "7".toList, "8".toList, "9".toList, "1".toList, "2".toList, "6".toList, "7".toList, "2".toList, "1".toList, "9".toList, "5".toList, "3".toList, "4".toList, "8".toList, "1".toList, "9".toList, "8".toList, "3".toList, "4".toList, "2".toList, "5".toList, "6".toList, "7".toList, "8".toList, "5".toList, "9".toList, "7".toList, "6".toList, "1".toList, "4".toList, "2".toList, "3".toList, "4".toList, "2".toList, "1367".toList, "589".toList, "358".toList, "39".toList, "1678".toList, "5789".toList, "1569".toList, "37".toList, "16".toList, "1367".toList, "24589".toList, "2358".toList, "349".toList, "1678".toList, "5789".toList, "1569".toList, "2379".toList, "1468".toList, "13567".toList, "24589".toList, "12358".toList, "34679".toList, "12678".toList, "35789".toList, "14569".toList, "2379".toList, "1468".toList, "13567".toList, "24589".toList, "12358".toList, "34679".toList, "12678".toList, "35789".toList, "14569".toList, "2379".toList, "1468".toList, "13567".toList, "24589".toList, "12358".toList, "34679".toList, "12678".toList, "35789".toList, "14569".toList]

def rsGm39 : GridMap :=
  ["5".toList, "3".toList, "4".toList, "6".toList, "7".toList, "8".toList, "9".toList, "1".toList, "2".toList, "6".toList, "7".toList, "2".toList, "1".toList, "9".toList, "5".toList, "3".toList, "4".toList, "8".toList, "1".toList, "9".toList, "8".toList, "3".toList, "4".toList, "2".toList, "5".toList, "6".toList, "7".toList, "8".toList, "5".toList, "9".toList, "7".toList, "6".toList, "1".toList, "4".toList, "2".toList, "3".toList, "4".toList, "2".toList, "6".toList, "589".toList, "358".toList, "39".toList, "178".toList, "5789".toList, "159".toList, "37".toList, "1".toList, "37".toList, "24589".toList, "2358".toList, "349".toList, "678".toList, "5789".toList, "569".toList, "2379".toList, "468".toList, "1357".toList, "24589".toList, "12358".toList, "34679".toList, "12678".toList, "35789".toList, "14569".toList, "2379".toList, "468".toList, "1357".toList, "24589".toList, "12358".toList, "34679".toList, "12678".toList, "35789".toList, "14569".toList, "2379".toList, "468".toList, "1357".toList, "24589".toList, "12358".toList, "34679".toList, "12678".toList, "35789".toList, "14569".toList]

def rsGm40 : GridMap :=
  ["5".toList, "3".toList, "4".toList, "6".toList, "7".toList, "8".toList, "9".toList, "1".toList, "2".toList, "6".toList, "7".toList, "2".toList, "1".toList, "9".toList, "5".toList, "3".toList, "4".toList, "8".toList, "1".toList, "9".toList, "8".toList, "3".toList, "4".toList, "2".toList, "5".toList, "6".toList, "7".toList, "8".toList, "5".toList, "9".toList, "7".toList, "6".toList, "1".toList, "4".toList, "2".toList, "3".toList, "4".toList, "2".toList, "6".toList, "8".toList, "35".toList, "39".toList, "17".toList, "579".toList, "159".toList, "37".toList, "1".toList, "37".toList, "2459".toList, "235".toList, "349".toList, "678".toList, "5789".toList, "569".toList, "2379".toList, "468".toList, "1357".toList, "2459".toList, "12358".toList, "34679".toList, "12678".toList, "35789".toList, "14569".toList, "2379".toList, "468".toList, "1357".toList, "2459".toList, "12358".toList, "34679".toList, "12678".toList, "35789".toList, "14569".toList, "2379".toList, "468".toList, "1357".toList, "2459".toList, "12358".toList, "34679".toList, "12678".toList, "35789".toList, "14569".toList]

def rsGm41 : GridMap :=
  ["5".toList, "3".toList, "4".toList, "6".toList, "7".toList, "8".toList, "9".toList, "1".toList, "2".toList, "6".toList, "7".toList, "2".toList, "1".toList, "9".toList, "5".toList, "3".toList, "4".toList, "8".toList, "1".toList, "9".toList, "8".toList, "3".toList, "4".toList, "2".toList, "5".toList, "6".toList, "7".toList, "8".toList, "5".toList, "9".toList, "7".toList, "6".toList, "1".toList, "4".toList, "2".toList, "3".toList, "4".toList, "2".toList, "6".toList, "8".toList, "5".toList, "3".toList, "17".toList, "79".toList, "19".toList, "37".toList, "1".toList, "37".toList, "49".toList, "2".toList, "49".toList, "678".toList, "5789".toList, "569".toList, "2379".toList, "468".toList, "1357".toList, "2459".toList, "138".toList, "4679".toList, "12678".toList, "35789".toList, "14569".toList, "2379".toList, "468".toList, "1357".toList, "2459".toList, "138".toList, "4679".toList, "12678".toList, "35789".toList, "14569".toList, "2379".toList, "468".toList, "1357".toList, "2459".toList, "138".toList, "4679".toList, "12678".toList, "35789".toList, "14569".toList]

def rsGm42 : GridMap :=
  ["5".toList, "3".toList, "4".toList, "6".toList, "7".toList, "8".toList, "9".toList, "1".toList, "2".toList, "6".toList, "7".toList, "2".toList, "1".toList, "9".toList, "5".toList, "3".toList, "4".toList, "8".toList, "1".toList, "9".toList, "8".toList, "3".toList, "4".toList, "2".toList, "5".toList, "6".toList, "7".toList, "8".toList, "5".toList, "9".toList, "7".toList, "6".toList, "1".toList, "4".toList, "2".toList, "3".toList, "4".toList, "2".toList, "6".toList, "8".toList, "5".toList, "3".toList, "17".toList, "79".toList, "19".toList, "37".toList, "1".toList, "37".toList, "49".toList, "2".toList, "49".toList, "678".toList, "5789".toList, "569".toList, "2379".toList, "468".toList, "1357".toList, "2459".toList, "138".toList, "4679".toList, "12678".toList, "35789".toList, "14569".toList, "2379".toList, "468".toList, "1357".toList, "2459".toList, "138".toList, "4679".toList, "12678".toList, "35789".toList, "14569".toList, "2379".toList, "468".toList, "1357".toList, "2459".toList, "138".toList, "4679".toList, "12678".toList, "35789".toList, "14569".toList]

def rsGm43 : GridMap :=
  ["5".toList, "3".toList, "4".toList, "6".toList, "7".toList, "8".toList, "9".toList, "1".toList, "2".toList, "6".toList, "7".toList, "2".toList, "1".toList, "9".toList, "5".toList, "3".toList, "4".toList, "8".toList, "1".toList, "9".toList, "8".toList, "3".toList, "4".toList, "2".toList, "5".toList, "6".toList, "7".toList, "8".toList, "5".toList, "9".toList, "7".toList, "6".toList, "1".toList, "4".toList, "2".toList, "3".toList, "4".toList, "2".toList, "6".toList, "8".toList, "5".toList, "3".toList, "7".toList, "9".toList, "1".toList, "37".toList, "1".toList, "37".toList, "49".toList, "2".toList, "49".toList, "68".toList, "58".toList, "56".toList, "2379".toList, "468".toList, "1357".toList, "2459".toList, "138".toList, "4679".toList, "1268".toList, "3578".toList, "4569".toList, "2379".toList, "468".toList, "1357".toList, "2459".toList, "138".toList, "4679".toList, "1268".toList, "3578".toList, "4569".toList, "2379".toList, "468".toList, "1357".toList, "2459".toList, "138".toList, "4679".toList, "1268".toList, "3578".toList, "4569".toList]

def rsGm44 : GridMap :=
  ["5".toList, "3".toList, "4".toList, "6".toList, "7".toList, "8".toList, "9".toList, "1".toList, "2".toList, "6".toList, "7".toList, "2".toList, "1".toList, "9".toList, "5".toList, "3".toList, "4".toList, "8".toList, "1".toList, "9".toList, "8".toList, "3".toList, "4".toList, "2".toList, "5".toList, "6".toList, "7".toList, "8".toList, "5".toList, "9".toList, "7".toList, "6".toList, "1".toList, "4".toList, "2".toList, "3".toList, "4".toList, "2".toList, "6".toList, "8".toList, "5".toList, "3".toList, "7".toList, "9".toList, "1".toList, "37".toList, "1".toList, "37".toList, "49".toList, "2".toList, "49".toList, "68".toList, "58".toList, "56".toList, "2379".toList, "468".toList, "1357".toList, "2459".toList, "138".toList, "4679".toList, "1268".toList, "3578".toList, "4569".toList, "2379".toList, "468".toList, "1357".toList, "2459".toList, "138".toList, "4679".toList, "1268".toList, "3578".toList, "4569".toList, "2379".toList, "468".toList, "1357".toList, "2459".toList, "138".toList, "4679".toList, "1268".toList, "3578".toList, "4569".toList]

def rsGm45 : GridMap :=
  ["5".toList, "3".toList, "4".toList, "6".toList, "7".toList, "8".toList, "9".toList, "1".toList, "2".toList, "6".toList, "7".toList, "2".toList, "1".toList, "9".toList, "5".toList, "3".toList, "4".toList, "8".toList, "1".toList, "9".toList, "8".toList, "3".toList, "4".toList, "2".toList, "5".toList, "6".toList, "7".toList, "8".toList, "5".toList, "9".toList, "7".toList, "6".toList, "1".toList, "4".toList, "2".toList, "3".toList, "4".toList, "2".toList, "6".toList, "8".toList, "5".toList, "3".toList, "7".toList, "9".toList, "1".toList, "37".toList, "1".toList, "37".toList, "49".toList, "2".toList, "49".toList, "68".toList, "58".toList, "56".toList, "2379".toList, "468".toList, "1357".toList, "2459".toList, "138".toList, "4679".toList, "1268".toList, "3578".toList, "4569".toList, "2379".toList, "468".toList, "1357".toList, "2459".toList, "138".toList, "4679".toList, "1268".toList, "3578".toList, "4569".toList, "2379".toList, "468".toList, "1357".toList, "2459".toList, "138".toList, "4679".toList, "1268".toList, "3578".toList, "4569".toList]

def rsGm46 : GridMap :=
  ["5".toList, "3".toList, "4".toList, "6".toList, "7".toList, "8".toList, "9".toList, "1".toList, "2".toList, "6".toList, "7".toList, "2".toList, "1".toList, "9".toList, "5".toList, "3".toList, "4".toList, "8".toList, "1".toList, "9".toList, "8".toList, "3".toList, "4".toList, "2".toList, "5".toList, "6".toList, "7".toList, "8".toList, "5".toList, "9".toList, "7".toList, "6".toList, "1".toList, "4".toList, "2".toList, "3".toList, "4".toList, "2".toList, "6".toList, "8".toList, "5".toList, "3".toList, "7".toList, "9".toList, "1".toList, "7".toList, "1".toList, "3".toList, "49".toList, "2".toList, "49".toList, "68".toList, "58".toList, "56".toList, "239".toList, "468".toList, "157".toList, "2459".toList, "138".toList, "4679".toList, "1268".toList, "3578".toList, "4569".toList, "239".toList, "468".toList, "157".toList, "2459".toList, "138".toList, "4679".toList, "1268".toList, "3578".toList, "4569".toList, "239".toList, "468".toList, "157".toList, "2459".toList, "138".toList, "4679".toList, "1268".toList, "3578".toList, "4569".toList]

def rsGm47 : GridMap :=
  ["5".toList, "3".toList, "4".toList, "6".toList, "7".toList, "8".toList, "9".toList, "1".toList, "2".toList, "6".toList, "7".toList, "2".toList, "1".toList, "9".toList, "5".toList, "3".toList, "4".toList, "8".toList, "1".toList, "9".toList, "8".toList, "3".toList, "4".toList, "2".toList, "5".toList, "6".toList, "7".toList, "8".toList, "5".toList, "9".toList, "7".toList, "6".toList, "1".toList, "4".toList, "2".toList, "3".toList, "4".toList, "2".toList, "6".toList, "8".toList, "5".toList, "3".toList, "7".toList, "9".toList, "1".toList, "7".toList, "1".toList, "3".toList, "49".toList, "2".toList, "49".toList, "68".toList, "58".toList, "56".toList, "239".toList, "468".toList, "157".toList, "2459".toList, "138".toList, "4679".toList, "1268".toList, "3578".toList, "4569".toList, "239".toList, "468".toList, "157".toList, "2459".toList, "138".toList, "4679".toList, "1268".toList, "3578".toList, "4569".toList, "239".toList, "468".toList, "157".toList, "2459".toList, "138".toList, "4679".toList, "1268".toList, "3578".toList, "4569".toList]

def rsGm48 : GridMap :=
  ["5".toList, "3".toList, "4".toList, "6".toList, "7".toList, "8".toList, "9".toList, "1".toList, "2".toList, "6".toList, "7".toList, "2".toList, "1".toList, "9".toList, "5".toList, "3".toList, "4".toList, "8".toList, "1".toList, "9".toList, "8".toList, "3".toList, "4".toList, "2".toList, "5".toList, "6".toList, "7".toList, "8".toList, "5".toList, "9".toList, "7".toList, "6".toList, "1".toList, "4".toList, "2".toList, "3".toList, "4".toList, "2".toList, "6".toList, "8".toList, "5".toList, "3".toList, "7".toList, "9".toList, "1".toList, "7".toList, "1".toList, "3".toList, "49".toList, "2".toList, "49".toList, "68".toList, "58".toList, "56".toList, "239".toList, "468".toList, "157".toList, "2459".toList, "138".toList, "4679".toList, "1268".toList, "3578".toList, "4569".toList, "239".toList, "468".toList, "157".toList, "2459".toList, "138".toList, "4679".toList, "1268".toList, "3578".toList, "4569".toList, "239".toList, "468".toList, "157".toList, "2459".toList, "138".toList, "4679".toList, "1268".toList, "3578".toList, "4569".toList]

def rsGm49 : GridMap :=
  ["5".toList, "3".toList, "4".toList, "6".toList, "7".toList, "8".toList, "9".toList, "1".toList, "2".toList, "6".toList, "7".toList, "2".toList, "1".toList, "9".toList, "5".toList, "3".toList, "4".toList, "8".toList, "1".toList, "9".toList, "8".toList, "3".toList, "4".toList, "2".toList, "5".toList, "6".toList, "7".toList, "8".toList, "5".toList, "9".toList, "7".toList, "6".toList, "1".toList, "4".toList, "2".toList, "3".toList, "4".toList, "2".toList, "6".toList, "8".toList, "5".toList, "3".toList, "7".toList, "9".toList, "1".toList, "7".toList, "1".toList, "3".toList, "9".toList, "2".toList, "4".toList, "68".toList, "58".toList, "56".toList, "239".toList, "468".toList, "157".toList, "245".toList, "138".toList, "679".toList, "1268".toList, "3578".toList, "4569".toList, "239".toList, "468".toList, "157".toList, "245".toList, "138".toList, "679".toList, "1268".toList, "3578".toList, "4569".toList, "239".toList, "468".toList, "157".toList, "245".toList, "138".toList, "679".toList, "1268".toList, "3578".toList, "4569".toList]

def rsGm50 : GridMap :=
  ["5".toList, "3".toList, "4".toList, "6".toList, "7".toList, "8".toList, "9".toList, "1".toList, "2".toList, "6".toList, "7".toList, "2".toList, "1".toList, "9".toList, "5".toList, "3".toList, "4".toList, "8".toList, "1".toList, "9".toList, "8".toList, "3".toList, "4".toList, "2".toList, "5".toList, "6".toList, "7".toList, "8".toList, "5".toList, "9".toList, "7".toList, "6".toList, "1".toList, "4".toList, "2".toList, "3".toList, "4".toList, "2".toList, "6".toList, "8".toList, "5".toList, "3".toList, "7".toList, "9".toList, "1".toList, "7".toList, "1".toList, "3".toList, "9".toList, "2".toList, "4".toList, "68".toList, "58".toList, "56".toList, "239".toList, "468".toList, "157".toList, "245".toList, "138".toList, "679".toList, "1268".toList, "3578".toList, "4569".toList, "239".toList, "468".toList, "157".toList, "245".toList, "138".toList, "679".toList, "1268".toList, "3578".toList, "4569".toList, "239".toList, "468".toList, "157".toList, "245".toList, "138".toList, "679".toList, "1268".toList, "3578".toList, "4569".toList]

def rsGm51 : GridMap :=
  ["5".toList, "3".toList, "4".toList, "6".toList, "7".toList, "8".toList, "9".toList, "1".toList, "2".toList, "6".toList, "7".toList, "2".toList, "1".toList, "9".toList, "5".toList, "3".toList, "4".toList, "8".toList, "1".toList, "9".toList, "8".toList, "3".toList, "4".toList, "2".toList, "5".toList, "6".toList, "7".toList, "8".toList, "5".toList, "9".toList, "7".toList, "6".toList, "1".toList, "4".toList, "2".toList, "3".toList, "4".toList, "2".toList, "6".toList, "8".toList, "5".toList, "3".toList, "7".toList, "9".toList, "1".toList, "7".toList, "1".toList, "3".toList, "9".toList, "2".toList, "4".toList, "68".toList, "58".toList, "56".toList, "239".toList, "468".toList, "157".toList, "245".toList, "138".toList, "679".toList, "1268".toList, "3578".toList, "4569".toList, "239".toList, "468".toList, "157".toList, "245".toList, "138".toList, "679".toList, "1268".toList, "3578".toList, "4569".toList, "239".toList, "468".toList, "157".toList, "245".toList, "138".toList, "679".toList, "1268".toList, "3578".toList, "4569".toList]

def rsGm52 : GridMap :=
  ["5".toList, "3".toList, "4".toList, "6".toList, "7".toList, "8".toList, "9".toList, "1".toList, "2".toList, "6".toList, "7".toList, "2".toList, "1".toList, "9".toList, "5".toList, "3".toList, "4".toList, "8".toList, "1".toList, "9".toList, "8".toList, "3".toList, "4".toList, "2".toList, "5".toList, "6".toList, "7".toList, "8".toList, "5".toList, "9".toList, "7".toList, "6".toList, "1".toList, "4".toList, "2".toList, "3".toList, "4".toList, "2".toList, "6".toList, "8".toList, "5".toList, "3".toList, "7".toList, "9".toList, "1".toList, "7".toList, "1".toList, "3".toList, "9".toList, "2".toList, "4".toList, "8".toList, "5".toList, "6".toList, "239".toList, "468".toList, "157".toList, "245".toList, "138".toList, "679".toList, "126".toList, "378".toList, "459".toList, "239".toList, "468".toList, "157".toList, "245".toList, "138".toList, "679".toList, "126".toList, "378".toList, "459".toList, "239".toList, "468".toList, "157".toList, "245".toList, "138".toList, "679".toList, "126".toList, "378".toList, "459".toList]

def rsGm53 : GridMap :=
  ["5".toList, "3".toList, "4".toList, "6".toList, "7".toList, "8".toList, "9".toList, "1".toList, "2".toList, "6".toList, "7".toList, "2".toList, "1".toList, "9".toList, "5".toList, "3".toList, "4".toList, "8".toList, "1".toList, "9".toList, "8".toList, "3".toList, "4".toList, "2".toList, "5".toList, "6".toList, "7".toList, "8".toList, "5".toList, "9".toList, "7".toList, "6".toList, "1".toList, "4".toList, "2".toList, "3".toList, "4".toList, "2".toList, "6".toList, "8".toList, "5".toList, "3".toList, "7".toList, "9".toList, "1".toList, "7".toList, "1".toList, "3".toList, "9".toList, "2".toList, "4".toList, "8".toList, "5".toList, "6".toList, "239".toList, "468".toList, "157".toList, "245".toList, "138".toList, "679".toList, "126".toList, "378".toList, "459".toList, "239".toList, "468".toList, "157".toList, "245".toList, "138".toList, "679".toList, "126".toList, "378".toList, "459".toList, "239".toList, "468".toList, "157".toList, "245".toList, "138".toList, "679".toList, "126".toList, "378".toList, "459".toList]

def rsGm54 : GridMap :=
  ["5".toList, "3".toList, "4".toList, "6".toList, "7".toList, "8".toList, "9".toList, "1".toList, "2".toList, "6".toList, "7".toList, "2".toList, "1".toList, "9".toList, "5".toList, "3".toList, "4".toList, "8".toList, "1".toList, "9".toList, "8".toList, "3".toList, "4".toList, "2".toList, "5".toList, "6".toList, "7".toList, "8".toList, "5".toList, "9".toList, "7".toList, "6".toList, "1".toList, "4".toList, "2".toList, "3".toList, "4".toList, "2".toList, "6".toList, "8".toList, "5".toList, "3".toList, "7".toList, "9".toList, "1".toList, "7".toList, "1".toList, "3".toList, "9".toList, "2".toList, "4".toList, "8".toList, "5".toList, "6".toList, "239".toList, "468".toList, "157".toList, "245".toList, "138".toList, "679".toList, "126".toList, "378".toList, "459".toList, "239".toList, "468".toList, "157".toList, "245".toList, "138".toList, "679".toList, "126".toList, "378".toList, "459".toList, "239".toList, "468".toList, "157".toList, "245".toList, "138".toList, "679".toList, "126".toList, "378".toList, "459".toList]

def rsGm55 : GridMap :=
  ["5".toList, "3".toList, "4".toList, "6".toList, "7".toList, "8".toList, "9".toList, "1".toList, "2".toList, "6".toList, "7".toList, "2".toList, "1".toList, "9".toList, "5".toList, "3".toList, "4".toList, "8".toList, "1".toList, "9".toList, "8".toList, "3".toList, "4".toList, "2".toList, "5".toList, "6".toList, "7".toList, "8".toList, "5".toList, "9".toList, "7".toList, "6".toList, "1".toList, "4".toList, "2".toList, "3".toList, "4".toList, "2".toList, "6".toList, "8".toList, "5".toList, "3".toList, "7".toList, "9".toList, "1".toList, "7".toList, "1".toList, "3".toList, "9".toList, "2".toList, "4".toList, "8".toList, "5".toList, "6".toList, "9".toList, "468".toList, "157".toList, "245".toList, "138".toList, "67".toList, "126".toList, "378".toList, "45".toList, "23".toList, "468".toList, "157".toList, "245".toList, "138".toList, "679".toList, "126".toList, "378".toList, "459".toList, "23".toList, "468".toList, "157".toList, "245".toList, "138".toList, "679".toList, "126".toList, "378".toList, "459".toList]

def rsGm56 : GridMap :=
  ["5".toList, "3".toList, "4".toList, "6".toList, "7".toList, "8".toList, "9".toList, "1".toList, "2".toList, "6".toList, "7".toList, "2".toList, "1".toList, "9".toList, "5".toList, "3".toList, "4".toList, "8".toList, "1".toList, "9".toList, "8".toList, "3".toList, "4".toList, "2".toList, "5".toList, "6".toList, "7".toList, "8".toList, "5".toList, "9".toList, "7".toList, "6".toList, "1".toList, "4".toList, "2".toList, "3".toList, "4".toList, "2".toList, "6".toList, "8".toList, "5".toList, "3".toList, "7".toList, "9".toList, "1".toList, "7".toList, "1".toList, "3".toList, "9".toList, "2".toList, "4".toList, "8".toList, "5".toList, "6".toList, "9".toList, "6".toList, "15".toList, "245".toList, "138".toList, "7".toList, "12".toList, "38".toList, "45".toList, "23".toList, "48".toList, "157".toList, "245".toList, "138".toList, "69".toList, "126".toList, "378".toList, "459".toList, "23".toList, "48".toList, "157".toList, "245".toList, "138".toList, "69".toList, "126".toList, "378".toList, "459".toList]

def rsGm57 : GridMap :=
  ["5".toList, "3".toList, "4".toList, "6".toList, "7".toList, "8".toList, "9".toList, "1".toList, "2".toList, "6".toList, "7".toList, "2".toList, "1".toList, "9".toList, "5".toList, "3".toList, "4".toList, "8".toList, "1".toList, "9".toList, "8".toList, "3".toList, "4".toList, "2".toList, "5".toList, "6".toList, "7".toList, "8".toList, "5".toList, "9".toList, "7".toList, "6".toList, "1".toList, "4".toList, "2".toList, "3".toList, "4".toList, "2".toList, "6".toList, "8".toList, "5".toList, "3".toList, "7".toList, "9".toList, "1".toList, "7".toList, "1".toList, "3".toList, "9".toList, "2".toList, "4".toList, "8".toList, "5".toList, "6".toList, "9".toList, "6".toList, "1".toList, "45".toList, "38".toList, "7".toList, "2".toList, "38".toList, "45".toList, "23".toList, "48".toList, "57".toList, "245".toList, "138".toList, "69".toList, "16".toList, "378".toList, "459".toList, "23".toList, "48".toList, "57".toList, "245".toList, "138".toList, "69".toList, "16".toList, "378".toList, "459".toList]

def rsGm58 : GridMap :=
  ["5".toList, "3".toList, "4".toList, "6".toList, "7".toList, "8".toList, "9".toList, "1".toList, "2".toList, "6".toList, "7".toList, "2".toList, "1".toList, "9".toList, "5".toList, "3".toList, "4".toList, "8".toList, "1".toList, "9".toList, "8".toList, "3".toList, "4".toList, "2".toList, "5".toList, "6".toList, "7".toList, "8".toList, "5".toList, "9".toList, "7".toList, "6".toList, "1".toList, "4".toList, "2".toList, "3".toList, "4".toList, "2".toList, "6".toList, "8".toList, "5".toList, "3".toList, "7".toList, "9".toList, "1".toList, "7".toList, "1".toList, "3".toList, "9".toList, "2".toList, "4".toList, "8".toList, "5".toList, "6".toList, "9".toList, "6".toList, "1".toList, "5".toList, "38".toList, "7".toList, "2".toList, "38".toList, "4".toList, "23".toList, "48".toList, "57".toList, "24".toList, "138".toList, "69".toList, "16".toList, "378".toList, "59".toList, "23".toList, "48".toList, "57".toList, "24".toList, "138".toList, "69".toList, "16".toList, "378".toList, "59".toList]

def rsGm59 : GridMap :=
  ["5".toList, "3".toList, "4".toList, "6".toList, "7".toList, "8".toList, "9".toList, "1".toList, "2".toList, "6".toList, "7".toList, "2".toList, "1".toList, "9".toList, "5".toList, "3".toList, "4".toList, "8".toList, "1".toList, "9".toList, "8".toList, "3".toList, "4".toList, "2".toList, "5".toList, "6".toList, "7".toList, "8".toList, "5".toList, "9".toList, "7".toList, "6".toList, "1".toList, "4".toList, "2".toList, "3".toList, "4".toList, "2".toList, "6".toList, "8".toList, "5".toList, "3".toList, "7".toList, "9".toList, "1".toList, "7".toList, "1".toList, "3".toList, "9".toList, "2".toList, "4".toList, "8".toList, "5".toList, "6".toList, "9".toList, "6".toList, "1".toList, "5".toList, "3".toList, "7".toList, "2".toList, "8".toList, "4".toList, "23".toList, "48".toList, "57".toList, "24".toList, "18".toList, "69".toList, "16".toList, "37".toList, "59".toList, "23".toList, "48".toList, "57".toList, "24".toList, "18".toList, "69".toList, "16".toList, "37".toList, "59".toList]

def rsGm60 : GridMap :=
  ["5".toList, "3".toList, "4".toList, "6".toList, "7".toList, "8".toList, "9".toList, "1".toList, "2".toList, "6".toList, "7".toList, "2".toList, "1".toList, "9".toList, "5".toList, "3".toList, "4".toList, "8".toList, "1".toList, "9".toList, "8".toList, "3".toList, "4".toList, "2".toList, "5".toList, "6".toList, "7".toList, "8".toList, "5".toList, "9".toList, "7".toList, "6".toList, "1".toList, "4".toList, "2".toList, "3".toList, "4".toList, "2".toList, "6".toList, "8".toList, "5".toList, "3".toList, "7".toList, "9".toList, "1".toList, "7".toList, "1".toList, "3".toList, "9".toList, "2".toList, "4".toList, "8".toList, "5".toList, "6".toList, "9".toList, "6".toList, "1".toList, "5".toList, "3".toList, "7".toList, "2".toList, "8".toList, "4".toList, "23".toList, "48".toList, "57".toList, "24".toList, "18".toList, "69".toList, "16".toList, "37".toList, "59".toList, "23".toList, "48".toList, "57".toList, "24".toList, "18".toList, "69".toList, "16".toList, "37".toList, "59".toList]

def rsGm61 : GridMap :=
  ["5".toList, "3".toList, "4".toList, "6".toList, "7".toList, "8".toList, "9".toList, "1".toList, "2".toList, "6".toList, "7".toList, "2".toList, "1".toList, "9".toList, "5".toList, "3".toList, "4".toList, "8".toList, "1".toList, "9".toList, "8".toList, "3".toList, "4".toList, "2".toList, "5".toList, "6".toList, "7".toList, "8".toList, "5".toList, "9".toList, "7".toList, "6".toList, "1".toList, "4".toList, "2".toList, "3".toList, "4".toList, "2".toList, "6".toList, "8".toList, "5".toList, "3".toList, "7".toList, "9".toList, "1".toList, "7".toList, "1".toList, "3".toList, "9".toList, "2".toList, "4".toList, "8".toList, "5".toList, "6".toList, "9".toList, "6".toList, "1".toList, "5".toList, "3".toList, "7".toList, "2".toList, "8".toList, "4".toList, "23".toList, "48".toList, "57".toList, "24".toList, "18".toList, "69".toList, "16".toList, "37".toList, "59".toList, "23".toList, "48".toList, "57".toList, "24".toList, "18".toList, "69".toList, "16".toList, "37".toList, "59".toList]

def rsGm62 : GridMap :=
  ["5".toList, "3".toList, "4".toList, "6".toList, "7".toList, "8".toList, "9".toList, "1".toList, "2".toList, "6".toList, "7".toList, "2".toList, "1".toList, "9".toList, "5".toList, "3".toList, "4".toList, "8".toList, "1".toList, "9".toList, "8".toList, "3".toList, "4".toList, "2".toList, "5".toList, "6".toList, "7".toList, "8".toList, "5".toList, "9".toList, "7".toList, "6".toList, "1".toList, "4".toList, "2".toList, "3".toList, "4".toList, "2".toList, "6".toList, "8".toList, "5".toList, "3".toList, "7".toList, "9".toList, "1".toList, "7".toList, "1".toList, "3".toList, "9".toList, "2".toList, "4".toList, "8".toList, "5".toList, "6".toList, "9".toList, "6".toList, "1".toList, "5".toList, "3".toList, "7".toList, "2".toList, "8".toList, "4".toList, "23".toList, "48".toList, "57".toList, "24".toList, "18".toList, "69".toList, "16".toList, "37".toList, "59".toList, "23".toList, "48".toList, "57".toList, "24".toList, "18".toList, "69".toList, "16".toList, "37".toList, "59".toList]

def rsGm63 : GridMap :=
  ["5".toList, "3".toList, "4".toList, "6".toList, "7".toList, "8".toList, "9".toList, "1".toList, "2".toList, "6".toList, "7".toList, "2".toList, "1".toList, "9".toList, "5".toList, "3".toList, "4".toList, "8".toList, "1".toList, "9".toList, "8".toList, "3".toList, "4".toList, "2".toList, "5".toList, "6".toList, "7".toList, "8".toList, "5".toList, "9".toList, "7".toList, "6".toList, "1".toList, "4".toList, "2".toList, "3".toList, "4".toList, "2".toList, "6".toList, "8".toList, "5".toList, "3".toList, "7".toList, "9".toList, "1".toList, "7".toList, "1".toList, "3".toList, "9".toList, "2".toList, "4".toList, "8".toList, "5".toList, "6".toList, "9".toList, "6".toList, "1".toList, "5".toList, "3".toList, "7".toList, "2".toList, "8".toList, "4".toList, "23".toList, "48".toList, "57".toList, "24".toList, "18".toList, "69".toList, "16".toList, "37".toList, "59".toList, "23".toList, "48".toList, "57".toList, "24".toList, "18".toList, "69".toList, "16".toList, "37".toList, "59".toList]

def rsGm64 : GridMap :=
  ["5".toList, "3".toList, "4".toList, "6".toList, "7".toList, "8".toList, "9".toList, "1".toList, "2".toList, "6".toList, "7".toList, "2".toList, "1".toList, "9".toList, "5".toList, "3".toList, "4".toList, "8".toList, "1".toList, "9".toList, "8".toList, "3".toList, "4".toList, "2".toList, "5".toList, "6".toList, "7".toList, "8".toList, "5".toList, "9".toList, "7".toList, "6".toList, "1".toList, "4".toList, "2".toList, "3".toList, "4".toList, "2".toList, "6".toList, "8".toList, "5".toList, "3".toList, "7".toList, "9".toList, "1".toList, "7".toList, "1".toList, "3".toList, "9".toList, "2".toList, "4".toList, "8".toList, "5".toList, "6".toList, "9".toList, "6".toList, "1".toList, "5".toList, "3".toList, "7".toList, "2".toList, "8".toList, "4".toList, "2".toList, "8".toList, "7".toList, "4".toList, "1".toList, "9".toList, "6".toList, "3".toList, "5".toList, "3".toList, "4".toList, "5".toList, "2".toList, "8".toList, "6".toList, "1".toList, "7".toList, "9".toList]

def rsGm65 : GridMap :=
  ["5".toList, "3".toList, "4".toList, "6".toList, "7".toList, "8".toList, "9".toList, "1".toList, "2".toList, "6".toList, "7".toList, "2".toList, "1".toList, "9".toList, "5".toList, "3".toList, "4".toList, "8".toList, "1".toList, "9".toList, "8".toList, "3".toList, "4".toList, "2".toList, "5".toList, "6".toList, "7".toList, "8".toList, "5".toList, "9".toList, "7".toList, "6".toList, "1".toList, "4".toList, "2".toList, "3".toList, "4".toList, "2".toList, "6".toList, "8".toList, "5".toList, "3".toList, "7".toList, "9".toList, "1".toList, "7".toList, "1".toList, "3".toList, "9".toList, "2".toList, "4".toList, "8".toList, "5".toList, "6".toList, "9".toList, "6".toList, "1".toList, "5".toList, "3".toList, "7".toList, "2".toList, "8".toList, "4".toList, "2".toList, "8".toList, "7".toList, "4".toList, "1".toList, "9".toList, "6".toList, "3".toList, "5".toList, "3".toList, "4".toList, "5".toList, "2".toList, "8".toList, "6".toList, "1".toList, "7".toList, "9".toList]

def rsGm66 : GridMap :=
  ["5".toList, "3".toList, "4".toList, "6".toList, "7".toList, "8".toList, "9".toList, "1".toList, "2".toList, "6".toList, "7".toList, "2".toList, "1".toList, "9".toList, "5".toList, "3".toList, "4".toList, "8".toList, "1".toList, "9".toList, "8".toList, "3".toList, "4".toList, "2".toList, "5".toList, "6".toList, "7".toList, "8".toList, "5".toList, "9".toList, "7".toList, "6".toList, "1".toList, "4".toList, "2".toList, "3".toList, "4".toList, "2".toList, "6".toList, "8".toList, "5".toList, "3".toList, "7".toList, "9".toList, "1".toList, "7".toList, "1".toList, "3".toList, "9".toList, "2".toList, "4".toList, "8".toList, "5".toList, "6".toList, "9".toList, "6".toList, "1".toList, "5".toList, "3".toList, "7".toList, "2".toList, "8".toList, "4".toList, "2".toList, "8".toList, "7".toList, "4".toList, "1".toList, "9".toList, "6".toList, "3".toList, "5".toList, "3".toList, "4".toList, "5".toList, "2".toList, "8".toList, "6".toList, "1".toList, "7".toList, "9".toList]

def rsGm67 : GridMap :=
  ["5".toList, "3".toList, "4".toList, "6".toList, "7".toList, "8".toList, "9".toList, "1".toList, "2".toList, "6".toList, "7".toList, "2".toList, "1".toList, "9".toList, "5".toList, "3".toList, "4".toList, "8".toList, "1".toList, "9".toList, "8".toList, "3".toList, "4".toList, "2".toList, "5".toList, "6".toList, "7".toList, "8".toList, "5".toList, "9".toList, "7".toList, "6".toList, "1".toList, "4".toList, "2".toList, "3".toList, "4".toList, "2".toList, "6".toList, "8".toList, "5".toList, "3".toList, "7".toList, "9".toList, "1".toList, "7".toList, "1".toList, "3".toList, "9".toList, "2".toList, "4".toList, "8".toList, "5".toList, "6".toList, "9".toList, "6".toList, "1".toList, "5".toList, "3".toList, "7".toList, "2".toList, "8".toList, "4".toList, "2".toList, "8".toList, "7".toList, "4".toList, "1".toList, "9".toList, "6".toList, "3".toList, "5".toList, "3".toList, "4".toList, "5".toList, "2".toList, "8".toList, "6".toList, "1".toList, "7".toList, "9".toList]

def rsGm68 : GridMap :=
  ["5".toList, "3".toList, "4".toList, "6".toList, "7".toList, "8".toList, "9".toList, "1".toList, "2".toList, "6".toList, "7".toList, "2".toList, "1".toList, "9".toList, "5".toList, "3".toList, "4".toList, "8".toList, "1".toList, "9".toList, "8".toList, "3".toList, "4".toList, "2".toList, "5".toList, "6".toList, "7".toList, "8".toList, "5".toList, "9".toList, "7".toList, "6".toList, "1".toList, "4".toList, "2".toList, "3".toList, "4".toList, "2".toList, "6".toList, "8".toList, "5".toList, "3".toList, "7".toList, "9".toList, "1".toList, "7".toList, "1".toList, "3".toList, "9".toList, "2".toList, "4".toList, "8".toList, "5".toList, "6".toList, "9".toList, "6".toList, "1".toList, "5".toList, "3".toList, "7".toList, "2".toList, "8".toList, "4".toList, "2".toList, "8".toList, "7".toList, "4".toList, "1".toList, "9".toList, "6".toList, "3".toList, "5".toList, "3".toList, "4".toList, "5".toList, "2".toList, "8".toList, "6".toList, "1".toList, "7".toList, "9".toList]

def rsGm69 : GridMap :=
  ["5".toList, "3".toList, "4".toList, "6".toList, "7".toList, "8".toList, "9".toList, "1".toList, "2".toList, "6".toList, "7".toList, "2".toList, "1".toList, "9".toList, "5".toList, "3".toList, "4".toList, "8".toList, "1".toList, "9".toList, "8".toList, "3".toList, "4".toList, "2".toList, "5".toList, "6".toList, "7".toList, "8".toList, "5".toList, "9".toList, "7".toList, "6".toList, "1".toList, "4".toList, "2".toList, "3".toList, "4".toList, "2".toList, "6".toList, "8".toList, "5".toList, "3".toList, "7".toList, "9".toList, "1".toList, "7".toList, "1".toList, "3".toList, "9".toList, "2".toList, "4".toList, "8".toList, "5".toList, "6".toList, "9".toList, "6".toList, "1".toList, "5".toList, "3".toList, "7".toList, "2".toList, "8".toList, "4".toList, "2".toList, "8".toList, "7".toList, "4".toList, "1".toList, "9".toList, "6".toList, "3".toList, "5".toList, "3".toList, "4".toList, "5".toList, "2".toList, "8".toList, "6".toList, "1".toList, "7".toList, "9".toList]

def rsGm70 : GridMap :=
  ["5".toList, "3".toList, "4".toList, "6".toList, "7".toList, "8".toList, "9".toList, "1".toList, "2".toList, "6".toList, "7".toList, "2".toList, "1".toList, "9".toList, "5".toList, "3".toList, "4".toList, "8".toList, "1".toList, "9".toList, "8".toList, "3".toList, "4".toList, "2".toList, "5".toList, "6".toList, "7".toList, "8".toList, "5".toList, "9".toList, "7".toList, "6".toList, "1".toList, "4".toList, "2".toList, "3".toList, "4".toList, "2".toList, "6".toList, "8".toList, "5".toList, "3".toList, "7".toList, "9".toList, "1".toList, "7".toList, "1".toList, "3".toList, "9".toList, "2".toList, "4".toList, "8".toList, "5".toList, "6".toList, "9".toList, "6".toList, "1".toList, "5".toList, "3".toList, "7".toList, "2".toList, "8".toList, "4".toList, "2".toList, "8".toList, "7".toList, "4".toList, "1".toList, "9".toList, "6".toList, "3".toList, "5".toList, "3".toList, "4".toList, "5".toList, "2".toList, "8".toList, "6".toList, "1".toList, "7".toList, "9".toList]

def rsGm71 : GridMap :=
  ["5".toList, "3".toList, "4".toList, "6".toList, "7".toList, "8".toList, "9".toList, "1".toList, "2".toList, "6".toList, "7".toList, "2".toList, "1".toList, "9".toList, "5".toList, "3".toList, "4".toList, "8".toList, "1".toList, "9".toList, "8".toList, "3".toList, "4".toList, "2".toList, "5".toList, "6".toList, "7".toList, "8".toList, "5".toList, "9".toList, "7".toList, "6".toList, "1".toList, "4".toList, "2".toList, "3".toList, "4".toList, "2".toList, "6".toList, "8".toList, "5".toList, "3".toList, "7".toList, "9".toList, "1".toList, "7".toList, "1".toList, "3".toList, "9".toList, "2".toList, "4".toList, "8".toList, "5".toList, "6".toList, "9".toList, "6".toList, "1".toList, "5".toList, "3".toList, "7".toList, "2".toList, "8".toList, "4".toList, "2".toList, "8".toList, "7".toList, "4".toList, "1".toList, "9".toList, "6".toList, "3".toList, "5".toList, "3".toList, "4".toList, "5".toList, "2".toList, "8".toList, "6".toList, "1".toList, "7".toList, "9".toList]

def rsGm72 : GridMap :=
  ["5".toList, "3".toList, "4".toList, "6".toList, "7".toList, "8".toList, "9".toList, "1".toList, "2".toList, "6".toList, "7".toList, "2".toList, "1".toList, "9".toList, "5".toList, "3".toList, "4".toList, "8".toList, "1".toList, "9".toList, "8".toList, "3".toList, "4".toList, "2".toList, "5".toList, "6".toList, "7".toList, "8".toList, "5".toList, "9".toList, "7".toList, "6".toList, "1".toList, "4".toList, "2".toList, "3".toList, "4".toList, "2".toList, "6".toList, "8".toList, "5".toList, "3".toList, "7".toList, "9".toList, "1".toList, "7".toList, "1".toList, "3".toList, "9".toList, "2".toList, "4".toList, "8".toList, "5".toList, "6".toList, "9".toList, "6".toList, "1".toList, "5".toList, "3".toList, "7".toList, "2".toList, "8".toList, "4".toList, "2".toList, "8".toList, "7".toList, "4".toList, "1".toList, "9".toList, "6".toList, "3".toList, "5".toList, "3".toList, "4".toList, "5".toList, "2".toList, "8".toList, "6".toList, "1".toList, "7".toList, "9".toList]

def rsGm73 : GridMap :=
  ["5".toList, "3".toList, "4".toList, "6".toList, "7".toList, "8".toList, "9".toList, "1".toList, "2".toList, "6".toList, "7".toList, "2".toList, "1".toList, "9".toList, "5".toList, "3".toList, "4".toList, "8".toList, "1".toList, "9".toList, "8".toList, "3".toList, "4".toList, "2".toList, "5".toList, "6".toList, "7".toList, "8".toList, "5".toList, "9".toList, "7".toList, "6".toList, "1".toList, "4".toList, "2".toList, "3".toList, "4".toList, "2".toList, "6".toList, "8".toList, "5".toList, "3".toList, "7".toList, "9".toList, "1".toList, "7".toList, "1".toList, "3".toList, "9".toList, "2".toList, "4".toList, "8".toList, "5".toList, "6".toList, "9".toList, "6".toList, "1".toList, "5".toList, "3".toList, "7".toList, "2".toList, "8".toList, "4".toList, "2".toList, "8".toList, "7".toList, "4".toList, "1".toList, "9".toList, "6".toList, "3".toList, "5".toList, "3".toList, "4".toList, "5".toList, "2".toList, "8".toList, "6".toList, "1".toList, "7".toList, "9".toList]

def rsGm74 : GridMap :=
  ["5".toList, "3".toList, "4".toList, "6".toList, "7".toList, "8".toList, "9".toList, "1".toList, "2".toList, "6".toList, "7".toList, "2".toList, "1".toList, "9".toList, "5".toList, "3".toList, "4".toList, "8".toList, "1".toList, "9".toList, "8".toList, "3".toList, "4".toList, "2".toList, "5".toList, "6".toList, "7".toList, "8".toList, "5".toList, "9".toList, "7".toList, "6".toList, "1".toList, "4".toList, "2".toList, "3".toList, "4".toList, "2".toList, "6".toList, "8".toList, "5".toList, "3".toList, "7".toList, "9".toList, "1".toList, "7".toList, "1".toList, "3".toList, "9".toList, "2".toList, "4".toList, "8".toList, "5".toList, "6".toList, "9".toList, "6".toList, "1".toList, "5".toList, "3".toList, "7".toList, "2".toList, "8".toList, "4".toList, "2".toList, "8".toList, "7".toList, "4".toList, "1".toList, "9".toList, "6".toList, "3".toList, "5".toList, "3".toList, "4".toList, "5".toList, "2".toList, "8".toList, "6".toList, "1".toList, "7".toList, "9".toList]

def rsGm75 : GridMap :=
  ["5".toList, "3".toList, "4".toList, "6".toList, "7".toList, "8".toList, "9".toList, "1".toList, "2".toList, "6".toList, "7".toList, "2".toList, "1".toList, "9".toList, "5".toList, "3".toList, "4".toList, "8".toList, "1".toList, "9".toList, "8".toList, "3".toList, "4".toList, "2".toList, "5".toList, "6".toList, "7".toList, "8".toList, "5".toList, "9".toList, "7".toList, "6".toList, "1".toList, "4".toList, "2".toList, "3".toList, "4".toList, "2".toList, "6".toList, "8".toList, "5".toList, "3".toList, "7".toList, "9".toList, "1".toList, "7".toList, "1".toList, "3".toList, "9".toList, "2".toList, "4".toList, "8".toList, "5".toList, "6".toList, "9".toList, "6".toList, "1".toList, "5".toList, "3".toList, "7".toList, "2".toList, "8".toList, "4".toList, "2".toList, "8".toList, "7".toList, "4".toList, "1".toList, "9".toList, "6".toList, "3".toList, "5".toList, "3".toList, "4".toList, "5".toList, "2".toList, "8".toList, "6".toList, "1".toList, "7".toList, "9".toList]

def rsGm76 : GridMap :=
  ["5".toList, "3".toList, "4".toList, "6".toList, "7".toList, "8".toList, "9".toList, "1".toList, "2".toList, "6".toList, "7".toList, "2".toList, "1".toList, "9".toList, "5".toList, "3".toList, "4".toList, "8".toList, "1".toList, "9".toList, "8".toList, "3".toList, "4".toList, "2".toList, "5".toList, "6".toList, "7".toList, "8".toList, "5".toList, "9".toList, "7".toList, "6".toList, "1".toList, "4".toList, "2".toList, "3".toList, "4".toList, "2".toList, "6".toList, "8".toList, "5".toList, "3".toList, "7".toList, "9".toList, "1".toList, "7".toList, "1".toList, "3".toList, "9".toList, "2".toList, "4".toList, "8".toList, "5".toList, "6".toList, "9".toList, "6".toList, "1".toList, "5".toList, "3".toList, "7".toList, "2".toList, "8".toList, "4".toList, "2".toList, "8".toList, "7".toList, "4".toList, "1".toList, "9".toList, "6".toList, "3".toList, "5".toList, "3".toList, "4".toList, "5".toList, "2".toList, "8".toList, "6".toList, "1".toList, "7".toList, "9".toList]

def rsGm77 : GridMap :=
  ["5".toList, "3".toList, "4".toList, "6".toList, "7".toList, "8".toList, "9".toList, "1".toList, "2".toList, "6".toList, "7".toList, "2".toList, "1".toList, "9".toList, "5".toList, "3".toList, "4".toList, "8".toList, "1".toList, "9".toList, "8".toList, "3".toList, "4".toList, "2".toList, "5".toList, "6".toList, "7".toList, "8".toList, "5".toList, "9".toList, "7".toList, "6".toList, "1".toList, "4".toList, "2".toList, "3".toList, "4".toList, "2".toList, "6".toList, "8".toList, "5".toList, "3".toList, "7".toList, "9".toList, "1".toList, "7".toList, "1".toList, "3".toList, "9".toList, "2".toList, "4".toList, "8".toList, "5".toList, "6".toList, "9".toList, "6".toList, "1".toList, "5".toList, "3".toList, "7".toList, "2".toList, "8".toList, "4".toList, "2".toList, "8".toList, "7".toList, "4".toList, "1".toList, "9".toList, "6".toList, "3".toList, "5".toList, "3".toList, "4".toList, "5".toList, "2".toList, "8".toList, "6".toList, "1".toList, "7".toList, "9".toList]

def rsGm78 : GridMap :=
  ["5".toList, "3".toList, "4".toList, "6".toList, "7".toList, "8".toList, "9".toList, "1".toList, "2".toList, "6".toList, "7".toList, "2".toList, "1".toList, "9".toList, "5".toList, "3".toList, "4".toList, "8".toList, "1".toList, "9".toList, "8".toList, "3".toList, "4".toList, "2".toList, "5".toList, "6".toList, "7".toList, "8".toList, "5".toList, "9".toList, "7".toList, "6".toList, "1".toList, "4".toList, "2".toList, "3".toList, "4".toList, "2".toList, "6".toList, "8".toList, "5".toList, "3".toList, "7".toList, "9".toList, "1".toList, "7".toList, "1".toList, "3".toList, "9".toList, "2".toList, "4".toList, "8".toList, "5".toList, "6".toList, "9".toList, "6".toList, "1".toList, "5".toList, "3".toList, "7".toList, "2".toList, "8".toList, "4".toList, "2".toList, "8".toList, "7".toList, "4".toList, "1".toList, "9".toList, "6".toList, "3".toList, "5".toList, "3".toList, "4".toList, "5".toList, "2".toList, "8".toList, "6".toList, "1".toList, "7".toList, "9".toList]

def rsGm79 : GridMap :=
  ["5".toList, "3".toList, "4".toList, "6".toList, "7".toList, "8".toList, "9".toList, "1".toList, "2".toList, "6".toList, "7".toList, "2".toList, "1".toList, "9".toList, "5".toList, "3".toList, "4".toList, "8".toList, "1".toList, "9".toList, "8".toList, "3".toList, "4".toList, "2".toList, "5".toList, "6".toList, "7".toList, "8".toList, "5".toList, "9".toList, "7".toList, "6".toList, "1".toList, "4".toList, "2".toList, "3".toList, "4".toList, "2".toList, "6".toList, "8".toList, "5".toList, "3".toList, "7".toList, "9".toList, "1".toList, "7".toList, "1".toList, "3".toList, "9".toList, "2".toList, "4".toList, "8".toList, "5".toList, "6".toList, "9".toList, "6".toList, "1".toList, "5".toList, "3".toList, "7".toList, "2".toList, "8".toList, "4".toList, "2".toList, "8".toList, "7".toList, "4".toList, "1".toList, "9".toList, "6".toList, "3".toList, "5".toList, "3".toList, "4".toList, "5".toList, "2".toList, "8".toList, "6".toList, "1".toList, "7".toList, "9".toList]

def rsGm80 : GridMap :=
  ["5".toList, "3".toList, "4".toList, "6".toList, "7".toList, "8".toList, "9".toList, "1".toList, "2".toList, "6".toList, "7".toList, "2".toList, "1".toList, "9".toList, "5".toList, "3".toList, "4".toList, "8".toList, "1".toList, "9".toList, "8".toList, "3".toList, "4".toList, "2".toList, "5".toList, "6".toList, "7".toList, "8".toList, "5".toList, "9".toList, "7".toList, "6".toList, "1".toList, "4".toList, "2".toList, "3".toList, "4".toList, "2".toList, "6".toList, "8".toList, "5".toList, "3".toList, "7".toList, "9".toList, "1".toList, "7".toList, "1".toList, "3".toList, "9".toList, "2".toList, "4".toList, "8".toList, "5".toList, "6".toList, "9".toList, "6".toList, "1".toList, "5".toList, "3".toList, "7".toList, "2".toList, "8".toList, "4".toList, "2".toList, "8".toList, "7".toList, "4".toList, "1".toList, "9".toList, "6".toList, "3".toList, "5".toList, "3".toList, "4".toList, "5".toList, "2".toList, "8".toList, "6".toList, "1".toList, "7".toList, "9".toList]

/-- Pick-stream suffixes of the recorded generator run. -/
def rsP1 : List Nat := [2, 2, 2, 2, 2, 2, 0, 0, 2, 2, 1, 0, 3, 2, 0, 0, 0, 0, 1, 0, 1, 1, 0, 0, 0, 0, 4, 3, 4, 2, 3, 0, 1, 0, 0, 2, 1, 2, 1, 1, 0, 1, 0, 0, 1, 0, 0, 1, 0, 0, 1, 0, 0, 2, 1, 0, 1, 0, 0, 0, 0, 0, 0, 0, 0, 0, 0, 0, 0, 0, 0, 0, 0, 0, 0, 0, 0, 0, 0, 0]

def rsP2 : List Nat := [2, 2, 2, 2, 2, 0, 0, 2, 2, 1, 0, 3, 2, 0, 0, 0, 0, 1, 0, 1, 1, 0, 0, 0, 0, 4, 3, 4, 2, 3, 0, 1, 0, 0, 2, 1, 2, 1, 1, 0, 1, 0, 0, 1, 0, 0, 1, 0, 0, 1, 0, 0, 2, 1, 0, 1, 0, 0, 0, 0, 0, 0, 0, 0, 0, 0, 0, 0, 0, 0, 0, 0, 0, 0, 0, 0, 0, 0, 0]

def rsP3 : List Nat := [2, 2, 2, 2, 0, 0, 2, 2, 1, 0, 3, 2, 0, 0, 0, 0, 1, 0, 1, 1, 0, 0, 0, 0, 4, 3, 4, 2, 3, 0, 1, 0, 0, 2, 1, 2, 1, 1, 0, 1, 0, 0, 1, 0, 0, 1, 0, 0, 1, 0, 0, 2, 1, 0, 1, 0, 0, 0, 0, 0, 0, 0, 0, 0, 0, 0, 0, 0, 0, 0, 0, 0, 0, 0, 0, 0, 0, 0]

def rsP4 : List Nat := [2, 2, 2, 0, 0, 2, 2, 1, 0, 3, 2, 0, 0, 0, 0, 1, 0, 1, 1, 0, 0, 0, 0, 4, 3, 4, 2, 3, 0, 1, 0, 0, 2, 1, 2, 1, 1, 0, 1, 0, 0, 1, 0, 0, 1, 0, 0, 1, 0, 0, 2, 1, 0, 1, 0, 0, 0, 0, 0, 0, 0, 0, 0, 0, 0, 0, 0, 0, 0, 0, 0, 0, 0, 0, 0, 0, 0]

def rsP5 : List Nat := [2, 2, 0, 0, 2, 2, 1, 0, 3, 2, 0, 0, 0, 0, 1, 0, 1, 1, 0, 0, 0, 0, 4, 3, 4, 2, 3, 0, 1, 0, 0, 2, 1, 2, 1, 1, 0, 1, 0, 0, 1, 0, 0, 1, 0, 0, 1, 0, 0, 2, 1, 0, 1, 0, 0, 0, 0, 0, 0, 0, 0, 0, 0, 0, 0, 0, 0, 0, 0, 0, 0, 0, 0, 0, 0, 0]

def rsP6 : List Nat := [2, 0, 0, 2, 2, 1, 0, 3, 2, 0, 0, 0, 0, 1, 0, 1, 1, 0, 0, 0, 0, 4, 3, 4, 2, 3, 0, 1, 0, 0, 2, 1, 2, 1, 1, 0, 1, 0, 0, 1, 0, 0, 1, 0, 0, 1, 0, 0, 2, 1, 0, 1, 0, 0, 0, 0, 0, 0, 0, 0, 0, 0, 0, 0, 0, 0, 0, 0, 0, 0, 0, 0, 0, 0, 0]

def rsP7 : List Nat := [0, 0, 2, 2, 1, 0, 3, 2, 0, 0, 0, 0, 1, 0, 1, 1, 0, 0, 0, 0, 4, 3, 4, 2, 3, 0, 1, 0, 0, 2, 1, 2, 1, 1, 0, 1, 0, 0, 1, 0, 0, 1, 0, 0, 1, 0, 0, 2, 1, 0, 1, 0, 0, 0, 0, 0, 0, 0, 0, 0, 0, 0, 0, 0, 0, 0, 0, 0, 0, 0, 0, 0, 0, 0]

def rsP8 : List Nat := [0, 2, 2, 1, 0, 3, 2, 0, 0, 0, 0, 1, 0, 1, 1, 0, 0, 0, 0, 4, 3, 4, 2, 3, 0, 1, 0, 0, 2, 1, 2, 1, 1, 0, 1, 0, 0, 1, 0, 0, 1, 0, 0, 1, 0, 0, 2, 1, 0, 1, 0, 0, 0, 0, 0, 0, 0, 0, 0, 0, 0, 0, 0, 0, 0, 0, 0, 0, 0, 0, 0, 0, 0]

def rsP9 : List Nat := [2, 2, 1, 0, 3, 2, 0, 0, 0, 0, 1, 0, 1, 1, 0, 0, 0, 0, 4, 3, 4, 2, 3, 0, 1, 0, 0, 2, 1, 2, 1, 1, 0, 1, 0, 0, 1, 0, 0, 1, 0, 0, 1, 0, 0, 2, 1, 0, 1, 0, 0, 0, 0, 0, 0, 0, 0, 0, 0, 0, 0, 0, 0, 0, 0, 0, 0, 0, 0, 0, 0, 0]

def rsP10 : List Nat := [2, 1, 0, 3, 2, 0, 0, 0, 0, 1, 0, 1, 1, 0, 0, 0, 0, 4, 3, 4, 2, 3, 0, 1, 0, 0, 2, 1, 2, 1, 1, 0, 1, 0, 0, 1, 0, 0, 1, 0, 0, 1, 0, 0, 2, 1, 0, 1, 0, 0, 0, 0, 0, 0, 0, 0, 0, 0, 0, 0, 0, 0, 0, 0, 0, 0, 0, 0, 0, 0, 0]

def rsP11 : List Nat := [1, 0, 3, 2, 0, 0, 0, 0, 1, 0, 1, 1, 0, 0, 0, 0, 4, 3, 4, 2, 3, 0, 1, 0, 0, 2, 1, 2, 1, 1, 0, 1, 0, 0, 1, 0, 0, 1, 0, 0, 1, 0, 0, 2, 1, 0, 1, 0, 0, 0, 0, 0, 0, 0, 0, 0, 0, 0, 0, 0, 0, 0, 0, 0, 0, 0, 0, 0, 0, 0]

def rsP12 : List Nat := [0, 3, 2, 0, 0, 0, 0, 1, 0, 1, 1, 0, 0, 0, 0, 4, 3, 4, 2, 3, 0, 1, 0, 0, 2, 1, 2, 1, 1, 0, 1, 0, 0, 1, 0, 0, 1, 0, 0, 1, 0, 0, 2, 1, 0, 1, 0, 0, 0, 0, 0, 0, 0, 0, 0, 0, 0, 0, 0, 0, 0, 0, 0, 0, 0, 0, 0, 0, 0]

def rsP13 : List Nat := [3, 2, 0, 0, 0, 0, 1, 0, 1, 1, 0, 0, 0, 0, 4, 3, 4, 2, 3, 0, 1, 0, 0, 2, 1, 2, 1, 1, 0, 1, 0, 0, 1, 0, 0, 1, 0, 0, 1, 0, 0, 2, 1, 0, 1, 0, 0, 0, 0, 0, 0, 0, 0, 0, 0, 0, 0, 0, 0, 0, 0, 0, 0, 0, 0, 0, 0, 0]

def rsP14 : List Nat := [2, 0, 0, 0, 0, 1, 0, 1, 1, 0, 0, 0, 0, 4, 3, 4, 2, 3, 0, 1, 0, 0, 2, 1, 2, 1, 1, 0, 1, 0, 0, 1, 0, 0, 1, 0, 0, 1, 0, 0, 2, 1, 0, 1, 0, 0, 0, 0, 0, 0, 0, 0, 0, 0, 0, 0, 0, 0, 0, 0, 0, 0, 0, 0, 0, 0, 0]

def rsP15 : List Nat := [0, 0, 0, 0, 1, 0, 1, 1, 0, 0, 0, 0, 4, 3, 4, 2, 3, 0, 1, 0, 0, 2, 1, 2, 1, 1, 0, 1, 0, 0, 1, 0, 0, 1, 0, 0, 1, 0, 0, 2, 1, 0, 1, 0, 0, 0, 0, 0, 0, 0, 0, 0, 0, 0, 0, 0, 0, 0, 0, 0, 0, 0, 0, 0, 0, 0]

def rsP16 : List Nat := [0, 0, 0, 1, 0, 1, 1, 0, 0, 0, 0, 4, 3, 4, 2, 3, 0, 1, 0, 0, 2, 1, 2, 1, 1, 0, 1, 0, 0, 1, 0, 0, 1, 0, 0, 1, 0, 0, 2, 1, 0, 1, 0, 0, 0, 0, 0, 0, 0, 0, 0, 0, 0, 0, 0, 0, 0, 0, 0, 0, 0, 0, 0, 0, 0]

def rsP17 : List Nat := [0, 0, 1, 0, 1, 1, 0, 0, 0, 0, 4, 3, 4, 2, 3, 0, 1, 0, 0, 2, 1, 2, 1, 1, 0, 1, 0, 0, 1, 0, 0, 1, 0, 0, 1, 0, 0, 2, 1, 0, 1, 0, 0, 0, 0, 0, 0, 0, 0, 0, 0, 0, 0, 0, 0, 0, 0, 0, 0, 0, 0, 0, 0, 0]

def rsP18 : List Nat := [0, 1, 0, 1, 1, 0, 0, 0, 0, 4, 3, 4, 2, 3, 0, 1, 0, 0, 2, 1, 2, 1, 1, 0, 1, 0, 0, 1, 0, 0, 1, 0, 0, 1, 0, 0, 2, 1, 0, 1, 0, 0, 0, 0, 0, 0, 0, 0, 0, 0, 0, 0, 0, 0, 0, 0, 0, 0, 0, 0, 0, 0, 0]

def rsP19 : List Nat := [1, 0, 1, 1, 0, 0, 0, 0, 4, 3, 4, 2, 3, 0, 1, 0, 0, 2, 1, 2, 1, 1, 0, 1, 0, 0, 1, 0, 0, 1, 0, 0, 1, 0, 0, 2, 1, 0, 1, 0, 0, 0, 0, 0, 0, 0, 0, 0, 0, 0, 0, 0, 0, 0, 0, 0, 0, 0, 0, 0, 0, 0]

def rsP20 : List Nat := [0, 1, 1, 0, 0, 0, 0, 4, 3, 4, 2, 3, 0, 1, 0, 0, 2, 1, 2, 1, 1, 0, 1, 0, 0, 1, 0, 0, 1, 0, 0, 1, 0, 0, 2, 1, 0, 1, 0, 0, 0, 0, 0, 0, 0, 0, 0, 0, 0, 0, 0, 0, 0, 0, 0, 0, 0, 0, 0, 0, 0]

def rsP21 : List Nat := [1, 1, 0, 0, 0, 0, 4, 3, 4, 2, 3, 0, 1, 0, 0, 2, 1, 2, 1, 1, 0, 1, 0, 0, 1, 0, 0, 1, 0, 0, 1, 0, 0, 2, 1, 0, 1, 0, 0, 0, 0, 0, 0, 0, 0, 0, 0, 0, 0, 0, 0, 0, 0, 0, 0, 0, 0, 0, 0, 0]

def rsP22 : List Nat := [1, 0, 0, 0, 0, 4, 3, 4, 2, 3, 0, 1, 0, 0, 2, 1, 2, 1, 1, 0, 1, 0, 0, 1, 0, 0, 1, 0, 0, 1, 0, 0, 2, 1, 0, 1, 0, 0, 0, 0, 0, 0, 0, 0, 0, 0, 0, 0, 0, 0, 0, 0, 0, 0, 0, 0, 0, 0, 0]

def rsP23 : List Nat := [0, 0, 0, 0, 4, 3, 4, 2, 3, 0, 1, 0, 0, 2, 1, 2, 1, 1, 0, 1, 0, 0, 1, 0, 0, 1, 0, 0, 1, 0, 0, 2, 1, 0, 1, 0, 0, 0, 0, 0, 0, 0, 0, 0, 0, 0, 0, 0, 0, 0, 0, 0, 0, 0, 0, 0, 0, 0]

def rsP24 : List Nat := [0, 0, 0, 4, 3, 4, 2, 3, 0, 1, 0, 0, 2, 1, 2, 1, 1, 0, 1, 0, 0, 1, 0, 0, 1, 0, 0, 1, 0, 0, 2, 1, 0, 1, 0, 0, 0, 0, 0, 0, 0, 0, 0, 0, 0, 0, 0, 0, 0, 0, 0, 0, 0, 0, 0, 0, 0]

def rsP25 : List Nat := [0, 0, 4, 3, 4, 2, 3, 0, 1, 0, 0, 2, 1, 2, 1, 1, 0, 1, 0, 0, 1, 0, 0, 1, 0, 0, 1, 0, 0, 2, 1, 0, 1, 0, 0, 0, 0, 0, 0, 0, 0, 0, 0, 0, 0, 0, 0, 0, 0, 0, 0, 0, 0, 0, 0, 0]

def rsP26 : List Nat := [0, 4, 3, 4, 2, 3, 0, 1, 0, 0, 2, 1, 2, 1, 1, 0, 1, 0, 0, 1, 0, 0, 1, 0, 0, 1, 0, 0, 2, 1, 0, 1, 0, 0, 0, 0, 0, 0, 0, 0, 0, 0, 0, 0, 0, 0, 0, 0, 0, 0, 0, 0, 0, 0, 0]

def rsP27 : List Nat := [4, 3, 4, 2, 3, 0, 1, 0, 0, 2, 1, 2, 1, 1, 0, 1, 0, 0, 1, 0, 0, 1, 0, 0, 1, 0, 0, 2, 1, 0, 1, 0, 0, 0, 0, 0, 0, 0, 0, 0, 0, 0, 0, 0, 0, 0, 0, 0, 0, 0, 0, 0, 0, 0]

def rsP28 : List Nat := [3, 4, 2, 3, 0, 1, 0, 0, 2, 1, 2, 1, 1, 0, 1, 0, 0, 1, 0, 0, 1, 0, 0, 1, 0, 0, 2, 1, 0, 1, 0, 0, 0, 0, 0, 0, 0, 0, 0, 0, 0, 0, 0, 0, 0, 0, 0, 0, 0, 0, 0, 0, 0]

def rsP29 : List Nat := [4, 2, 3, 0, 1, 0, 0, 2, 1, 2, 1, 1, 0, 1, 0, 0, 1, 0, 0, 1, 0, 0, 1, 0, 0, 2, 1, 0, 1, 0, 0, 0, 0, 0, 0, 0, 0, 0, 0, 0, 0, 0, 0, 0, 0, 0, 0, 0, 0, 0, 0, 0]

def rsP30 : List Nat := [2, 3, 0, 1, 0, 0, 2, 1, 2, 1, 1, 0, 1, 0, 0, 1, 0, 0, 1, 0, 0, 1, 0, 0, 2, 1, 0, 1, 0, 0, 0, 0, 0, 0, 0, 0, 0, 0, 0, 0, 0, 0, 0, 0, 0, 0, 0, 0, 0, 0, 0]

def rsP31 : List Nat := [3, 0, 1, 0, 0, 2, 1, 2, 1, 1, 0, 1, 0, 0, 1, 0, 0, 1, 0, 0, 1, 0, 0, 2, 1, 0, 1, 0, 0, 0, 0, 0, 0, 0, 0, 0, 0, 0, 0, 0, 0, 0, 0, 0, 0, 0, 0, 0, 0, 0]

def rsP32 : List Nat := [0, 1, 0, 0, 2, 1, 2, 1, 1, 0, 1, 0, 0, 1, 0, 0, 1, 0, 0, 1, 0, 0, 2, 1, 0, 1, 0, 0, 0, 0, 0, 0, 0, 0, 0, 0, 0, 0, 0, 0, 0, 0, 0, 0, 0, 0, 0, 0, 0]

def rsP33 : List Nat := [1, 0, 0, 2, 1, 2, 1, 1, 0, 1, 0, 0, 1, 0, 0, 1, 0, 0, 1, 0, 0, 2, 1, 0, 1, 0, 0, 0, 0, 0, 0, 0, 0, 0, 0, 0, 0, 0, 0, 0, 0, 0, 0, 0, 0, 0, 0, 0]

def rsP34 : List Nat := [0, 0, 2, 1, 2, 1, 1, 0, 1, 0, 0, 1, 0, 0, 1, 0, 0, 1, 0, 0, 2, 1, 0, 1, 0, 0, 0, 0, 0, 0, 0, 0, 0, 0, 0, 0, 0, 0, 0, 0, 0, 0, 0, 0, 0, 0, 0]

def rsP35 : List Nat := [0, 2, 1, 2, 1, 1, 0, 1, 0, 0, 1, 0, 0, 1, 0, 0, 1, 0, 0, 2, 1, 0, 1, 0, 0, 0, 0, 0, 0, 0, 0, 0, 0, 0, 0, 0, 0, 0, 0, 0, 0, 0, 0, 0, 0, 0]

def rsP36 : List Nat := [2, 1, 2, 1, 1, 0, 1, 0, 0, 1, 0, 0, 1, 0, 0, 1, 0, 0, 2, 1, 0, 1, 0, 0, 0, 0, 0, 0, 0, 0, 0, 0, 0, 0, 0, 0, 0, 0, 0, 0, 0, 0, 0, 0, 0]

def rsP37 : List Nat := [1, 2, 1, 1, 0, 1, 0, 0, 1, 0, 0, 1, 0, 0, 1, 0, 0, 2, 1, 0, 1, 0, 0, 0, 0, 0, 0, 0, 0, 0, 0, 0, 0, 0, 0, 0, 0, 0, 0, 0, 0, 0, 0, 0]

def rsP38 : List Nat := [2, 1, 1, 0, 1, 0, 0, 1, 0, 0, 1, 0, 0, 1, 0, 0, 2, 1, 0, 1, 0, 0, 0, 0, 0, 0, 0, 0, 0, 0, 0, 0, 0, 0, 0, 0, 0, 0, 0, 0, 0, 0, 0]

def rsP39 : List Nat := [1, 1, 0, 1, 0, 0, 1, 0, 0, 1, 0, 0, 1, 0, 0, 2, 1, 0, 1, 0, 0, 0, 0, 0, 0, 0, 0, 0, 0, 0, 0, 0, 0, 0, 0, 0, 0, 0, 0, 0, 0, 0]

def rsP40 : List Nat := [1, 0, 1, 0, 0, 1, 0, 0, 1, 0, 0, 1, 0, 0, 2, 1, 0, 1, 0, 0, 0, 0, 0, 0, 0, 0, 0, 0, 0, 0, 0, 0, 0, 0, 0, 0, 0, 0, 0, 0, 0]

def rsP41 : List Nat := [0, 1, 0, 0, 1, 0, 0, 1, 0, 0, 1, 0, 0, 2, 1, 0, 1, 0, 0, 0, 0, 0, 0, 0, 0, 0, 0, 0, 0, 0, 0, 0, 0, 0, 0, 0, 0, 0, 0, 0]

def rsP42 : List Nat := [1, 0, 0, 1, 0, 0, 1, 0, 0, 1, 0, 0, 2, 1, 0, 1, 0, 0, 0, 0, 0, 0, 0, 0, 0, 0, 0, 0, 0, 0, 0, 0, 0, 0, 0, 0, 0, 0, 0]

def rsP43 : List Nat := [0, 0, 1, 0, 0, 1, 0, 0, 1, 0, 0, 2, 1, 0, 1, 0, 0, 0, 0, 0, 0, 0, 0, 0, 0, 0, 0, 0, 0, 0, 0, 0, 0, 0, 0, 0, 0, 0]

def rsP44 : List Nat := [0, 1, 0, 0, 1, 0, 0, 1, 0, 0, 2, 1, 0, 1, 0, 0, 0, 0, 0, 0, 0, 0, 0, 0, 0, 0, 0, 0, 0, 0, 0, 0, 0, 0, 0, 0, 0]

def rsP45 : List Nat := [1, 0, 0, 1, 0, 0, 1, 0, 0, 2, 1, 0, 1, 0, 0, 0, 0, 0, 0, 0, 0, 0, 0, 0, 0, 0, 0, 0, 0, 0, 0, 0, 0, 0, 0, 0]

def rsP46 : List Nat := [0, 0, 1, 0, 0, 1, 0, 0, 2, 1, 0, 1, 0, 0, 0, 0, 0, 0, 0, 0, 0, 0, 0, 0, 0, 0, 0, 0, 0, 0, 0, 0, 0, 0, 0]

def rsP47 : List Nat := [0, 1, 0, 0, 1, 0, 0, 2, 1, 0, 1, 0, 0, 0, 0, 0, 0, 0, 0, 0, 0, 0, 0, 0, 0, 0, 0, 0, 0, 0, 0, 0, 0, 0]

def rsP48 : List Nat := [1, 0, 0, 1, 0, 0, 2, 1, 0, 1, 0, 0, 0, 0, 0, 0, 0, 0, 0, 0, 0, 0, 0, 0, 0, 0, 0, 0, 0, 0, 0, 0, 0]

def rsP49 : List Nat := [0, 0, 1, 0, 0, 2, 1, 0, 1, 0, 0, 0, 0, 0, 0, 0, 0, 0, 0, 0, 0, 0, 0, 0, 0, 0, 0, 0, 0, 0, 0, 0]

def rsP50 : List Nat := [0, 1, 0, 0, 2, 1, 0, 1, 0, 0, 0, 0, 0, 0, 0, 0, 0, 0, 0, 0, 0, 0, 0, 0, 0, 0, 0, 0, 0, 0, 0]

def rsP51 : List Nat := [1, 0, 0, 2, 1, 0, 1, 0, 0, 0, 0, 0, 0, 0, 0, 0, 0, 0, 0, 0, 0, 0, 0, 0, 0, 0, 0, 0, 0, 0]

def rsP52 : List Nat := [0, 0, 2, 1, 0, 1, 0, 0, 0, 0, 0, 0, 0, 0, 0, 0, 0, 0, 0, 0, 0, 0, 0, 0, 0, 0, 0, 0, 0]

def rsP53 : List Nat := [0, 2, 1, 0, 1, 0, 0, 0, 0, 0, 0, 0, 0, 0, 0, 0, 0, 0, 0, 0, 0, 0, 0, 0, 0, 0, 0, 0]

def rsP54 : List Nat := [2, 1, 0, 1, 0, 0, 0, 0, 0, 0, 0, 0, 0, 0, 0, 0, 0, 0, 0, 0, 0, 0, 0, 0, 0, 0, 0]

def rsP55 : List Nat := [1, 0, 1, 0, 0, 0, 0, 0, 0, 0, 0, 0, 0, 0, 0, 0, 0, 0, 0, 0, 0, 0, 0, 0, 0, 0]

def rsP56 : List Nat := [0, 1, 0, 0, 0, 0, 0, 0, 0, 0, 0, 0, 0, 0, 0, 0, 0, 0, 0, 0, 0, 0, 0, 0, 0]

def rsP57 : List Nat := [1, 0, 0, 0, 0, 0, 0, 0, 0, 0, 0, 0, 0, 0, 0, 0, 0, 0, 0, 0, 0, 0, 0, 0]

def rsP58 : List Nat := [0, 0, 0, 0, 0, 0, 0, 0, 0, 0, 0, 0, 0, 0, 0, 0, 0, 0, 0, 0, 0, 0, 0]

def rsP59 : List Nat := [0, 0, 0, 0, 0, 0, 0, 0, 0, 0, 0, 0, 0, 0, 0, 0, 0, 0, 0, 0, 0, 0]

def rsP60 : List Nat := [0, 0, 0, 0, 0, 0, 0, 0, 0, 0, 0, 0, 0, 0, 0, 0, 0, 0, 0, 0, 0]

def rsP61 : List Nat := [0, 0, 0, 0, 0, 0, 0, 0, 0, 0, 0, 0, 0, 0, 0, 0, 0, 0, 0, 0]

def rsP62 : List Nat := [0, 0, 0, 0, 0, 0, 0, 0, 0, 0, 0, 0, 0, 0, 0, 0, 0, 0, 0]

def rsP63 : List Nat := [0, 0, 0, 0, 0, 0, 0, 0, 0, 0, 0, 0, 0, 0, 0, 0, 0, 0]

def rsP64 : List Nat := [0, 0, 0, 0, 0, 0, 0, 0, 0, 0, 0, 0, 0, 0, 0, 0, 0]

def rsP65 : List Nat := [0, 0, 0, 0, 0, 0, 0, 0, 0, 0, 0, 0, 0, 0, 0, 0]

def rsP66 : List Nat := [0, 0, 0, 0, 0, 0, 0, 0, 0, 0, 0, 0, 0, 0, 0]

def rsP67 : List Nat := [0, 0, 0, 0, 0, 0, 0, 0, 0, 0, 0, 0, 0, 0]

def rsP68 : List Nat := [0, 0, 0, 0, 0, 0, 0, 0, 0, 0, 0, 0, 0]

def rsP69 : List Nat := [0, 0, 0, 0, 0, 0, 0, 0, 0, 0, 0, 0]

def rsP70 : List Nat := [0, 0, 0, 0, 0, 0, 0, 0, 0, 0, 0]

def rsP71 : List Nat := [0, 0, 0, 0, 0, 0, 0, 0, 0, 0]

def rsP72 : List Nat := [0, 0, 0, 0, 0, 0, 0, 0, 0]

def rsP73 : List Nat := [0, 0, 0, 0, 0, 0, 0, 0]

def rsP74 : List Nat := [0, 0, 0, 0, 0, 0, 0]

def rsP75 : List Nat := [0, 0, 0, 0, 0, 0]

def rsP76 : List Nat := [0, 0, 0, 0, 0]

def rsP77 : List Nat := [0, 0, 0, 0]

def rsP78 : List Nat := [0, 0, 0]

def rsP79 : List Nat := [0, 0]

/-! ### Basic facts about grid-map reads and writes -/

theorem getD_set_self (m : GridMap) (i : Nat) (l : List Char) (h : i < m.length) :
    (m.set i l).getD i [] = l := by
  simp [List.getD_eq_getElem?_getD, List.getElem?_set_self h]

theorem getD_set_ne (m : GridMap) {i j : Nat} (l : List Char) (h : i ≠ j) :
    (m.set i l).getD j [] = m.getD j [] := by
  simp [List.getD_eq_getElem?_getD, List.getElem?_set_ne h]

theorem getD_ne_nil_lt {m : GridMap} {i : Nat} (h : m.getD i [] ≠ []) : i < m.length := by
  by_contra hi
  rw [List.getD_eq_getElem?_getD, List.getElem?_eq_none (Nat.le_of_not_lt hi)] at h
  exact h rfl

theorem contains_getD_lt {m : GridMap} {i : Nat} {d : Char}
    (h : (m.getD i []).contains d = true) : i < m.length := by
  refine getD_ne_nil_lt (fun hnil => ?_)
  rw [hnil] at h
  simp at h

/-- Pointwise shrinking order on candidate grids: every square's candidate
list is a sublist of what it was. -/
def MapLE (m' m : GridMap) : Prop :=
  m'.length = m.length ∧ ∀ j, (m'.getD j []).Sublist (m.getD j [])

theorem mapLE_refl (m : GridMap) : MapLE m m :=
  ⟨rfl, fun _ => List.Sublist.refl _⟩

theorem mapLE_trans {a b c : GridMap} (h1 : MapLE a b) (h2 : MapLE b c) : MapLE a c :=
  ⟨h1.1.trans h2.1, fun j => (h1.2 j).trans (h2.2 j)⟩

theorem mapLE_set {m : GridMap} {i : Nat} {l : List Char}
    (h : l.Sublist (m.getD i [])) : MapLE (m.set i l) m := by
  refine ⟨m.length_set i l, fun j => ?_⟩
  by_cases hij : i = j
  · subst hij
    by_cases hi : i < m.length
    · rw [getD_set_self m i l hi]; exact h
    · rw [List.set_eq_of_length_le (Nat.le_of_not_lt hi)]
  · rw [getD_set_ne m l hij]

/-- Relational view of a propagation result: both the failure state and the
success state are mutations of the input. -/
def resRel (R : GridMap → GridMap → Prop) : Res → GridMap → Prop
  | Res.fuelOut, _ => True
  | Res.failed m', m => R m' m
  | Res.ok m', m => R m' m

/-- Relational view restricted to successful results. -/
def resRelOk (R : GridMap → GridMap → Prop) : Res → GridMap → Prop
  | Res.ok m', m => R m' m
  | _, _ => True

theorem goList_rel {α : Type} {R : GridMap → GridMap → Prop} (hrefl : ∀ m, R m m)
    (htrans : ∀ {a b c : GridMap}, R a b → R b c → R a c)
    {step : GridMap → α → Res} (hstep : ∀ m x, resRel R (step m x) m) :
    ∀ (xs : List α) (m : GridMap), resRel R (goList step m xs) m := by
  intro xs
  induction xs with
  | nil => intro m; exact hrefl m
  | cons x xs ih =>
    intro m
    cases hx : step m x with
    | fuelOut => simp only [goList, hx]; trivial
    | failed m' =>
      have h1 := hstep m x
      rw [hx] at h1
      simp only [goList, hx]
      exact h1
    | ok m' =>
      have h1 := hstep m x
      rw [hx] at h1
      have h2 := ih m'
      simp only [goList, hx]
      cases hg : goList step m' xs with
      | fuelOut => trivial
      | failed m2 => rw [hg] at h2; exact htrans h2 h1
      | ok m2 => rw [hg] at h2; exact htrans h2 h1

theorem unitLoopGo_rel {R : GridMap → GridMap → Prop} (hrefl : ∀ m, R m m)
    (htrans : ∀ {a b c : GridMap}, R a b → R b c → R a c)
    {asg : GridMap → Nat → Char → Res} (hasg : ∀ m p d, resRel R (asg m p d) m) :
    ∀ (us : List (List Nat)) (m : GridMap) (d : Char),
      resRel R (unitLoopGo asg m us d) m := by
  intro us
  induction us with
  | nil => intro m d; exact hrefl m
  | cons u us ih =>
    intro m d
    by_cases h0 : (u.filter (fun i2 => (m.getD i2 []).contains d)).length = 0
    · simp only [unitLoopGo, h0, if_true]; exact hrefl m
    · by_cases h1 : (u.filter (fun i2 => (m.getD i2 []).contains d)).length = 1
      · cases hx : asg m ((u.filter (fun i2 => (m.getD i2 []).contains d)).headD 0) d with
        | fuelOut => simp only [unitLoopGo, h0, h1, if_false, if_true, hx]; trivial
        | failed m' =>
          have ha := hasg m ((u.filter (fun i2 => (m.getD i2 []).contains d)).headD 0) d
          rw [hx] at ha
          simp only [unitLoopGo, h0, h1, if_false, if_true, hx]
          exact ha
        | ok m' =>
          have ha := hasg m ((u.filter (fun i2 => (m.getD i2 []).contains d)).headD 0) d
          rw [hx] at ha
          have h2 := ih m' d
          simp only [unitLoopGo, h0, h1, if_false, if_true, hx]
          cases hg : unitLoopGo asg m' us d with
          | fuelOut => trivial
          | failed m2 => rw [hg] at h2; exact htrans h2 ha
          | ok m2 => rw [hg] at h2; exact htrans h2 ha
      · simp only [unitLoopGo, h0, h1, if_false]; exact ih m d

theorem resRel_mono {R : GridMap → GridMap → Prop}
    (htrans : ∀ {a b c : GridMap}, R a b → R b c → R a c)
    {r : Res} {b c : GridMap} (h1 : resRel R r b) (h2 : R b c) : resRel R r c := by
  cases r with
  | fuelOut => trivial
  | failed m' => exact htrans h1 h2
  | ok m' => exact htrans h1 h2

/-- Shrinking (and length preservation) for `_eliminate`: whatever the
outcome, every square's candidate list only loses entries. -/
theorem eliminateF_rel :
    ∀ (fuel : Nat) (m : GridMap) (i : Nat) (d : Char),
      resRel MapLE (eliminateF fuel m i d) m := by
  intro fuel
  induction fuel with
  | zero => intro m i d; simp only [eliminateF]; trivial
  | succ fuel ih =>
    intro m i d
    have hassign : ∀ (mm : GridMap) (p : Nat) (dd : Char),
        resRel MapLE (assignGo (eliminateF fuel) mm p dd) mm := by
      intro mm p dd
      exact goList_rel mapLE_refl mapLE_trans (fun m2 x => ih m2 p x) _ mm
    by_cases hc : (m.getD i []).contains d = true
    · have hm1 : MapLE (m.set i ((m.getD i []).filter (fun c => !(c == d)))) m :=
        mapLE_set (List.filter_sublist _)
      by_cases h0 : ((m.getD i []).filter (fun c => !(c == d))).length = 0
      · simp only [eliminateF, hc, if_true, h0]
        exact hm1
      · simp only [eliminateF, hc, if_true, h0, if_false]
        set m1 := m.set i ((m.getD i []).filter (fun c => !(c == d))) with hm1def
        have hinner : resRel MapLE
            (if ((m.getD i []).filter (fun c => !(c == d))).length = 1 then
              goList (fun mm p =>
                eliminateF fuel mm p (((m.getD i []).filter (fun c => !(c == d))).headD d))
                m1 (peersOf i)
            else Res.ok m1) m1 := by
          by_cases h1 : ((m.getD i []).filter (fun c => !(c == d))).length = 1
          · simp only [h1, if_true]
            exact goList_rel mapLE_refl mapLE_trans
              (fun m2 x => ih m2 x _) (peersOf i) m1
          · simp only [h1, if_false]; exact mapLE_refl m1
        cases hg : (if ((m.getD i []).filter (fun c => !(c == d))).length = 1 then
              goList (fun mm p =>
                eliminateF fuel mm p (((m.getD i []).filter (fun c => !(c == d))).headD d))
                m1 (peersOf i)
            else Res.ok m1) with
        | fuelOut => simp only [hg]; trivial
        | failed m2 =>
          rw [hg] at hinner
          simp only [hg]
          exact mapLE_trans hinner hm1
        | ok m2 =>
          rw [hg] at hinner
          simp only [hg]
          have hinner2 : MapLE m2 m1 := hinner
          have hu := unitLoopGo_rel mapLE_refl mapLE_trans hassign (unitsOf i) m2 d
          exact resRel_mono (R := MapLE) (fun {a b c} => mapLE_trans) hu
            (mapLE_trans hinner2 hm1)
    · simp only [eliminateF, hc, if_false]
      exact mapLE_refl m

/-- Shrinking for `_assign`. -/
theorem assignF_rel (fuel : Nat) (m : GridMap) (i : Nat) (d : Char) :
    resRel MapLE (assignF fuel m i d) m :=
  goList_rel mapLE_refl mapLE_trans (fun m2 x => eliminateF_rel fuel m2 i x) _ m

theorem contains_true_iff (l : List Char) (c : Char) : l.contains c = true ↔ c ∈ l := by
  simp

theorem mapLE_of_res_failed {fuel : Nat} {m m' : GridMap} {i : Nat} {d : Char}
    (h : eliminateF fuel m i d = Res.failed m') : MapLE m' m := by
  have := eliminateF_rel fuel m i d
  rw [h] at this
  exact this

theorem mapLE_of_res_ok {fuel : Nat} {m m' : GridMap} {i : Nat} {d : Char}
    (h : eliminateF fuel m i d = Res.ok m') : MapLE m' m := by
  have := eliminateF_rel fuel m i d
  rw [h] at this
  exact this

theorem mapLE_of_assign_ok {fuel : Nat} {m m' : GridMap} {i : Nat} {d : Char}
    (h : assignF fuel m i d = Res.ok m') : MapLE m' m := by
  have := assignF_rel fuel m i d
  rw [h] at this
  exact this

theorem goList_relOk {α : Type} {R : GridMap → GridMap → Prop} (hrefl : ∀ m, R m m)
    (htrans : ∀ {a b c : GridMap}, R a b → R b c → R a c)
    {step : GridMap → α → Res} (hstep : ∀ m x, resRelOk R (step m x) m) :
    ∀ (xs : List α) (m : GridMap), resRelOk R (goList step m xs) m := by
  intro xs
  induction xs with
  | nil => intro m; exact hrefl m
  | cons x xs ih =>
    intro m
    cases hx : step m x with
    | fuelOut => simp only [goList, hx]; trivial
    | failed m' => simp only [goList, hx]; trivial
    | ok m' =>
      have h1 := hstep m x
      rw [hx] at h1
      have h2 := ih m'
      simp only [goList, hx]
      cases hg : goList step m' xs with
      | fuelOut => trivial
      | failed m2 => trivial
      | ok m2 => rw [hg] at h2; exact htrans h2 h1

theorem unitLoopGo_relOk {R : GridMap → GridMap → Prop} (hrefl : ∀ m, R m m)
    (htrans : ∀ {a b c : GridMap}, R a b → R b c → R a c)
    {asg : GridMap → Nat → Char → Res} (hasg : ∀ m p d, resRelOk R (asg m p d) m) :
    ∀ (us : List (List Nat)) (m : GridMap) (d : Char),
      resRelOk R (unitLoopGo asg m us d) m := by
  intro us
  induction us with
  | nil => intro m d; exact hrefl m
  | cons u us ih =>
    intro m d
    by_cases h0 : (u.filter (fun i2 => (m.getD i2 []).contains d)).length = 0
    · simp only [unitLoopGo, h0, if_true]; trivial
    · by_cases h1 : (u.filter (fun i2 => (m.getD i2 []).contains d)).length = 1
      · cases hx : asg m ((u.filter (fun i2 => (m.getD i2 []).contains d)).headD 0) d with
        | fuelOut => simp only [unitLoopGo, h0, h1, if_false, if_true, hx]; trivial
        | failed m' => simp only [unitLoopGo, h0, h1, if_false, if_true, hx]; trivial
        | ok m' =>
          have ha := hasg m ((u.filter (fun i2 => (m.getD i2 []).contains d)).headD 0) d
          rw [hx] at ha
          have h2 := ih m' d
          simp only [unitLoopGo, h0, h1, if_false, if_true, hx]
          cases hg : unitLoopGo asg m' us d with
          | fuelOut => trivial
          | failed m2 => trivial
          | ok m2 => rw [hg] at h2; exact htrans h2 ha
      · simp only [unitLoopGo, h0, h1, if_false]; exact ih m d

/-- Generic success-only invariant for `_eliminate`: any property of grid
transitions that is reflexive, transitive, and holds for the non-emptying
removal step is preserved by a successful elimination. -/
theorem eliminateF_relOk {R : GridMap → GridMap → Prop} (hrefl : ∀ m, R m m)
    (htrans : ∀ {a b c : GridMap}, R a b → R b c → R a c)
    (hset : ∀ (m : GridMap) (i : Nat) (d : Char),
      (m.getD i []).contains d = true →
      ¬ ((m.getD i []).filter (fun c => !(c == d))).length = 0 →
      R (m.set i ((m.getD i []).filter (fun c => !(c == d)))) m) :
    ∀ (fuel : Nat) (m : GridMap) (i : Nat) (d : Char),
      resRelOk R (eliminateF fuel m i d) m := by
  intro fuel
  induction fuel with
  | zero => intro m i d; simp only [eliminateF]; trivial
  | succ fuel ih =>
    intro m i d
    have hassign : ∀ (mm : GridMap) (p : Nat) (dd : Char),
        resRelOk R (assignGo (eliminateF fuel) mm p dd) mm := by
      intro mm p dd
      exact goList_relOk hrefl htrans (fun m2 x => ih m2 p x) _ mm
    by_cases hc : (m.getD i []).contains d = true
    · by_cases h0 : ((m.getD i []).filter (fun c => !(c == d))).length = 0
      · simp only [eliminateF, hc, if_true, h0]; trivial
      · simp only [eliminateF, hc, if_true, h0, if_false]
        set m1 := m.set i ((m.getD i []).filter (fun c => !(c == d))) with hm1def
        have hm1 : R m1 m := hset m i d hc h0
        have hinner : resRelOk R
            (if ((m.getD i []).filter (fun c => !(c == d))).length = 1 then
              goList (fun mm p =>
                eliminateF fuel mm p (((m.getD i []).filter (fun c => !(c == d))).headD d))
                m1 (peersOf i)
            else Res.ok m1) m1 := by
          by_cases h1 : ((m.getD i []).filter (fun c => !(c == d))).length = 1
          · simp only [h1, if_true]
            exact goList_relOk hrefl htrans (fun m2 x => ih m2 x _) (peersOf i) m1
          · simp only [h1, if_false]; exact hrefl m1
        cases hg : (if ((m.getD i []).filter (fun c => !(c == d))).length = 1 then
              goList (fun mm p =>
                eliminateF fuel mm p (((m.getD i []).filter (fun c => !(c == d))).headD d))
                m1 (peersOf i)
            else Res.ok m1) with
        | fuelOut => simp only [hg]; trivial
        | failed m2 => simp only [hg]; trivial
        | ok m2 =>
          rw [hg] at hinner
          simp only [hg]
          have hinner2 : R m2 m1 := hinner
          have hu := unitLoopGo_relOk hrefl htrans hassign (unitsOf i) m2 d
          cases hul : unitLoopGo (assignGo (eliminateF fuel)) m2 (unitsOf i) d with
          | fuelOut => trivial
          | failed m3 => trivial
          | ok m3 =>
            rw [hul] at hu
            exact htrans (htrans hu hinner2) hm1
    · simp only [eliminateF, hc, if_false]
      exact hrefl m

/-- Squares in range never hold an empty candidate list. -/
def NEm (m : GridMap) : Prop := ∀ j, j < m.length → m.getD j [] ≠ []

/-- A successful elimination keeps every in-range square nonempty. -/
theorem eliminateF_ne {fuel : Nat} {m m' : GridMap} {i : Nat} {d : Char}
    (h : eliminateF fuel m i d = Res.ok m') (hne : NEm m) : NEm m' := by
  have := eliminateF_relOk (R := fun b a => NEm a → NEm b)
    (fun _ hx => hx) (fun {a b c} h1 h2 hx => h1 (h2 hx))
    (fun mm ii dd hc h0 => by
      intro hx j hj
      rw [List.length_set] at hj
      by_cases hij : ii = j
      · subst hij
        rw [getD_set_self mm ii _ (contains_getD_lt hc)]
        intro hnil
        rw [hnil] at h0
        exact h0 rfl
      · rw [getD_set_ne mm _ hij]
        exact hx j hj)
    fuel m i d
  rw [h] at this
  exact this hne

/-- A successful assignment keeps every in-range square nonempty. -/
theorem assignF_ne {fuel : Nat} {m m' : GridMap} {i : Nat} {d : Char}
    (h : assignF fuel m i d = Res.ok m') (hne : NEm m) : NEm m' := by
  have hstep : ∀ (m2 : GridMap) (x : Char),
      resRelOk (fun b a => NEm a → NEm b) (eliminateF fuel m2 i x) m2 := by
    intro m2 x
    cases hx : eliminateF fuel m2 i x with
    | fuelOut => trivial
    | failed m3 => trivial
    | ok m3 => exact eliminateF_ne hx
  have := goList_relOk (R := fun b a => NEm a → NEm b)
    (fun _ hx => hx) (fun {a b c} h1 h2 hx => h1 (h2 hx)) hstep
    ((m.getD i []).filter (fun c => !(c == d))) m
  rw [assignF, assignGo] at h
  rw [h] at this
  exact this hne

/-- Inversion of a successful elimination: either it was a no-op, or the
digit was removed from the square and the result only shrank further. -/
theorem eliminateF_ok_inv {fuel : Nat} {m m' : GridMap} {i : Nat} {d : Char}
    (h : eliminateF (fuel + 1) m i d = Res.ok m') :
    ((m.getD i []).contains d = false ∧ m' = m) ∨
    ((m.getD i []).contains d = true ∧
      ¬ ((m.getD i []).filter (fun c => !(c == d))).length = 0 ∧
      MapLE m' (m.set i ((m.getD i []).filter (fun c => !(c == d))))) := by
  by_cases hc : (m.getD i []).contains d = true
  · right
    refine ⟨hc, ?_⟩
    by_cases h0 : ((m.getD i []).filter (fun c => !(c == d))).length = 0
    · simp only [eliminateF, hc, if_true, h0] at h
      exact absurd h (by simp)
    · refine ⟨h0, ?_⟩
      simp only [eliminateF, hc, if_true, h0, if_false] at h
      set m1 := m.set i ((m.getD i []).filter (fun c => !(c == d))) with hm1def
      have hinner : resRel MapLE
          (if ((m.getD i []).filter (fun c => !(c == d))).length = 1 then
            goList (fun mm p =>
              eliminateF fuel mm p (((m.getD i []).filter (fun c => !(c == d))).headD d))
              m1 (peersOf i)
          else Res.ok m1) m1 := by
        by_cases h1 : ((m.getD i []).filter (fun c => !(c == d))).length = 1
        · simp only [h1, if_true]
          exact goList_rel mapLE_refl mapLE_trans
            (fun m2 x => eliminateF_rel fuel m2 x _) (peersOf i) m1
        · simp only [h1, if_false]; exact mapLE_refl m1
      cases hg : (if ((m.getD i []).filter (fun c => !(c == d))).length = 1 then
            goList (fun mm p =>
              eliminateF fuel mm p (((m.getD i []).filter (fun c => !(c == d))).headD d))
              m1 (peersOf i)
          else Res.ok m1) with
      | fuelOut => rw [hg] at h; exact absurd h (by simp)
      | failed m2 => rw [hg] at h; exact absurd h (by simp)
      | ok m2 =>
        rw [hg] at h hinner
        dsimp only at h
        have hinner2 : MapLE m2 m1 := hinner
        have hasgrel : ∀ (mm : GridMap) (p : Nat) (dd : Char),
            resRel MapLE (assignGo (eliminateF fuel) mm p dd) mm :=
          fun mm p dd => assignF_rel fuel mm p dd
        have hu := unitLoopGo_rel mapLE_refl mapLE_trans hasgrel (unitsOf i) m2 d
        rw [h] at hu
        exact mapLE_trans hu hinner2
  · left
    have hcf : (m.getD i []).contains d = false := by
      cases hcc : (m.getD i []).contains d with
      | false => rfl
      | true => exact absurd hcc hc
    refine ⟨hcf, ?_⟩
    simp only [eliminateF, hcf, Bool.false_eq_true, if_false] at h
    exact (Res.ok.injEq .. ▸ h).symm

/-- After a successful elimination, the digit is gone from the square. -/
theorem eliminateF_not_mem {fuel : Nat} {m m' : GridMap} {i : Nat} {d : Char}
    (h : eliminateF fuel m i d = Res.ok m') : d ∉ m'.getD i [] := by
  cases fuel with
  | zero => simp only [eliminateF] at h; exact absurd h (by simp)
  | succ fuel =>
    rcases eliminateF_ok_inv h with ⟨hc, rfl⟩ | ⟨hc, h0, hle⟩
    · intro hmem
      rw [← contains_true_iff] at hmem
      rw [hmem] at hc
      exact absurd hc (by simp)
    · intro hmem
      have hi : i < m.length := contains_getD_lt hc
      have hsub := hle.2 i
      rw [getD_set_self m i _ hi] at hsub
      have := hsub.subset hmem
      rw [List.mem_filter] at this
      simp at this

/-- A successful sequence of eliminations at one square removes every
listed digit for good. -/
theorem goList_elim_not_mem {fuel : Nat} {i : Nat} :
    ∀ {xs : List Char} {m m' : GridMap},
      goList (fun mm d2 => eliminateF fuel mm i d2) m xs = Res.ok m' →
      ∀ x ∈ xs, x ∉ m'.getD i [] := by
  intro xs
  induction xs with
  | nil => intro m m' h x hx; exact absurd hx (List.not_mem_nil x)
  | cons y ys ih =>
    intro m m' h x hx
    cases hy : eliminateF fuel m i y with
    | fuelOut => simp only [goList, hy] at h; exact absurd h (by simp)
    | failed m1 => simp only [goList, hy] at h; exact absurd h (by simp)
    | ok m1 =>
      simp only [goList, hy] at h
      rcases List.mem_cons.1 hx with rfl | hx2
      · have h1 : x ∉ m1.getD i [] := eliminateF_not_mem hy
        have hle := goList_rel mapLE_refl mapLE_trans
          (fun m2 z => eliminateF_rel fuel m2 i z) ys m1
        rw [h] at hle
        intro hmem
        exact h1 ((hle.2 i).subset hmem)
      · exact ih h x hx2

/-- Elements all equal to `d` in a nonempty duplicate-free list force the
list to be exactly `[d]`. -/
theorem eq_singleton_of_all_eq {l : List Char} {d : Char} (hne : l ≠ [])
    (hnd : l.Nodup) (hall : ∀ c ∈ l, c = d) : l = [d] := by
  cases l with
  | nil => exact absurd rfl hne
  | cons c t =>
    have hc : c = d := hall c (List.mem_cons_self c t)
    subst hc
    cases t with
    | nil => rfl
    | cons c2 t2 =>
      have hc2 : c2 = c := hall c2 (by simp)
      subst hc2
      simp at hnd

/-- Post-condition of a successful `_assign` on an in-range square of a
nonempty duplicate-free grid: the square holds exactly the assigned digit,
which must have been possible there. -/
theorem assignF_singleton {fuel : Nat} {m m' : GridMap} {i : Nat} {d : Char}
    (h : assignF fuel m i d = Res.ok m') (hne : NEm m)
    (hnodup : (m.getD i []).Nodup) (hi : i < m.length) :
    m'.getD i [] = [d] ∧ d ∈ m.getD i [] := by
  have hle := mapLE_of_assign_ok h
  have hsub : (m'.getD i []).Sublist (m.getD i []) := hle.2 i
  have hnm : ∀ x ∈ (m.getD i []).filter (fun c => !(c == d)), x ∉ m'.getD i [] := by
    rw [assignF, assignGo] at h
    exact goList_elim_not_mem h
  have hall : ∀ c ∈ m'.getD i [], c = d := by
    intro c hc
    by_contra hcd
    refine hnm c ?_ hc
    rw [List.mem_filter]
    exact ⟨hsub.subset hc, by simp [hcd]⟩
  have hne' : m'.getD i [] ≠ [] := by
    refine assignF_ne h hne i ?_
    rw [hle.1]
    exact hi
  have hs : m'.getD i [] = [d] := eq_singleton_of_all_eq hne' (hsub.nodup hnodup) hall
  refine ⟨hs, ?_⟩
  have : d ∈ m'.getD i [] := by rw [hs]; simp
  exact hsub.subset this

/-! ### Termination: the fuel is bounded by the total number of candidates -/

theorem totalCand_cons (x : List Char) (xs : GridMap) :
    totalCand (x :: xs) = x.length + totalCand xs := by
  simp [totalCand]

theorem totalCand_le_aux :
    ∀ (b a : GridMap), a.length = b.length →
      (∀ j, (a.getD j []).Sublist (b.getD j [])) → totalCand a ≤ totalCand b := by
  intro b
  induction b with
  | nil =>
    intro a h1 _
    cases a with
    | nil => exact Nat.le.refl
    | cons x xs => simp at h1
  | cons y ys ih =>
    intro a h1 h2
    cases a with
    | nil => simp at h1
    | cons x xs =>
      rw [totalCand_cons, totalCand_cons]
      have hx : x.Sublist y := h2 0
      have hxs : totalCand xs ≤ totalCand ys := by
        refine ih xs (by simpa using h1) (fun j => ?_)
        have := h2 (j + 1)
        simpa using this
      exact Nat.add_le_add hx.length_le hxs

theorem totalCand_le_of_mapLE {m' m : GridMap} (h : MapLE m' m) :
    totalCand m' ≤ totalCand m :=
  totalCand_le_aux m m' h.1 h.2

theorem totalCand_set_lt :
    ∀ (m : GridMap) (i : Nat) (l : List Char), i < m.length →
      l.length < (m.getD i []).length → totalCand (m.set i l) < totalCand m := by
  intro m
  induction m with
  | nil => intro i l hi _; simp at hi
  | cons x xs ih =>
    intro i l hi hl
    cases i with
    | zero =>
      simp only [List.set]
      rw [totalCand_cons, totalCand_cons]
      exact Nat.add_lt_add_right (by simpa using hl) _
    | succ i =>
      simp only [List.set]
      rw [totalCand_cons, totalCand_cons]
      refine Nat.add_lt_add_left (ih i l (by simpa using hi) (by simpa using hl)) _

theorem filter_ne_length_lt {l : List Char} {d : Char} (h : d ∈ l) :
    (l.filter (fun c => !(c == d))).length < l.length := by
  refine List.length_filter_lt_length_iff_exists.2 ?_
  exact ⟨d, h, by simp⟩

theorem goList_no_fuelOut {α : Type} {step : GridMap → α → Res} {F : Nat}
    (hstep : ∀ m x, totalCand m < F → step m x ≠ Res.fuelOut)
    (hstepLE : ∀ m x, resRel MapLE (step m x) m) :
    ∀ (xs : List α) (m : GridMap), totalCand m < F →
      goList step m xs ≠ Res.fuelOut := by
  intro xs
  induction xs with
  | nil => intro m _ h; simp [goList] at h
  | cons x xs ih =>
    intro m hm
    cases hx : step m x with
    | fuelOut => exact absurd hx (hstep m x hm)
    | failed m1 => simp only [goList, hx]; intro hcon; exact absurd hcon (by simp)
    | ok m1 =>
      simp only [goList, hx]
      have hLE := hstepLE m x
      rw [hx] at hLE
      exact ih m1 (Nat.lt_of_le_of_lt (totalCand_le_of_mapLE hLE) hm)

theorem unitLoopGo_no_fuelOut {asg : GridMap → Nat → Char → Res} {F : Nat}
    (hasg : ∀ m p d, totalCand m < F → asg m p d ≠ Res.fuelOut)
    (hasgLE : ∀ m p d, resRel MapLE (asg m p d) m) :
    ∀ (us : List (List Nat)) (m : GridMap) (d : Char), totalCand m < F →
      unitLoopGo asg m us d ≠ Res.fuelOut := by
  intro us
  induction us with
  | nil => intro m d _ h; simp [unitLoopGo] at h
  | cons u us ih =>
    intro m d hm
    by_cases h0 : (u.filter (fun i2 => (m.getD i2 []).contains d)).length = 0
    · simp only [unitLoopGo, h0, if_true]; intro hcon; exact absurd hcon (by simp)
    · by_cases h1 : (u.filter (fun i2 => (m.getD i2 []).contains d)).length = 1
      · cases hx : asg m ((u.filter (fun i2 => (m.getD i2 []).contains d)).headD 0) d with
        | fuelOut => exact absurd hx (hasg m _ d hm)
        | failed m1 =>
          simp only [unitLoopGo, h0, h1, if_false, if_true, hx]
          intro hcon; exact absurd hcon (by simp)
        | ok m1 =>
          simp only [unitLoopGo, h0, h1, if_false, if_true, hx]
          have hLE := hasgLE m ((u.filter (fun i2 => (m.getD i2 []).contains d)).headD 0) d
          rw [hx] at hLE
          exact ih m1 d (Nat.lt_of_le_of_lt (totalCand_le_of_mapLE hLE) hm)
      · simp only [unitLoopGo, h0, h1, if_false]; exact ih m d hm

/-- Termination of `_eliminate`: a fuel budget exceeding the total number of
remaining candidates can never run out, because every elimination that
recurses strictly shrinks some candidate list. -/
theorem eliminateF_no_fuelOut :
    ∀ (fuel : Nat) (m : GridMap) (i : Nat) (d : Char), totalCand m < fuel →
      eliminateF fuel m i d ≠ Res.fuelOut := by
  intro fuel
  induction fuel with
  | zero => intro m i d hm; exact absurd hm (by simp)
  | succ fuel ih =>
    intro m i d hm
    by_cases hc : (m.getD i []).contains d = true
    · by_cases h0 : ((m.getD i []).filter (fun c => !(c == d))).length = 0
      · simp only [eliminateF, hc, if_true, h0]
        intro hcon; exact absurd hcon (by simp)
      · simp only [eliminateF, hc, if_true, h0, if_false]
        set m1 := m.set i ((m.getD i []).filter (fun c => !(c == d))) with hm1def
        have hm1lt : totalCand m1 < totalCand m := by
          refine totalCand_set_lt m i _ (contains_getD_lt hc) ?_
          exact filter_ne_length_lt ((contains_true_iff _ _).1 hc)
        have hm1F : totalCand m1 < fuel :=
          Nat.lt_of_lt_of_le hm1lt (Nat.lt_succ_iff.1 hm)
        have hassignNF : ∀ (mm : GridMap) (p : Nat) (dd : Char), totalCand mm < fuel →
            assignGo (eliminateF fuel) mm p dd ≠ Res.fuelOut := by
          intro mm p dd hmm
          refine goList_no_fuelOut (fun m2 x h2 => ih m2 p x h2)
            (fun m2 x => eliminateF_rel fuel m2 p x) _ mm hmm
        have hinnerNF : (if ((m.getD i []).filter (fun c => !(c == d))).length = 1 then
              goList (fun mm p =>
                eliminateF fuel mm p (((m.getD i []).filter (fun c => !(c == d))).headD d))
                m1 (peersOf i)
            else Res.ok m1) ≠ Res.fuelOut := by
          by_cases h1 : ((m.getD i []).filter (fun c => !(c == d))).length = 1
          · simp only [h1, if_true]
            refine goList_no_fuelOut (fun m2 x h2 => ih m2 x _ h2)
              (fun m2 x => eliminateF_rel fuel m2 x _) (peersOf i) m1 hm1F
          · simp only [h1, if_false]; intro hcon; exact absurd hcon (by simp)
        have hinnerLE : resRel MapLE
            (if ((m.getD i []).filter (fun c => !(c == d))).length = 1 then
              goList (fun mm p =>
                eliminateF fuel mm p (((m.getD i []).filter (fun c => !(c == d))).headD d))
                m1 (peersOf i)
            else Res.ok m1) m1 := by
          by_cases h1 : ((m.getD i []).filter (fun c => !(c == d))).length = 1
          · simp only [h1, if_true]
            exact goList_rel mapLE_refl mapLE_trans
              (fun m2 x => eliminateF_rel fuel m2 x _) (peersOf i) m1
          · simp only [h1, if_false]; exact mapLE_refl m1
        cases hg : (if ((m.getD i []).filter (fun c => !(c == d))).length = 1 then
              goList (fun mm p =>
                eliminateF fuel mm p (((m.getD i []).filter (fun c => !(c == d))).headD d))
                m1 (peersOf i)
            else Res.ok m1) with
        | fuelOut => exact absurd hg hinnerNF
        | failed m2 => intro hcon; exact absurd hcon (by simp)
        | ok m2 =>
          rw [hg] at hinnerLE
          have hm2F : totalCand m2 < fuel :=
            Nat.lt_of_le_of_lt (totalCand_le_of_mapLE hinnerLE) hm1F
          refine unitLoopGo_no_fuelOut hassignNF
            (fun mm p dd => assignF_rel fuel mm p dd) (unitsOf i) m2 d hm2F
    · simp only [eliminateF, hc, if_false]
      intro hcon; exact absurd hcon (by simp)

/-- Termination of `_assign` under the same fuel bound. -/
theorem assignF_no_fuelOut (fuel : Nat) (m : GridMap) (i : Nat) (d : Char)
    (hm : totalCand m < fuel) : assignF fuel m i d ≠ Res.fuelOut := by
  refine goList_no_fuelOut (fun m2 x h2 => eliminateF_no_fuelOut fuel m2 i x h2)
    (fun m2 x => eliminateF_rel fuel m2 i x) _ m hm

/-! ### The no-unplaceable-digit invariant -/

/-- Digit `e` still has at least one possible home inside the unit `u`. -/
def hasPlace (m : GridMap) (u : List Nat) (e : Char) : Prop :=
  ∃ j, j ∈ u ∧ e ∈ m.getD j []

/-- Place preservation: no successful operation ever destroys the last
possible home of a digit in a unit. -/
def PlacesMono (m' m : GridMap) : Prop :=
  ∀ u, u ∈ allUnits → ∀ e : Char, hasPlace m u e → hasPlace m' u e

theorem placesMono_refl (m : GridMap) : PlacesMono m m := fun _ _ _ h => h

theorem placesMono_trans {a b c : GridMap} (h1 : PlacesMono a b) (h2 : PlacesMono b c) :
    PlacesMono a c := fun u hu e h => h1 u hu e (h2 u hu e h)

/-- Every official unit containing a square appears among that square's
three units. -/
theorem allUnits_mem_unitsOf : ∀ u ∈ allUnits, ∀ i ∈ u, u ∈ unitsOf i := by decide

/-- A per-square nonemptiness is preserved by successful elimination. -/
theorem eliminateF_necell (p : Nat) {fuel : Nat} {m m' : GridMap} {i : Nat} {d : Char}
    (h : eliminateF fuel m i d = Res.ok m') (hp : m.getD p [] ≠ []) :
    m'.getD p [] ≠ [] := by
  have := eliminateF_relOk (R := fun b a => a.getD p [] ≠ [] → b.getD p [] ≠ [])
    (fun _ hx => hx) (fun {a b c} h1 h2 hx => h1 (h2 hx))
    (fun mm ii dd hc h0 => by
      intro hx
      by_cases hip : ii = p
      · subst hip
        rw [getD_set_self mm ii _ (contains_getD_lt hc)]
        intro hnil
        rw [hnil] at h0
        exact h0 rfl
      · rw [getD_set_ne mm _ hip]
        exact hx)
    fuel m i d
  rw [h] at this
  exact this hp

/-- A successful `_assign` keeps the assigned digit possible at its square. -/
theorem assignF_keeps_digit {fuel : Nat} {mm m'' : GridMap} {p : Nat} {dd : Char}
    (h : assignGo (eliminateF fuel) mm p dd = Res.ok m'') (hd : dd ∈ mm.getD p []) :
    dd ∈ m''.getD p [] := by
  have hne : m''.getD p [] ≠ [] := by
    have hstep : ∀ (m2 : GridMap) (x : Char),
        resRelOk (fun b a => a.getD p [] ≠ [] → b.getD p [] ≠ [])
          (eliminateF fuel m2 p x) m2 := by
      intro m2 x
      cases hx : eliminateF fuel m2 p x with
      | fuelOut => trivial
      | failed m3 => trivial
      | ok m3 => exact eliminateF_necell p hx
    have := goList_relOk (R := fun b a => a.getD p [] ≠ [] → b.getD p [] ≠ [])
      (fun _ hx => hx) (fun {a b c} h1 h2 hx => h1 (h2 hx)) hstep
      ((mm.getD p []).filter (fun c => !(c == dd))) mm
    rw [assignGo] at h
    rw [h] at this
    exact this (fun hnil => by rw [hnil] at hd; exact absurd hd (List.not_mem_nil dd))
  have hle : MapLE m'' mm := mapLE_of_assign_ok (by rw [assignF]; exact h)
  have hnm : ∀ x ∈ (mm.getD p []).filter (fun c => !(c == dd)), x ∉ m''.getD p [] := by
    rw [assignGo] at h
    exact goList_elim_not_mem h
  rcases List.exists_mem_of_ne_nil _ hne with ⟨c, hc⟩
  have hcm : c ∈ mm.getD p [] := (hle.2 p).subset hc
  by_cases hcd : c = dd
  · rw [hcd] at hc; exact hc
  · exact absurd hc (hnm c (List.mem_filter.2 ⟨hcm, by simp [hcd]⟩))

/-- Unit loop of `_eliminate` at the invariant level: successful completion
preserves place-availability and (re)establishes that the eliminated digit
has a home in every scanned official unit. -/
theorem unitLoopGo_placesEnd {fuel : Nat}
    (hasgMono : ∀ (mm : GridMap) (p : Nat) (dd : Char),
      resRelOk PlacesMono (assignGo (eliminateF fuel) mm p dd) mm) :
    ∀ {us : List (List Nat)} {m m' : GridMap} {d : Char},
      unitLoopGo (assignGo (eliminateF fuel)) m us d = Res.ok m' →
      PlacesMono m' m ∧ ∀ u ∈ us, u ∈ allUnits → hasPlace m' u d := by
  intro us
  induction us with
  | nil =>
    intro m m' d h
    simp only [unitLoopGo] at h
    have hmm : m = m' := by injection h
    subst hmm
    exact ⟨placesMono_refl m, by simp⟩
  | cons u us ih =>
    intro m m' d h
    by_cases h0 : (u.filter (fun i2 => (m.getD i2 []).contains d)).length = 0
    · simp only [unitLoopGo, h0, if_true] at h
      exact absurd h (by simp)
    · by_cases h1 : (u.filter (fun i2 => (m.getD i2 []).contains d)).length = 1
      · cases hx : assignGo (eliminateF fuel) m
            ((u.filter (fun i2 => (m.getD i2 []).contains d)).headD 0) d with
        | fuelOut =>
          simp only [unitLoopGo, h0, h1, if_false, if_true, hx] at h
          exact absurd h (by simp)
        | failed m1 =>
          simp only [unitLoopGo, h0, h1, if_false, if_true, hx] at h
          exact absurd h (by simp)
        | ok m1 =>
          simp only [unitLoopGo, h0, h1, if_false, if_true, hx] at h
          have hMono1 : PlacesMono m1 m := by
            have := hasgMono m ((u.filter (fun i2 => (m.getD i2 []).contains d)).headD 0) d
            rw [hx] at this
            exact this
          rcases ih h with ⟨hMono2, hTail⟩
          refine ⟨placesMono_trans hMono2 hMono1, ?_⟩
          intro u' hu' hall
          rcases List.mem_cons.1 hu' with rfl | hu2
          · -- the head unit: its single place keeps the digit after the assign
            have hp0 : (u'.filter (fun i2 => (m.getD i2 []).contains d)).headD 0 ∈
                u'.filter (fun i2 => (m.getD i2 []).contains d) := by
              cases hpl : u'.filter (fun i2 => (m.getD i2 []).contains d) with
              | nil => rw [hpl] at h0; exact absurd rfl h0
              | cons q qs => simp
            have hp := List.mem_filter.1 hp0
            have hd1 : d ∈ m1.getD
                ((u'.filter (fun i2 => (m.getD i2 []).contains d)).headD 0) [] :=
              assignF_keeps_digit hx ((contains_true_iff _ _).1 hp.2)
            have : hasPlace m1 u' d :=
              ⟨(u'.filter (fun i2 => (m.getD i2 []).contains d)).headD 0, hp.1, hd1⟩
            exact hMono2 u' hall d this
          · exact hTail u' hu2 hall
      · simp only [unitLoopGo, h0, h1, if_false] at h
        rcases ih h with ⟨hMono2, hTail⟩
        refine ⟨hMono2, ?_⟩
        intro u' hu' hall
        rcases List.mem_cons.1 hu' with rfl | hu2
        · have hne : u'.filter (fun i2 => (m.getD i2 []).contains d) ≠ [] := by
            intro hnil; rw [hnil] at h0; exact absurd rfl h0
          rcases List.exists_mem_of_ne_nil _ hne with ⟨q, hq⟩
          have hqf := List.mem_filter.1 hq
          exact hMono2 u' hall d ⟨q, hqf.1, (contains_true_iff _ _).1 hqf.2⟩
        · exact hTail u' hu2 hall

/-- Place-availability is preserved by every successful elimination: a digit
that had a home in an official unit keeps one. -/
theorem eliminateF_placesMono :
    ∀ (fuel : Nat) (m : GridMap) (i : Nat) (d : Char),
      resRelOk PlacesMono (eliminateF fuel m i d) m := by
  intro fuel
  induction fuel with
  | zero => intro m i d; simp only [eliminateF]; trivial
  | succ fuel ih =>
    intro m i d
    have hassignMono : ∀ (mm : GridMap) (p : Nat) (dd : Char),
        resRelOk PlacesMono (assignGo (eliminateF fuel) mm p dd) mm := by
      intro mm p dd
      exact goList_relOk placesMono_refl placesMono_trans (fun m2 x => ih m2 p x) _ mm
    by_cases hc : (m.getD i []).contains d = true
    · by_cases h0 : ((m.getD i []).filter (fun c => !(c == d))).length = 0
      · simp only [eliminateF, hc, if_true, h0]; trivial
      · simp only [eliminateF, hc, if_true, h0, if_false]
        set m1 := m.set i ((m.getD i []).filter (fun c => !(c == d))) with hm1def
        have hinner : resRelOk PlacesMono
            (if ((m.getD i []).filter (fun c => !(c == d))).length = 1 then
              goList (fun mm p =>
                eliminateF fuel mm p (((m.getD i []).filter (fun c => !(c == d))).headD d))
                m1 (peersOf i)
            else Res.ok m1) m1 := by
          by_cases h1 : ((m.getD i []).filter (fun c => !(c == d))).length = 1
          · simp only [h1, if_true]
            exact goList_relOk placesMono_refl placesMono_trans
              (fun m2 x => ih m2 x _) (peersOf i) m1
          · simp only [h1, if_false]; exact placesMono_refl m1
        cases hg : (if ((m.getD i []).filter (fun c => !(c == d))).length = 1 then
              goList (fun mm p =>
                eliminateF fuel mm p (((m.getD i []).filter (fun c => !(c == d))).headD d))
                m1 (peersOf i)
            else Res.ok m1) with
        | fuelOut => simp only [hg]; trivial
        | failed m2 => simp only [hg]; trivial
        | ok m2 =>
          rw [hg] at hinner
          have hPeers : PlacesMono m2 m1 := hinner
          simp only [hg]
          cases hul : unitLoopGo (assignGo (eliminateF fuel)) m2 (unitsOf i) d with
          | fuelOut => trivial
          | failed m3 => trivial
          | ok m3 =>
            rcases unitLoopGo_placesEnd hassignMono hul with ⟨hUL, hTail⟩
            intro u hu e hP
            rcases hP with ⟨j, hju, hejm⟩
            by_cases hji : j = i
            · subst hji
              by_cases hed : e = d
              · subst hed
                exact hTail _ (allUnits_mem_unitsOf u hu j hju) hu
              · have hem1 : hasPlace m1 u e := by
                  refine ⟨j, hju, ?_⟩
                  rw [getD_set_self m j _ (contains_getD_lt hc)]
                  exact List.mem_filter.2 ⟨hejm, by simp [hed]⟩
                exact hUL u hu e (hPeers u hu e hem1)
            · have hem1 : hasPlace m1 u e := by
                refine ⟨j, hju, ?_⟩
                rw [getD_set_ne m _ (fun hij => hji hij.symm)]
                exact hejm
              exact hUL u hu e (hPeers u hu e hem1)
    · simp only [eliminateF, hc, if_false]
      exact placesMono_refl m

/-- Place-availability is preserved by every successful assignment. -/
theorem assignF_placesMono {fuel : Nat} {m m' : GridMap} {i : Nat} {d : Char}
    (h : assignF fuel m i d = Res.ok m') : PlacesMono m' m := by
  have := goList_relOk placesMono_refl placesMono_trans
    (fun m2 x => eliminateF_placesMono fuel m2 i x)
    ((m.getD i []).filter (fun c => !(c == d))) m
  rw [assignF, assignGo] at h
  rw [h] at this
  exact this

/-! ### Solution grids and soundness of propagation along a solution -/

/-- The values a grid takes on one unit. -/
def unitVals (s : List Char) (u : List Nat) : List Char :=
  u.map (fun j => s.getD j '.')

/-- A complete valid solution grid: 81 characters, every square a digit,
and no unit carrying a repeated value. -/
def IsSolGrid (s : List Char) : Prop :=
  s.length = 81 ∧ (∀ j, j < 81 → s.getD j '.' ∈ stdDigits) ∧
    (∀ u ∈ allUnits, (unitVals s u).Nodup)

instance : DecidablePred IsSolGrid := by
  intro s
  unfold IsSolGrid
  infer_instance

/-- The target solution is still possible everywhere. -/
def SoundFor (s : List Char) (m : GridMap) : Prop :=
  ∀ j, j < 81 → s.getD j '.' ∈ m.getD j []

theorem mem_unitsOf_self : ∀ i ∈ List.range 81, ∀ u ∈ unitsOf i, i ∈ u := by decide

theorem unitsOf_mem_allUnits : ∀ i ∈ List.range 81, ∀ u ∈ unitsOf i, u ∈ allUnits := by
  decide

theorem allUnits_nodup : ∀ u ∈ allUnits, u.Nodup := by decide

theorem allUnits_lt : ∀ u ∈ allUnits, ∀ j ∈ u, j < 81 := by decide

theorem allUnits_len : ∀ u ∈ allUnits, u.length = 9 := by decide

theorem stdDigits_nodup : stdDigits.Nodup := by decide

theorem stdDigits_len : stdDigits.length = 9 := rfl

theorem peersOf_mem_units : ∀ i ∈ List.range 81, ∀ p ∈ peersOf i,
    p ≠ i ∧ p < 81 ∧ (p ∈ rowIndices i ∨ p ∈ columnIndices i ∨ p ∈ boxIndices i) := by
  decide

/-- On a solution grid, distinct squares of one unit carry distinct values. -/
theorem solGrid_unit_inj {s : List Char} (hsol : IsSolGrid s) {u : List Nat}
    (hu : u ∈ allUnits) {a b : Nat} (ha : a ∈ u) (hb : b ∈ u) (hab : a ≠ b) :
    s.getD a '.' ≠ s.getD b '.' := by
  intro heq
  exact hab (List.inj_on_of_nodup_map (hsol.2.2 u hu) ha hb heq)

/-- On a solution grid, every unit realizes every digit somewhere. -/
theorem solGrid_unit_surj {s : List Char} (hsol : IsSolGrid s) {u : List Nat}
    (hu : u ∈ allUnits) {d : Char} (hd : d ∈ stdDigits) :
    ∃ q, q ∈ u ∧ s.getD q '.' = d := by
  have hvals_sub : unitVals s u ⊆ stdDigits := by
    intro c hc
    rcases List.mem_map.1 hc with ⟨q, hq, rfl⟩
    exact hsol.2.1 q (allUnits_lt u hu q hq)
  have hvals_nodup : (unitVals s u).Nodup := hsol.2.2 u hu
  have hlen : (unitVals s u).length = 9 := by
    rw [unitVals, List.length_map]
    exact allUnits_len u hu
  have hperm : (unitVals s u).Perm stdDigits := by
    refine List.Subperm.perm_of_length_le (List.Nodup.subperm hvals_nodup hvals_sub) ?_
    rw [hlen, stdDigits_len]
  have : d ∈ unitVals s u := hperm.mem_iff.2 hd
  rcases List.mem_map.1 this with ⟨q, hq, hqd⟩
  exact ⟨q, hq, hqd⟩

/-- On a solution grid, a square's value differs from all its peers'. -/
theorem solGrid_peers_ne {s : List Char} (hsol : IsSolGrid s) {i p : Nat}
    (hi : i < 81) (hp : p ∈ peersOf i) : s.getD p '.' ≠ s.getD i '.' := by
  have hmem : i ∈ List.range 81 := List.mem_range.2 hi
  rcases peersOf_mem_units i hmem p hp with ⟨hne, _, hcase⟩
  have husome : ∃ u, u ∈ unitsOf i ∧ p ∈ u := by
    rcases hcase with h | h | h
    · exact ⟨rowIndices i, by simp [unitsOf], h⟩
    · exact ⟨columnIndices i, by simp [unitsOf], h⟩
    · exact ⟨boxIndices i, by simp [unitsOf], h⟩
  rcases husome with ⟨u, huo, hpu⟩
  have hua : u ∈ allUnits := unitsOf_mem_allUnits i hmem u huo
  have hiu : i ∈ u := mem_unitsOf_self i hmem u huo
  exact solGrid_unit_inj hsol hua hpu hiu hne

/-- Success-threading through a short-circuiting loop: if every listed step
succeeds from the invariant, so does the loop. -/
theorem goList_okP {α : Type} {P : GridMap → Prop} {step : GridMap → α → Res} :
    ∀ {xs : List α},
      (∀ m x, P m → x ∈ xs → ∃ m', step m x = Res.ok m' ∧ P m') →
      ∀ m, P m → ∃ m', goList step m xs = Res.ok m' ∧ P m' := by
  intro xs
  induction xs with
  | nil => intro _ m hm; exact ⟨m, rfl, hm⟩
  | cons x xs ih =>
    intro hstep m hm
    rcases hstep m x hm (by simp) with ⟨m1, hx, hm1⟩
    rcases ih (fun m2 y h2 hy => hstep m2 y h2 (by simp [hy])) m1 hm1 with ⟨m', hg, hm'⟩
    exact ⟨m', by simp only [goList, hx]; exact hg, hm'⟩

/-- Success-threading through the unit loop: when the invariant pins the
digit's true home into every scanned unit, the loop succeeds. -/
theorem unitLoopGo_sound {P : GridMap → Prop} {asg : GridMap → Nat → Char → Res}
    {d : Char} {s : List Char} :
    ∀ {us : List (List Nat)},
      (∀ m, P m → ∀ u ∈ us, ∃ q, q ∈ u ∧ d ∈ m.getD q [] ∧ s.getD q '.' = d) →
      (∀ m q, P m → s.getD q '.' = d → ∃ m', asg m q d = Res.ok m' ∧ P m') →
      ∀ m, P m → ∃ m', unitLoopGo asg m us d = Res.ok m' ∧ P m' := by
  intro us
  induction us with
  | nil => intro _ _ m hm; exact ⟨m, rfl, hm⟩
  | cons u us ih =>
    intro hplace hasgn m hm
    rcases hplace m hm u (by simp) with ⟨q, hqu, hqd, hqs⟩
    have hqpl : q ∈ u.filter (fun i2 => (m.getD i2 []).contains d) :=
      List.mem_filter.2 ⟨hqu, (contains_true_iff _ _).2 hqd⟩
    have h0 : ¬ (u.filter (fun i2 => (m.getD i2 []).contains d)).length = 0 := by
      intro hl
      rw [List.length_eq_zero] at hl
      rw [hl] at hqpl
      exact absurd hqpl (List.not_mem_nil q)
    by_cases h1 : (u.filter (fun i2 => (m.getD i2 []).contains d)).length = 1
    · have hplq : u.filter (fun i2 => (m.getD i2 []).contains d) = [q] := by
        rcases List.length_eq_one.1 h1 with ⟨a, hpla⟩
        rw [hpla] at hqpl
        rcases List.mem_singleton.1 hqpl with rfl
        exact hpla
      have hhead : (u.filter (fun i2 => (m.getD i2 []).contains d)).headD 0 = q := by
        rw [hplq]; rfl
      rcases hasgn m q hm hqs with ⟨m1, hasg1, hm1⟩
      rcases ih (fun m2 hm2 u2 hu2 => hplace m2 hm2 u2 (by simp [hu2]))
        hasgn m1 hm1 with ⟨m', hloop, hm'⟩
      refine ⟨m', ?_, hm'⟩
      simp only [unitLoopGo, h0, h1, if_false, if_true, hhead]
      rw [hasg1]
      exact hloop
    · rcases ih (fun m2 hm2 u2 hu2 => hplace m2 hm2 u2 (by simp [hu2]))
        hasgn m hm with ⟨m', hloop, hm'⟩
      refine ⟨m', ?_, hm'⟩
      simp only [unitLoopGo, h0, h1, if_false]
      exact hloop

theorem getD_default_of_le {s : List Char} {q : Nat} (h : s.length ≤ q) :
    s.getD q '.' = '.' := by
  rw [List.getD_eq_getElem?_getD, List.getElem?_eq_none h]
  rfl

/-- The propagation invariant for soundness: the grid has its 81 squares,
fuel dominates the candidate count, the solution is still possible, and
candidates are digits. -/
def SP (s : List Char) (fuel : Nat) (mm : GridMap) : Prop :=
  mm.length = 81 ∧ totalCand mm < fuel ∧ SoundFor s mm ∧
    (∀ j c, c ∈ mm.getD j [] → c ∈ stdDigits)

/-- Eliminating a digit that the solution does not use at that square always
succeeds and keeps the solution possible: the engine never refutes a true
solution. -/
theorem eliminateF_sound {s : List Char} (hsol : IsSolGrid s) :
    ∀ (fuel : Nat) (m : GridMap) (i : Nat) (d : Char),
      SP s fuel m → i < 81 → d ∈ stdDigits → ¬ d = s.getD i '.' →
      ∃ m', eliminateF fuel m i d = Res.ok m' ∧ SP s fuel m' := by
  intro fuel
  induction fuel with
  | zero =>
    intro m i d hP _ _ _
    exact absurd hP.2.1 (by simp)
  | succ fuel ih =>
    intro m i d hP hi hd hne
    obtain ⟨hlen, hf, hsound, hsub⟩ := hP
    have hq81 : ∀ q : Nat, s.getD q '.' = d → q < 81 := by
      intro q hqs
      by_contra hq
      have : s.getD q '.' = '.' := getD_default_of_le (by rw [hsol.1]; omega)
      rw [this] at hqs
      rw [← hqs] at hd
      exact absurd hd (by decide)
    have hasgn : ∀ (mm : GridMap) (q : Nat), SP s fuel mm → s.getD q '.' = d →
        ∃ m', assignGo (eliminateF fuel) mm q d = Res.ok m' ∧ SP s fuel m' := by
      intro mm q hPmm hqs
      have hq : q < 81 := hq81 q hqs
      rw [assignGo]
      refine goList_okP ?_ mm hPmm
      intro m2 x hPm2 hx
      rcases List.mem_filter.1 hx with ⟨hxmm, hxd⟩
      have hxstd : x ∈ stdDigits := hPmm.2.2.2 q x hxmm
      have hxne : ¬ x = s.getD q '.' := by
        rw [hqs]
        intro hxeq
        rw [hxeq] at hxd
        simp at hxd
      exact ih m2 q x hPm2 hq hxstd hxne
    by_cases hc : (m.getD i []).contains d = true
    · set possible2 := (m.getD i []).filter (fun c => !(c == d)) with hposs2
      set m1 := m.set i possible2 with hm1def
      have hs_in2 : s.getD i '.' ∈ possible2 := by
        rw [hposs2]
        refine List.mem_filter.2 ⟨hsound i hi, ?_⟩
        have hnd : ¬ s.getD i '.' = d := fun hh => hne hh.symm
        simpa using hnd
      have h0 : ¬ possible2.length = 0 := by
        intro hl
        rw [List.length_eq_zero] at hl
        rw [hl] at hs_in2
        exact absurd hs_in2 (List.not_mem_nil _)
      have hP1 : SP s fuel m1 := by
        have hilt : i < m.length := contains_getD_lt hc
        refine ⟨by rw [hm1def, List.length_set]; exact hlen, ?_, ?_, ?_⟩
        · have hdrop : totalCand m1 < totalCand m := by
            rw [hm1def]
            exact totalCand_set_lt m i _ hilt
              (filter_ne_length_lt ((contains_true_iff _ _).1 hc))
          omega
        · intro j hj
          by_cases hij : i = j
          · subst hij
            rw [hm1def, getD_set_self m i _ hilt]
            exact hs_in2
          · rw [hm1def, getD_set_ne m _ hij]
            exact hsound j hj
        · intro j c hcj
          by_cases hij : i = j
          · subst hij
            rw [hm1def, getD_set_self m i _ hilt] at hcj
            exact hsub i c (List.mem_of_mem_filter hcj)
          · rw [hm1def, getD_set_ne m _ hij] at hcj
            exact hsub j c hcj
      have hinner : ∃ m2,
          (if possible2.length = 1 then
            goList (fun mm p => eliminateF fuel mm p (possible2.headD d)) m1 (peersOf i)
          else Res.ok m1) = Res.ok m2 ∧ SP s fuel m2 := by
        by_cases h1 : possible2.length = 1
        · have hplq : possible2 = [s.getD i '.'] := by
            rcases List.length_eq_one.1 h1 with ⟨a, hpla⟩
            rw [hpla] at hs_in2
            rcases List.mem_singleton.1 hs_in2 with rfl
            exact hpla
          have hhead : possible2.headD d = s.getD i '.' := by rw [hplq]; rfl
          simp only [h1, if_true]
          refine goList_okP ?_ m1 hP1
          intro m2 p hPm2 hp
          rcases peersOf_mem_units i (List.mem_range.2 hi) p hp with ⟨_, hp81, _⟩
          rw [hhead]
          refine ih m2 p (s.getD i '.') hPm2 hp81 (hsol.2.1 i hi) ?_
          exact fun hh => solGrid_peers_ne hsol hi hp hh.symm
        · simp only [h1, if_false]
          exact ⟨m1, rfl, hP1⟩
      rcases hinner with ⟨m2, hg2, hP2⟩
      have hplace : ∀ (mm : GridMap), SP s fuel mm → ∀ u ∈ unitsOf i,
          ∃ q, q ∈ u ∧ d ∈ mm.getD q [] ∧ s.getD q '.' = d := by
        intro mm hPmm u hu
        have hua : u ∈ allUnits := unitsOf_mem_allUnits i (List.mem_range.2 hi) u hu
        rcases solGrid_unit_surj hsol hua hd with ⟨q, hqu, hqs⟩
        refine ⟨q, hqu, ?_, hqs⟩
        have hqlt : q < 81 := allUnits_lt u hua q hqu
        have := hPmm.2.2.1 q hqlt
        rw [hqs] at this
        exact this
      rcases unitLoopGo_sound hplace hasgn m2 hP2 with ⟨m', hul, hP'⟩
      refine ⟨m', ?_, by
        obtain ⟨ha, hb, hcc, hdd⟩ := hP'
        exact ⟨ha, by omega, hcc, hdd⟩⟩
      simp only [eliminateF, hc, if_true, ← hposs2, h0, if_false, ← hm1def]
      rw [hg2]
      exact hul
    · have hcf : (m.getD i []).contains d = false := by
        cases hcc : (m.getD i []).contains d with
        | false => rfl
        | true => exact absurd hcc hc
      refine ⟨m, ?_, hlen, by omega, hsound, hsub⟩
      simp only [eliminateF, hcf, Bool.false_eq_true, if_false]

/-- Assigning the solution's own digit always succeeds and keeps the
solution possible. -/
theorem assignF_sound {s : List Char} (hsol : IsSolGrid s) {fuel : Nat}
    {m : GridMap} {q : Nat} (hP : SP s fuel m) (hq : q < 81) :
    ∃ m', assignF fuel m q (s.getD q '.') = Res.ok m' ∧ SP s fuel m' := by
  rw [assignF, assignGo]
  refine goList_okP ?_ m hP
  intro m2 x hPm2 hx
  rcases List.mem_filter.1 hx with ⟨hxm, hxd⟩
  have hxstd : x ∈ stdDigits := hP.2.2.2 q x hxm
  have hxne : ¬ x = s.getD q '.' := by
    intro hxeq
    rw [hxeq] at hxd
    simp at hxd
  exact eliminateF_sound hsol fuel m2 q x hPm2 hq hxstd hxne

/-! ### The reachable-grid invariant and the propagation loop -/

/-- Invariant of every candidate grid reachable from the all-open grid by
successful operations. -/
def Inv (m : GridMap) : Prop :=
  m.length = 81 ∧ NEm m ∧ (∀ j, (m.getD j []).Nodup) ∧
    (∀ j c, c ∈ m.getD j [] → c ∈ stdDigits) ∧
    (∀ u ∈ allUnits, ∀ e ∈ stdDigits, hasPlace m u e)

theorem getD_replicate {ds : List Char} {j : Nat} (h : j < 81) :
    (List.replicate 81 ds).getD j [] = ds := by
  rw [List.getD_eq_getElem?_getD, List.getElem?_replicate]
  simp [h]

theorem Inv_init {ds : List Char} (hds : ds.Perm stdDigits) :
    Inv (gridMapAllDigits ds) := by
  have hlen : (gridMapAllDigits ds).length = 81 := by
    simp [gridMapAllDigits]
  have hcell : ∀ j, j < 81 → (gridMapAllDigits ds).getD j [] = ds := by
    intro j hj
    rw [gridMapAllDigits]
    exact getD_replicate hj
  have hdsne : ds ≠ [] := by
    intro hnil
    have := hds.length_eq
    rw [hnil] at this
    simp [stdDigits] at this
  refine ⟨hlen, ?_, ?_, ?_, ?_⟩
  · intro j hj
    rw [hlen] at hj
    rw [hcell j hj]
    exact hdsne
  · intro j
    by_cases hj : j < 81
    · rw [hcell j hj]
      exact hds.nodup_iff.2 stdDigits_nodup
    · rw [List.getD_eq_getElem?_getD, List.getElem?_eq_none (by rw [hlen]; omega)]
      exact List.nodup_nil
  · intro j c hc
    by_cases hj : j < 81
    · rw [hcell j hj] at hc
      exact hds.mem_iff.1 hc
    · rw [List.getD_eq_getElem?_getD, List.getElem?_eq_none (by rw [hlen]; omega)] at hc
      exact absurd hc (List.not_mem_nil c)
  · intro u hu e he
    have hlen9 := allUnits_len u hu
    have hne : u ≠ [] := by intro hnil; rw [hnil] at hlen9; simp at hlen9
    rcases List.exists_mem_of_ne_nil u hne with ⟨j, hj⟩
    refine ⟨j, hj, ?_⟩
    rw [hcell j (allUnits_lt u hu j hj)]
    exact hds.mem_iff.2 he

/-- Successful assignment preserves the reachable-grid invariant. -/
theorem assignF_inv {fuel : Nat} {m m' : GridMap} {i : Nat} {d : Char}
    (h : assignF fuel m i d = Res.ok m') (hInv : Inv m) : Inv m' := by
  obtain ⟨hlen, hne, hnd, hsub, hpl⟩ := hInv
  have hle : MapLE m' m := mapLE_of_assign_ok h
  refine ⟨hle.1.trans hlen, assignF_ne h hne, ?_, ?_, ?_⟩
  · intro j
    exact (hle.2 j).nodup (hnd j)
  · intro j c hc
    exact hsub j c ((hle.2 j).subset hc)
  · intro u hu e he
    exact assignF_placesMono h u hu e (hpl u hu e he)

/-- Cells of an invariant grid carry at most nine candidates. -/
theorem totalCand_le_729 {m : GridMap} (hInv : Inv m) : totalCand m ≤ 729 := by
  have hcell : ∀ l ∈ m, l.length ≤ 9 := by
    intro l hl
    rcases List.mem_iff_getElem.1 hl with ⟨j, hj, hjl⟩
    have hgd : m.getD j [] = l := by
      rw [List.getD_eq_getElem?_getD, List.getElem?_eq_getElem hj, hjl]
      rfl
    have hnodup := (hInv.2.2.1 j)
    have hsub : m.getD j [] ⊆ stdDigits := fun c hc => hInv.2.2.2.1 j c hc
    have := (List.Nodup.subperm hnodup hsub).length_le
    rw [hgd] at this
    exact le_trans this (by rw [stdDigits_len])
  have : ∀ (mm : GridMap), (∀ l ∈ mm, l.length ≤ 9) → totalCand mm ≤ 9 * mm.length := by
    intro mm
    induction mm with
    | nil => intro _; simp [totalCand]
    | cons x xs ih =>
      intro hx
      rw [totalCand_cons]
      have h1 : x.length ≤ 9 := hx x (by simp)
      have h2 : totalCand xs ≤ 9 * xs.length := ih (fun l hl => hx l (by simp [hl]))
      simp only [List.length_cons]
      omega
  have := this m hcell
  rw [hInv.1] at this
  omega

/-- The propagation loop only shrinks the grid. -/
theorem propagateAssignments_mapLE {fuel : Nat} :
    ∀ {xs : List (Nat × Char)} {m m' : GridMap},
      propagateAssignments fuel m xs = some m' → MapLE m' m := by
  intro xs
  induction xs with
  | nil =>
    intro m m' h
    simp only [propagateAssignments] at h
    rw [Option.some.injEq] at h
    rw [← h]
    exact mapLE_refl m
  | cons p rest ih =>
    intro m m' h
    rcases p with ⟨i, d⟩
    simp only [propagateAssignments] at h
    by_cases hd : stdDigits.contains d = true
    · rw [if_pos hd] at h
      cases ha : assignF fuel m i d with
      | fuelOut => rw [ha] at h; exact absurd h (by simp)
      | failed m1 => rw [ha] at h; exact absurd h (by simp)
      | ok m1 =>
        rw [ha] at h
        exact mapLE_trans (ih h) (mapLE_of_assign_ok ha)
    · rw [if_neg hd] at h
      exact ih h

/-- The propagation loop preserves the reachable-grid invariant. -/
theorem propagateAssignments_inv {fuel : Nat} :
    ∀ {xs : List (Nat × Char)} {m m' : GridMap},
      propagateAssignments fuel m xs = some m' → Inv m → Inv m' := by
  intro xs
  induction xs with
  | nil =>
    intro m m' h hInv
    simp only [propagateAssignments] at h
    rw [Option.some.injEq] at h
    rw [← h]
    exact hInv
  | cons p rest ih =>
    intro m m' h hInv
    rcases p with ⟨i, d⟩
    simp only [propagateAssignments] at h
    by_cases hd : stdDigits.contains d = true
    · rw [if_pos hd] at h
      cases ha : assignF fuel m i d with
      | fuelOut => rw [ha] at h; exact absurd h (by simp)
      | failed m1 => rw [ha] at h; exact absurd h (by simp)
      | ok m1 =>
        rw [ha] at h
        exact ih h (assignF_inv ha hInv)
    · rw [if_neg hd] at h
      exact ih h hInv

/-- A singleton square stays exactly as it is under any shrinking that keeps
squares nonempty. -/
theorem singleton_preserved {m m' : GridMap} {i : Nat} {d : Char}
    (hle : MapLE m' m) (hne : NEm m') (hi : i < m.length)
    (hs : m.getD i [] = [d]) : m'.getD i [] = [d] := by
  have hsub := hle.2 i
  rw [hs] at hsub
  have hnn : m'.getD i [] ≠ [] := hne i (by rw [hle.1]; exact hi)
  cases hcell : m'.getD i [] with
  | nil => exact absurd hcell hnn
  | cons c t =>
    rw [hcell] at hsub
    rcases List.sublist_singleton.1 hsub with hnil | hone
    · exact absurd hnil (by simp)
    · exact hone

/-- After a successful propagation, every assigned digit pair is pinned:
the square holds exactly that digit. -/
theorem propagateAssignments_fixes {fuel : Nat} :
    ∀ {xs : List (Nat × Char)} {m m' : GridMap},
      propagateAssignments fuel m xs = some m' → Inv m →
      ∀ i d, (i, d) ∈ xs → stdDigits.contains d = true → i < 81 →
        m'.getD i [] = [d] := by
  intro xs
  induction xs with
  | nil =>
    intro m m' _ _ i d hmem
    exact absurd hmem (List.not_mem_nil _)
  | cons p rest ih =>
    intro m m' h hInv i d hmem hd hi
    rcases p with ⟨i0, d0⟩
    simp only [propagateAssignments] at h
    rcases List.mem_cons.1 hmem with heq | hmem2
    · rw [Prod.mk.injEq] at heq
      obtain ⟨rfl, rfl⟩ := heq
      rw [if_pos hd] at h
      cases ha : assignF fuel m i d with
      | fuelOut => rw [ha] at h; exact absurd h (by simp)
      | failed m1 => rw [ha] at h; exact absurd h (by simp)
      | ok m1 =>
        rw [ha] at h
        have hilt : i < m.length := by rw [hInv.1]; exact hi
        have hone : m1.getD i [] = [d] :=
          (assignF_singleton ha hInv.2.1 (hInv.2.2.1 i) hilt).1
        have hInv1 : Inv m1 := assignF_inv ha hInv
        refine singleton_preserved (propagateAssignments_mapLE h) ?_ ?_ hone
        · exact (propagateAssignments_inv h hInv1).2.1
        · rw [hInv1.1]; exact hi
    · by_cases hd0 : stdDigits.contains d0 = true
      · rw [if_pos hd0] at h
        cases ha : assignF fuel m i0 d0 with
        | fuelOut => rw [ha] at h; exact absurd h (by simp)
        | failed m1 => rw [ha] at h; exact absurd h (by simp)
        | ok m1 =>
          rw [ha] at h
          exact ih h (assignF_inv ha hInv) i d hmem2 hd hi
      · rw [if_neg hd0] at h
        exact ih h hInv i d hmem2 hd hi

/-- Propagating assignments drawn from a solution grid succeeds and keeps
the solution possible. -/
theorem propagateAssignments_sound {s : List Char} (hsol : IsSolGrid s) {fuel : Nat} :
    ∀ {xs : List (Nat × Char)} {m : GridMap},
      SP s fuel m →
      (∀ i d, (i, d) ∈ xs → stdDigits.contains d = true → i < 81 ∧ d = s.getD i '.') →
      ∃ m', propagateAssignments fuel m xs = some m' ∧ SP s fuel m' := by
  intro xs
  induction xs with
  | nil =>
    intro m hP _
    exact ⟨m, rfl, hP⟩
  | cons p rest ih =>
    intro m hP hpairs
    rcases p with ⟨i, d⟩
    by_cases hd : stdDigits.contains d = true
    · rcases hpairs i d (by simp) hd with ⟨hi, rfl⟩
      rcases assignF_sound hsol hP hi with ⟨m1, ha, hP1⟩
      rcases ih hP1 (fun i2 d2 hm2 hd2 => hpairs i2 d2 (by simp [hm2]) hd2)
        with ⟨m', hrest, hP'⟩
      refine ⟨m', ?_, hP'⟩
      simp only [propagateAssignments, if_pos hd, ha]
      exact hrest
    · rcases ih hP (fun i2 d2 hm2 hd2 => hpairs i2 d2 (by simp [hm2]) hd2)
        with ⟨m', hrest, hP'⟩
      refine ⟨m', ?_, hP'⟩
      simp only [propagateAssignments, if_neg hd]
      exact hrest

/-! ### The enumerator -/

/-- Number of unsolved squares, the measure of the search recursion. -/
def nonSingleCount (m : GridMap) : Nat :=
  ((List.range 81).filter (fun i => (m.getD i []).length ≠ 1)).length

theorem allSingleton_iff {m : GridMap} :
    allSingleton m = true ↔ ∀ i, i < 81 → (m.getD i []).length = 1 := by
  rw [allSingleton, List.all_eq_true]
  constructor
  · intro h i hi
    have := h i (List.mem_range.2 hi)
    simpa using this
  · intro h i hi
    simp only [decide_eq_true_eq]
    exact h i (List.mem_range.1 hi)

/-- Lexicographic order on `(key, index)` pairs: the most-constrained-square
heuristic with ties broken by lowest index. -/
def keyLex (k : Nat → Nat) (a b : Nat) : Prop :=
  k a < k b ∨ (k a = k b ∧ a ≤ b)

theorem keyLex_refl (k : Nat → Nat) (a : Nat) : keyLex k a a :=
  Or.inr ⟨rfl, Nat.le.refl⟩

theorem keyLex_trans {k : Nat → Nat} {a b c : Nat}
    (h1 : keyLex k a b) (h2 : keyLex k b c) : keyLex k a c := by
  rcases h1 with h1 | ⟨h1, h1'⟩ <;> rcases h2 with h2 | ⟨h2, h2'⟩
  · exact Or.inl (Nat.lt_trans h1 h2)
  · exact Or.inl (by omega)
  · exact Or.inl (by omega)
  · exact Or.inr ⟨by omega, Nat.le_trans h1' h2'⟩

/-- The generic first-strict-minimum fold over an index-sorted candidate
list computes the lexicographic minimum of `(key, index)`. -/
theorem foldl_argmin_spec (k : Nat → Nat) :
    ∀ (l : List Nat) (c : Nat), (c :: l).Pairwise (· < ·) →
      (l.foldl (fun best i => if k i < k best then i else best) c) ∈ c :: l ∧
      ∀ j ∈ c :: l, keyLex k (l.foldl (fun best i => if k i < k best then i else best) c) j := by
  intro l
  induction l with
  | nil =>
    intro c _
    refine ⟨by simp, ?_⟩
    intro j hj
    rcases List.mem_singleton.1 hj with rfl
    exact keyLex_refl k j
  | cons x xs ih =>
    intro c hpw
    have hcx : c < x := (List.pairwise_cons.1 hpw).1 x (by simp)
    have hpw2 : (x :: xs).Pairwise (· < ·) := (List.pairwise_cons.1 hpw).2
    have hb : ((if k x < k c then x else c) :: xs).Pairwise (· < ·) := by
      by_cases hkx : k x < k c
      · rw [if_pos hkx]; exact hpw2
      · rw [if_neg hkx]
        refine List.pairwise_cons.2 ⟨?_, (List.pairwise_cons.1 hpw2).2⟩
        intro a ha
        exact Nat.lt_trans hcx ((List.pairwise_cons.1 hpw2).1 a ha)
    rcases ih (if k x < k c then x else c) hb with ⟨hmem, hspec⟩
    have hbc : keyLex k (if k x < k c then x else c) c := by
      by_cases hkx : k x < k c
      · rw [if_pos hkx]; exact Or.inl hkx
      · rw [if_neg hkx]; exact keyLex_refl k c
    have hbx : keyLex k (if k x < k c then x else c) x := by
      by_cases hkx : k x < k c
      · rw [if_pos hkx]; exact keyLex_refl k x
      · rw [if_neg hkx]
        rcases Nat.lt_or_ge (k c) (k x) with hh | hh
        · exact Or.inl hh
        · exact Or.inr ⟨Nat.le_antisymm (Nat.le_of_not_lt hkx) hh, Nat.le_of_lt hcx⟩
    have hrb : keyLex k ((x :: xs).foldl (fun best i => if k i < k best then i else best) c)
        (if k x < k c then x else c) := by
      rw [List.foldl_cons]
      exact hspec (if k x < k c then x else c) (by simp)
    rw [List.foldl_cons]
    constructor
    · rcases List.mem_cons.1 hmem with he | he
      · rw [he]
        by_cases hkx : k x < k c
        · rw [if_pos hkx]; simp
        · rw [if_neg hkx]; simp
      · exact List.mem_cons_of_mem c (List.mem_cons_of_mem x he)
    · intro j hj
      rcases List.mem_cons.1 hj with hjc | hj2
      · rw [hjc]
        exact keyLex_trans (by rw [List.foldl_cons] at hrb; exact hrb) hbc
      · rcases List.mem_cons.1 hj2 with hjx | hj3
        · rw [hjx]
          exact keyLex_trans (by rw [List.foldl_cons] at hrb; exact hrb) hbx
        · exact hspec j (List.mem_cons_of_mem _ hj3)

/-- The branch square is a legitimate unsolved square, minimal in the
`(cardinality, index)` lexicographic order among all unsolved squares. -/
theorem nextCell_spec {m : GridMap}
    (h : (List.range 81).filter (fun i => 1 < (m.getD i []).length) ≠ []) :
    nextCell m ∈ (List.range 81).filter (fun i => 1 < (m.getD i []).length) ∧
    ∀ j ∈ (List.range 81).filter (fun i => 1 < (m.getD i []).length),
      keyLex (fun i => (m.getD i []).length) (nextCell m) j := by
  cases hc : (List.range 81).filter (fun i => 1 < (m.getD i []).length) with
  | nil => exact absurd hc h
  | cons c cs =>
    have hpw : (c :: cs).Pairwise (· < ·) := by
      rw [← hc]
      exact (List.pairwise_lt_range 81).filter _
    have hspec := foldl_argmin_spec (fun i => (m.getD i []).length) cs c hpw
    have hnext : nextCell m =
        cs.foldl (fun best i =>
          if (m.getD i []).length < (m.getD best []).length then i else best) c := by
      simp only [nextCell, hc]
    constructor
    · rw [hnext]
      exact hspec.1
    · intro j hj
      rw [hnext]
      exact hspec.2 j hj

theorem unsolved_cands_ne {m : GridMap} (hInv : Inv m) (h : ¬ allSingleton m = true) :
    (List.range 81).filter (fun i => 1 < (m.getD i []).length) ≠ [] := by
  have : ¬ ∀ i, i < 81 → (m.getD i []).length = 1 := fun hall => h (allSingleton_iff.2 hall)
  push_neg at this
  rcases this with ⟨i, hi, hne⟩
  have hlen : 1 ≤ (m.getD i []).length := by
    have := hInv.2.1 i (by rw [hInv.1]; exact hi)
    cases hcell : m.getD i [] with
    | nil => exact absurd hcell this
    | cons a t => simp
  have h1 : 1 < (m.getD i []).length := by omega
  intro hnil
  have : i ∈ (List.range 81).filter (fun i => 1 < (m.getD i []).length) :=
    List.mem_filter.2 ⟨List.mem_range.2 hi, by simpa using h1⟩
  rw [hnil] at this
  exact absurd this (List.not_mem_nil i)

/-- Soundness of the search: every yielded map is a fully solved shrinking
of the input that still satisfies the reachable-grid invariant. -/
theorem searchF_mem {f : Nat} :
    ∀ {m sm : GridMap}, Inv m → sm ∈ searchF f (some m) →
      Inv sm ∧ MapLE sm m ∧ allSingleton sm = true := by
  induction f with
  | zero => intro m sm _ h; simp [searchF] at h
  | succ f ih =>
    intro m sm hInv h
    by_cases hs : allSingleton m = true
    · simp only [searchF, hs, if_true] at h
      rcases List.mem_singleton.1 h with rfl
      exact ⟨hInv, mapLE_refl sm, hs⟩
    · have hs' : allSingleton m = false := by
        cases hss : allSingleton m with
        | false => rfl
        | true => exact absurd hss hs
      simp only [searchF, hs', Bool.false_eq_true, if_false] at h
      rcases List.mem_flatMap.1 h with ⟨d, _, hsm⟩
      cases ha : assignF elimFuel m (nextCell m) d with
      | fuelOut => rw [ha] at hsm; simp [resOpt, searchF] at hsm
      | failed m1 => rw [ha] at hsm; simp [resOpt, searchF] at hsm
      | ok m1 =>
        rw [ha] at hsm
        rcases ih (assignF_inv ha hInv) hsm with ⟨hi1, hle1, hs1⟩
        exact ⟨hi1, mapLE_trans hle1 (mapLE_of_assign_ok ha), hs1⟩

theorem toGrid_getD {m : GridMap} {un : List Nat} {i : Nat} (hi : i < 81) :
    (toGrid m un).getD i '.' =
      if (m.getD i []).length == 1 && !(un.contains i) then (m.getD i []).headD '.'
      else '.' := by
  rw [toGrid, List.getD_eq_getElem?_getD,
    List.getElem?_eq_getElem (by simpa using hi)]
  simp only [List.getElem_map, List.getElem_range]
  rfl

theorem toGrid_length (m : GridMap) (un : List Nat) : (toGrid m un).length = 81 := by
  simp [toGrid]

theorem singleton_of_mem_length_one {l : List Char} {a : Char}
    (hlen : l.length = 1) (ha : a ∈ l) : l = [a] := by
  rcases List.length_eq_one.1 hlen with ⟨b, rfl⟩
  rcases List.mem_singleton.1 ha with rfl
  rfl

/-- A fully solved map that still admits `s` reads back as exactly `s`. -/
theorem toGrid_of_sound {s : List Char} {m : GridMap} (hsol : IsSolGrid s)
    (hsound : SoundFor s m) (hsing : allSingleton m = true) : toGrid m [] = s := by
  refine List.ext_getElem (by rw [toGrid_length, hsol.1]) ?_
  intro i h1 h2
  have hi : i < 81 := by rw [toGrid_length] at h1; exact h1
  have hcell : m.getD i [] = [s.getD i '.'] :=
    singleton_of_mem_length_one (allSingleton_iff.1 hsing i hi) (hsound i hi)
  have hleft : (toGrid m [])[i] = (toGrid m []).getD i '.' := by
    rw [List.getD_eq_getElem?_getD, List.getElem?_eq_getElem h1]
    rfl
  have hright : s[i] = s.getD i '.' := by
    rw [List.getD_eq_getElem?_getD, List.getElem?_eq_getElem h2]
    rfl
  rw [hleft, hright, toGrid_getD hi, hcell]
  simp

/-- Completeness of the search: any solution grid still possible in the
current candidate grid is eventually yielded. -/
theorem searchF_complete {s : List Char} (hsol : IsSolGrid s) :
    ∀ (f : Nat) (m : GridMap), Inv m → SoundFor s m → nonSingleCount m < f →
      ∃ sm, sm ∈ searchF f (some m) ∧ toGrid sm [] = s := by
  intro f
  induction f with
  | zero => intro m _ _ hcount; exact absurd hcount (by simp)
  | succ f ih =>
    intro m hInv hsound hcount
    by_cases hs : allSingleton m = true
    · refine ⟨m, ?_, toGrid_of_sound hsol hsound hs⟩
      simp [searchF, hs]
    · have hs' : allSingleton m = false := by
        cases hss : allSingleton m with
        | false => rfl
        | true => exact absurd hss hs
      have hcne := unsolved_cands_ne hInv hs
      rcases nextCell_spec hcne with ⟨hmem, _⟩
      rcases List.mem_filter.1 hmem with ⟨hrange, hlen⟩
      have hi81 : nextCell m < 81 := List.mem_range.1 hrange
      have hlen1 : 1 < (m.getD (nextCell m) []).length := by simpa using hlen
      have hd : s.getD (nextCell m) '.' ∈ m.getD (nextCell m) [] := hsound _ hi81
      have hSP : SP s elimFuel m :=
        ⟨hInv.1, Nat.lt_succ_of_le (totalCand_le_729 hInv), hsound,
          fun j c hc => hInv.2.2.2.1 j c hc⟩
      rcases assignF_sound hsol hSP hi81 with ⟨m1, ha, hSP1⟩
      have hInv1 : Inv m1 := assignF_inv ha hInv
      have hcount1 : nonSingleCount m1 < f := by
        have hfix : m1.getD (nextCell m) [] = [s.getD (nextCell m) '.'] :=
          (assignF_singleton ha hInv.2.1 (hInv.2.2.1 _) (by rw [hInv.1]; exact hi81)).1
        have hmono : ∀ j, ((m1.getD j []).length ≠ 1) → ((m.getD j []).length ≠ 1) := by
          intro j hne1 heq1
          rcases List.length_eq_one.1 heq1 with ⟨a, haj⟩
          have := singleton_preserved (mapLE_of_assign_ok ha) hInv1.2.1
            (getD_ne_nil_lt (by rw [haj]; simp)) haj
          rw [this] at hne1
          simp at hne1
        have hsubl : List.Sublist
            ((List.range 81).filter (fun j => (m1.getD j []).length ≠ 1))
            ((List.range 81).filter (fun j => (m.getD j []).length ≠ 1)) := by
          refine List.monotone_filter_right _ ?_
          intro a ha2
          simp only [decide_eq_true_eq] at ha2 ⊢
          exact hmono a ha2
        have hineq : nextCell m ∈
            (List.range 81).filter (fun j => (m.getD j []).length ≠ 1) := by
          refine List.mem_filter.2 ⟨hrange, ?_⟩
          simp only [decide_eq_true_eq]
          omega
        have hnotin : nextCell m ∉
            (List.range 81).filter (fun j => (m1.getD j []).length ≠ 1) := by
          intro hin
          have := (List.mem_filter.1 hin).2
          rw [hfix] at this
          simp at this
        have hne : (List.range 81).filter (fun j => (m1.getD j []).length ≠ 1) ≠
            (List.range 81).filter (fun j => (m.getD j []).length ≠ 1) := by
          intro heq
          rw [heq] at hnotin
          exact hnotin hineq
        have hlt : nonSingleCount m1 < nonSingleCount m := by
          rw [nonSingleCount, nonSingleCount]
          exact Nat.lt_of_le_of_ne hsubl.length_le
            (fun hl => hne (hsubl.eq_of_length hl))
        omega
      rcases ih m1 hInv1 hSP1.2.2.1 hcount1 with ⟨sm, hsm, hgrid⟩
      refine ⟨sm, ?_, hgrid⟩
      simp only [searchF, hs', Bool.false_eq_true, if_false]
      refine List.mem_flatMap.2 ⟨s.getD (nextCell m) '.', ?_, ?_⟩
      · rw [branchDigits]
        exact hd
      · rw [ha]
        exact hsm

/-- A fully solved invariant grid reads back as a complete valid solution. -/
theorem solved_is_solGrid {m : GridMap} (hInv : Inv m) (hs : allSingleton m = true) :
    IsSolGrid (toGrid m []) := by
  have hcell : ∀ j, j < 81 → ∃ c, m.getD j [] = [c] ∧ (toGrid m []).getD j '.' = c := by
    intro j hj
    have hlen1 := allSingleton_iff.1 hs j hj
    rcases List.length_eq_one.1 hlen1 with ⟨c, hc⟩
    refine ⟨c, hc, ?_⟩
    rw [toGrid_getD hj, hc]
    simp
  refine ⟨toGrid_length m [], ?_, ?_⟩
  · intro j hj
    rcases hcell j hj with ⟨c, hc, hval⟩
    rw [hval]
    exact hInv.2.2.2.1 j c (by rw [hc]; simp)
  · intro u hu
    have hsub : stdDigits ⊆ unitVals (toGrid m []) u := by
      intro e he
      rcases hInv.2.2.2.2 u hu e he with ⟨j, hju, hej⟩
      rcases hcell j (allUnits_lt u hu j hju) with ⟨c, hc, hval⟩
      rw [hc] at hej
      rcases List.mem_singleton.1 hej with rfl
      exact List.mem_map.2 ⟨j, hju, hval⟩
    have hlenv : (unitVals (toGrid m []) u).length = 9 := by
      rw [unitVals, List.length_map]
      exact allUnits_len u hu
    have hperm : stdDigits.Perm (unitVals (toGrid m []) u) := by
      refine List.Subperm.perm_of_length_le (List.Nodup.subperm stdDigits_nodup hsub) ?_
      rw [hlenv, stdDigits_len]
    exact hperm.nodup_iff.1 stdDigits_nodup

/-- The nonsingle count never exceeds the number of squares. -/
theorem nonSingleCount_le (m : GridMap) : nonSingleCount m ≤ 81 := by
  rw [nonSingleCount]
  have := List.length_filter_le (fun i => decide ((m.getD i []).length ≠ 1)) (List.range 81)
  simpa using this

/-- Membership in the enumerator's output characterized semantically: the
yielded grids are exactly the complete valid solutions still possible in
the propagated candidate grid. -/
theorem mem_searchF_iff {m : GridMap} (hInv : Inv m) (s : List Char) :
    s ∈ (searchF searchFuel (some m)).map (fun sm => toGrid sm []) ↔
      IsSolGrid s ∧ SoundFor s m := by
  constructor
  · intro h
    rcases List.mem_map.1 h with ⟨sm, hsm, rfl⟩
    rcases searchF_mem hInv hsm with ⟨hInvs, hle, hsing⟩
    refine ⟨solved_is_solGrid hInvs hsing, ?_⟩
    intro j hj
    have hlen1 := allSingleton_iff.1 hsing j hj
    rcases List.length_eq_one.1 hlen1 with ⟨c, hc⟩
    have hval : (toGrid sm []).getD j '.' = c := by
      rw [toGrid_getD hj, hc]
      simp
    rw [hval]
    exact (hle.2 j).subset (by rw [hc]; simp)
  · intro ⟨hsol, hsound⟩
    rcases searchF_complete hsol searchFuel m hInv hsound
      (Nat.lt_succ_of_le (nonSingleCount_le m)) with ⟨sm, hmem, heq⟩
    exact List.mem_map.2 ⟨sm, hmem, heq⟩

/-- Distinctness across branches: grids yielded under different branch
digits differ at the branch square. -/
theorem nodup_flatMap_marker {i : Nat} {ds0 : List Char} {G : Char → List GridMap}
    (hnd : ds0.Nodup)
    (h1 : ∀ d ∈ ds0, ((G d).map (fun sm => toGrid sm [])).Nodup)
    (h2 : ∀ d ∈ ds0, ∀ sm ∈ G d, (toGrid sm []).getD i '.' = d) :
    ((ds0.flatMap G).map (fun sm => toGrid sm [])).Nodup := by
  induction ds0 with
  | nil => simp
  | cons d rest ih =>
    rw [List.flatMap_cons, List.map_append, List.nodup_append]
    rcases List.nodup_cons.1 hnd with ⟨hdr, hrest⟩
    refine ⟨h1 d (by simp), ih hrest
      (fun d2 hd2 => h1 d2 (by simp [hd2]))
      (fun d2 hd2 sm hsm => h2 d2 (by simp [hd2]) sm hsm), ?_⟩
    intro g hg1 hg2
    rcases List.mem_map.1 hg1 with ⟨sm1, hsm1, rfl⟩
    rcases List.mem_map.1 hg2 with ⟨sm2, hsm2, hval⟩
    rcases List.mem_flatMap.1 hsm2 with ⟨d2, hd2, hsm2d⟩
    have hv1 : (toGrid sm1 []).getD i '.' = d := h2 d (by simp) sm1 hsm1
    have hv2 : (toGrid sm2 []).getD i '.' = d2 :=
      h2 d2 (by simp [hd2]) sm2 hsm2d
    rw [hval] at hv2
    rw [hv1] at hv2
    rw [hv2] at hdr
    exact hdr hd2

/-- The enumerator never yields the same grid twice. -/
theorem searchF_grids_nodup {f : Nat} :
    ∀ {m : GridMap}, Inv m →
      ((searchF f (some m)).map (fun sm => toGrid sm [])).Nodup := by
  induction f with
  | zero => intro m _; simp [searchF]
  | succ f ih =>
    intro m hInv
    by_cases hs : allSingleton m = true
    · simp [searchF, hs]
    · have hs' : allSingleton m = false := by
        cases hss : allSingleton m with
        | false => rfl
        | true => exact absurd hss hs
      simp only [searchF, hs', Bool.false_eq_true, if_false]
      have hcne := unsolved_cands_ne hInv hs
      rcases nextCell_spec hcne with ⟨hmem, _⟩
      rcases List.mem_filter.1 hmem with ⟨hrange, _⟩
      have hi81 : nextCell m < 81 := List.mem_range.1 hrange
      refine nodup_flatMap_marker (i := nextCell m) (hInv.2.2.1 (nextCell m)) ?_ ?_
      · intro d _
        cases ha : assignF elimFuel m (nextCell m) d with
        | fuelOut => simp [resOpt, searchF]
        | failed m1 => simp [resOpt, searchF]
        | ok m1 => exact ih (assignF_inv ha hInv)
      · intro d hd sm hsm
        cases ha : assignF elimFuel m (nextCell m) d with
        | fuelOut => rw [ha] at hsm; simp [resOpt, searchF] at hsm
        | failed m1 => rw [ha] at hsm; simp [resOpt, searchF] at hsm
        | ok m1 =>
          rw [ha] at hsm
          have hInv1 : Inv m1 := assignF_inv ha hInv
          rcases searchF_mem hInv1 hsm with ⟨hInvs, hle, hsing⟩
          have hfix : m1.getD (nextCell m) [] = [d] :=
            (assignF_singleton ha hInv.2.1 (hInv.2.2.1 _) (by rw [hInv.1]; exact hi81)).1
          have hsmfix : sm.getD (nextCell m) [] = [d] :=
            singleton_preserved hle hInvs.2.1 (by rw [hInv1.1]; exact hi81) hfix
          rw [toGrid_getD hi81, hsmfix]
          simp

/-! ### The textual grid layer -/

/-- The yielded grid agrees with the input at every assigned square. -/
def Agrees (s g : List Char) : Prop :=
  ∀ i, i < 81 → g.getD i '.' ∈ stdDigits → s.getD i '.' = g.getD i '.'

theorem normalize_eq_some {G g : List Char} (h : normalize G = some g) :
    g = filteredGrid G ∧ g.length = 81 := by
  rw [normalize] at h
  by_cases hl : (filteredGrid G).length = 81
  · rw [if_pos hl, Option.some.injEq] at h
    exact ⟨h.symm, by rw [h] at hl; exact hl⟩
  · rw [if_neg hl] at h
    exact absurd h (by simp)

theorem filteredGrid_chars {G : List Char} :
    ∀ c ∈ filteredGrid G, c ∈ stdDigits ∨ c = '.' := by
  intro c hc
  rcases List.mem_map.1 hc with ⟨c0, hc0, rfl⟩
  rcases List.mem_filter.1 hc0 with ⟨_, hval⟩
  by_cases h0 : c0 == '0'
  · rw [if_pos h0]
    exact Or.inr rfl
  · rw [if_neg h0]
    have : c0 ∈ validGridChars := (contains_true_iff _ _).1 hval
    rw [validGridChars] at this
    rcases List.mem_append.1 this with hd | hd
    · exact Or.inl hd
    · rcases List.mem_cons.1 hd with h00 | hdd
      · rw [h00] at h0; simp at h0
      · exact Or.inr (List.mem_singleton.1 hdd)

theorem normalized_chars {G g : List Char} (h : normalize G = some g) :
    ∀ c ∈ g, c ∈ stdDigits ∨ c = '.' := by
  rw [(normalize_eq_some h).1]
  exact filteredGrid_chars

/-- A length-81 grid over digits and dots is a fixed point of `normalize`. -/
theorem normalize_of_chars {g : List Char} (hlen : g.length = 81)
    (hchars : ∀ c ∈ g, c ∈ stdDigits ∨ c = '.') :
    normalize g = some g := by
  have hfix : filteredGrid g = g := by
    rw [filteredGrid]
    have hfil : g.filter (fun c => validGridChars.contains c) = g := by
      refine List.filter_eq_self.2 ?_
      intro c hc
      rcases hchars c hc with hd | hd
      · refine (contains_true_iff _ _).2 ?_
        rw [validGridChars]
        exact List.mem_append.2 (Or.inl hd)
      · refine (contains_true_iff _ _).2 ?_
        rw [validGridChars, hd]
        simp
    rw [hfil]
    have : ∀ c ∈ g, (if c == '0' then '.' else c) = c := by
      intro c hc
      rcases hchars c hc with hd | hd
      · rw [if_neg]
        intro h0
        rw [show c = '0' by exact_mod_cast of_decide_eq_true h0] at hd
        revert hd
        decide
      · rw [hd]
        rfl
    calc g.map (fun c => if c == '0' then '.' else c) = g.map id := List.map_congr_left this
    _ = g := List.map_id g
  rw [normalize, hfix, if_pos hlen]

/-- Normalization is idempotent: a normalized grid passes unchanged. -/
theorem normalize_idem {G g : List Char} (h : normalize G = some g) :
    normalize g = some g :=
  normalize_of_chars (normalize_eq_some h).2 (normalized_chars h)

theorem two_le_length_of_nodup {l : List Nat} {a b : Nat} (ha : a ∈ l) (hb : b ∈ l)
    (hab : a ≠ b) : 2 ≤ l.length := by
  cases l with
  | nil => exact absurd ha (List.not_mem_nil a)
  | cons x t =>
    cases t with
    | nil =>
      rcases List.mem_singleton.1 ha with rfl
      rcases List.mem_singleton.1 hb with rfl
      exact absurd rfl hab
    | cons y t2 => simp

theorem dedup_length_eq_iff {l : List Char} :
    l.dedup.length = l.length ↔ l.Nodup := by
  constructor
  · intro h
    have hsub : l.dedup.Sublist l := List.dedup_sublist l
    have := hsub.eq_of_length h
    rw [← this]
    exact List.nodup_dedup l
  · intro h
    rw [List.dedup_eq_self.2 h]

/-- The validity check fails exactly when two distinct squares of one unit
carry the same assigned value. -/
theorem isValidN_false_iff (g : List Char) :
    isValidN g = false ↔ ∃ u, u ∈ allUnits ∧ ∃ a, a ∈ u ∧ ∃ b, b ∈ u ∧ a ≠ b ∧
      g.getD a '.' ≠ '.' ∧ g.getD a '.' = g.getD b '.' := by
  rw [isValidN, List.all_eq_false]
  constructor
  · rintro ⟨u, hu, hfail⟩
    simp only [decide_eq_true_eq] at hfail
    have hnnd : ¬ (unitValues g u).Nodup := fun hnd => hfail (dedup_length_eq_iff.2 hnd)
    rw [List.nodup_iff_count_le_one] at hnnd
    push_neg at hnnd
    rcases hnnd with ⟨v, hv2⟩
    have hv2' : 2 ≤ (unitValues g u).count v := hv2
    have hvmem : v ∈ unitValues g u := by
      refine List.count_pos_iff.1 ?_
      omega
    have hvdot : ¬ v = '.' := by
      rcases List.mem_filter.1 hvmem with ⟨_, hp⟩
      simpa using hp
    have hcmap : 2 ≤ ((u.map (fun j => g.getD j '.')).count v) := by
      have : (unitValues g u).count v ≤ (u.map (fun j => g.getD j '.')).count v := by
        rw [unitValues]
        exact List.Sublist.count_le (List.filter_sublist _) v
      omega
    have hsub2 : [v, v].Sublist (u.map (fun j => g.getD j '.')) :=
      List.duplicate_iff_sublist.1 (List.duplicate_iff_two_le_count.2 hcmap)
    rcases List.sublist_map_iff.1 hsub2 with ⟨pair, hpairsub, hpaireq⟩
    cases pair with
    | nil => simp at hpaireq
    | cons a rest =>
      cases rest with
      | nil => simp at hpaireq
      | cons b rest2 =>
        cases rest2 with
        | cons z zz => simp at hpaireq
        | nil =>
          simp only [List.map_cons, List.map_nil, List.cons.injEq, and_true] at hpaireq
          have hab : a ≠ b := by
            have := hpairsub.nodup (allUnits_nodup u hu)
            intro heq
            rw [heq] at this
            simp at this
          refine ⟨u, hu, a, hpairsub.subset (by simp), b,
            hpairsub.subset (by simp), hab, ?_, ?_⟩
          · rw [← hpaireq.1]
            exact hvdot
          · rw [← hpaireq.1, ← hpaireq.2]
  · rintro ⟨u, hu, a, ha, b, hb, hab, hadot, haeq⟩
    refine ⟨u, hu, ?_⟩
    simp only [decide_eq_true_eq]
    intro hlen
    have hnd : (unitValues g u).Nodup := dedup_length_eq_iff.1 hlen
    have hcount := List.nodup_iff_count_le_one.1 hnd (g.getD a '.')
    have hcnt2 : 2 ≤ (unitValues g u).count (g.getD a '.') := by
      have hpred : (fun c => !(c == '.')) (g.getD a '.') = true := by
        simpa using hadot
      rw [unitValues, List.count_filter (p := fun c => !(c == '.')) hpred]
      have heq : (u.map (fun j => g.getD j '.')).count (g.getD a '.') =
          (u.filter (fun j => g.getD j '.' == g.getD a '.')).length := by
        rw [List.count_eq_countP, List.countP_map, List.countP_eq_length_filter]
        rfl
      rw [heq]
      refine two_le_length_of_nodup (a := a) (b := b) ?_ ?_ hab
      · exact List.mem_filter.2 ⟨ha, by simp⟩
      · exact List.mem_filter.2 ⟨hb, by simp only [beq_iff_eq]; exact haeq.symm⟩
    omega

/-- An invalid grid admits no solution. -/
theorem invalid_no_solution {g s : List Char} (hinv : isValidN g = false)
    (hchars : ∀ c ∈ g, c ∈ stdDigits ∨ c = '.')
    (hsol : IsSolGrid s) (hagree : Agrees s g) : False := by
  rcases (isValidN_false_iff g).1 hinv with ⟨u, hu, a, ha, b, hb, hab, hadot, haeq⟩
  have ha81 := allUnits_lt u hu a ha
  have hb81 := allUnits_lt u hu b hb
  have hadig : g.getD a '.' ∈ stdDigits := by
    by_cases halen : a < g.length
    · rcases hchars (g.getD a '.') (by
        rw [List.getD_eq_getElem?_getD, List.getElem?_eq_getElem halen]
        exact List.getElem_mem halen) with hd | hd
      · exact hd
      · exact absurd hd hadot
    · rw [List.getD_eq_getElem?_getD, List.getElem?_eq_none (by omega)] at hadot
      exact absurd rfl hadot
  have hbdig : g.getD b '.' ∈ stdDigits := by rw [← haeq]; exact hadig
  have hsa := hagree a ha81 hadig
  have hsb := hagree b hb81 hbdig
  refine solGrid_unit_inj hsol hu ha hb hab ?_
  rw [hsa, hsb, haeq]

theorem totalCand_init {ds : List Char} (hds : ds.Perm stdDigits) :
    totalCand (gridMapAllDigits ds) = 729 := by
  have hlen : ds.length = 9 := by rw [hds.length_eq, stdDigits_len]
  rw [gridMapAllDigits, totalCand, List.map_replicate, List.sum_replicate, hlen]
  rfl

/-- The characterization that settles the solver claims: on any input that
normalizes, `solve` returns a duplicate-free list holding exactly the
complete valid solutions that agree with the input's assigned squares. -/
theorem solve_char {ds G g : List Char} {sols : List (List Char)}
    (hds : ds.Perm stdDigits) (hn : normalize G = some g)
    (hs : solve ds G = some sols) :
    sols.Nodup ∧ ∀ s, s ∈ sols ↔ IsSolGrid s ∧ Agrees s g := by
  have hglen : g.length = 81 := (normalize_eq_some hn).2
  have hchars := normalized_chars hn
  have henum : ∀ i d, (i, d) ∈ g.enum → i < 81 ∧ g.getD i '.' = d := by
    intro i d h
    have hget := List.mk_mem_enum_iff_get?.1 h
    have hlt : i < g.length := by
      rcases List.get?_eq_some.1 hget with ⟨hw, _⟩
      exact hw
    refine ⟨by omega, ?_⟩
    rw [List.getD_eq_getElem?_getD, ← List.get?_eq_getElem?, hget]
    rfl
  have henum2 : ∀ i, i < 81 → (i, g.getD i '.') ∈ g.enum := by
    intro i hi
    refine List.mk_mem_enum_iff_get?.2 ?_
    rw [List.get?_eq_getElem?, List.getElem?_eq_getElem (by omega)]
    rw [List.getD_eq_getElem?_getD, List.getElem?_eq_getElem (by omega)]
    rfl
  simp only [solve, hn] at hs
  have hval : is_valid g = some (isValidN g) := by
    rw [is_valid, normalize_idem hn]
    rfl
  rw [hval] at hs
  cases hv : isValidN g with
  | false =>
    simp only [hv, Option.some.injEq] at hs
    subst hs
    refine ⟨List.nodup_nil, ?_⟩
    intro s
    constructor
    · intro h; exact absurd h (List.not_mem_nil s)
    · rintro ⟨hsol, hagree⟩
      exact absurd (invalid_no_solution hv hchars hsol hagree) (fun h => h)
  | true =>
    simp only [hv] at hs
    have hSPinit : ∀ s, IsSolGrid s → SP s elimFuel (gridMapAllDigits ds) := by
      intro s hsol
      refine ⟨by simp [gridMapAllDigits], by rw [totalCand_init hds]; rw [elimFuel]; omega,
        ?_, ?_⟩
      · intro j hj
        rw [gridMapAllDigits, getD_replicate hj]
        exact hds.mem_iff.2 (hsol.2.1 j hj)
      · intro j c hc
        by_cases hj : j < 81
        · rw [gridMapAllDigits, getD_replicate hj] at hc
          exact hds.mem_iff.1 hc
        · rw [gridMapAllDigits, List.getD_eq_getElem?_getD,
            List.getElem?_eq_none (by simp; omega)] at hc
          exact absurd hc (List.not_mem_nil c)
    have hpairs_of_agree : ∀ s, IsSolGrid s → Agrees s g →
        ∀ i d, (i, d) ∈ g.enum → stdDigits.contains d = true →
          i < 81 ∧ d = s.getD i '.' := by
      intro s hsol hagree i d hmem hd
      rcases henum i d hmem with ⟨hi, hgd⟩
      refine ⟨hi, ?_⟩
      have := hagree i hi (by rw [hgd]; exact (contains_true_iff _ _).1 hd)
      rw [hgd] at this
      exact this.symm
    cases hp : gridMapPropagated ds g with
    | none =>
      simp only [hp, Option.some.injEq] at hs
      subst hs
      refine ⟨List.nodup_nil, ?_⟩
      intro s
      constructor
      · intro h; exact absurd h (List.not_mem_nil s)
      · rintro ⟨hsol, hagree⟩
        rcases propagateAssignments_sound hsol (hSPinit s hsol)
          (hpairs_of_agree s hsol hagree) with ⟨m', hm', _⟩
        rw [gridMapPropagated] at hp
        rw [hp] at hm'
        exact absurd hm' (by simp)
    | some m0 =>
      simp only [hp, Option.some.injEq] at hs
      subst hs
      have hInv0 : Inv m0 := by
        rw [gridMapPropagated] at hp
        exact propagateAssignments_inv hp (Inv_init hds)
      refine ⟨searchF_grids_nodup hInv0, ?_⟩
      intro s
      rw [mem_searchF_iff hInv0 s]
      constructor
      · rintro ⟨hsol, hsound⟩
        refine ⟨hsol, ?_⟩
        intro i hi hdig
        have hfix : m0.getD i [] = [g.getD i '.'] := by
          rw [gridMapPropagated] at hp
          exact propagateAssignments_fixes hp (Inv_init hds) i _ (henum2 i hi)
            ((contains_true_iff _ _).2 hdig) hi
        have := hsound i hi
        rw [hfix] at this
        exact List.mem_singleton.1 this
      · rintro ⟨hsol, hagree⟩
        refine ⟨hsol, ?_⟩
        rcases propagateAssignments_sound hsol (hSPinit s hsol)
          (hpairs_of_agree s hsol hagree) with ⟨m', hm', hSP'⟩
        rw [gridMapPropagated] at hp
        rw [hp, Option.some.injEq] at hm'
        rw [← hm'] at hSP'
        exact hSP'.2.2.1

/-! ### Small auxiliary facts -/

theorem containsNat_true_iff (l : List Nat) (x : Nat) : l.contains x = true ↔ x ∈ l := by
  simp [List.contains_iff_exists_mem_beq]

theorem getD_mem_of_lt {l : List Char} {k : Nat} (h : k < l.length) : l.getD k '.' ∈ l := by
  rw [List.getD_eq_getElem?_getD, List.getElem?_eq_getElem h]
  exact List.getElem_mem h

theorem nodup_mem_singleton {α : Type} {l : List α} {a : α} (hnd : l.Nodup)
    (hmem : a ∈ l) (hall : ∀ x ∈ l, x = a) : l = [a] := by
  cases l with
  | nil => exact absurd hmem (List.not_mem_nil a)
  | cons x t =>
    have hx : x = a := hall x (by simp)
    subst hx
    cases t with
    | nil => rfl
    | cons y t2 =>
      have hy : y = x := hall y (by simp)
      have : x ∉ y :: t2 := (List.nodup_cons.1 hnd).1
      rw [hy] at this
      simp at this

theorem eq_of_getD_81 {s t : List Char} (hs : s.length = 81) (ht : t.length = 81)
    (h : ∀ i, i < 81 → s.getD i '.' = t.getD i '.') : s = t := by
  refine List.ext_getElem (by rw [hs, ht]) ?_
  intro i h1 h2
  have hi : i < 81 := by omega
  have := h i hi
  rw [List.getD_eq_getElem?_getD, List.getElem?_eq_getElem h1,
    List.getD_eq_getElem?_getD, List.getElem?_eq_getElem h2] at this
  exact this

theorem stdDigits_ne_dot : ∀ c ∈ stdDigits, ¬ c = '.' := by decide

theorem solGrid_chars {s : List Char} (hsol : IsSolGrid s) : ∀ c ∈ s, c ∈ stdDigits := by
  intro c hc
  rcases List.mem_iff_getElem.1 hc with ⟨j, hj, hjc⟩
  have hj81 : j < 81 := by rw [← hsol.1]; exact hj
  have : s.getD j '.' = c := by
    rw [List.getD_eq_getElem?_getD, List.getElem?_eq_getElem hj, hjc]
    rfl
  rw [← this]
  exact hsol.2.1 j hj81

theorem solGrid_unit_perm {s : List Char} (hsol : IsSolGrid s) {u : List Nat}
    (hu : u ∈ allUnits) : (unitVals s u).Perm stdDigits := by
  have hvals_sub : unitVals s u ⊆ stdDigits := by
    intro c hc
    rcases List.mem_map.1 hc with ⟨q, hq, rfl⟩
    exact hsol.2.1 q (allUnits_lt u hu q hq)
  refine List.Subperm.perm_of_length_le
    (List.Nodup.subperm (hsol.2.2 u hu) hvals_sub) ?_
  rw [unitVals, List.length_map, allUnits_len u hu, stdDigits_len]

/-- On any input that normalizes, `solve` returns a list (never an
unexpected exception). -/
theorem solve_isSome {ds G g : List Char} (hn : normalize G = some g) :
    ∃ sols, solve ds G = some sols := by
  simp only [solve, hn]
  have hval : is_valid g = some (isValidN g) := by
    rw [is_valid, normalize_idem hn]
    rfl
  rw [hval]
  cases isValidN g with
  | false => exact ⟨[], rfl⟩
  | true =>
    cases gridMapPropagated ds g with
    | none => exact ⟨[], rfl⟩
    | some m => exact ⟨_, rfl⟩

theorem solve_some_normalize {ds G : List Char} {sols : List (List Char)}
    (hs : solve ds G = some sols) : ∃ g, normalize G = some g := by
  rw [solve] at hs
  cases hn : normalize G with
  | none => rw [hn] at hs; exact absurd hs (by simp)
  | some g => exact ⟨g, rfl⟩

/-! ### The generator loop invariant -/

/-- Invariant of the `_random_grid` loop state: a reachable grid, every
assigned square pinned to one digit, no duplicate bookkeeping entries, and
completeness (any solution matching the assigned digits is still possible
everywhere). -/
def GenInv (m : GridMap) (assigned : List Nat) : Prop :=
  Inv m ∧
  (∀ j ∈ assigned, j < 81 ∧ (m.getD j []).length = 1) ∧
  assigned.Nodup ∧
  (∀ s, IsSolGrid s → (∀ j ∈ assigned, s.getD j '.' = (m.getD j []).headD '.') →
    SoundFor s m)

/-- Under symmetry, the assigned squares come in mirror pairs. -/
def MirrorClosed (sym : Bool) (assigned : List Nat) : Prop :=
  sym = true → ∀ j ∈ assigned, 80 - j ∈ assigned

theorem GenInv_init {ds : List Char} (hds : ds.Perm stdDigits) :
    GenInv (gridMapAllDigits ds) [] := by
  refine ⟨Inv_init hds, ?_, List.nodup_nil, ?_⟩
  · intro j hj
    exact absurd hj (List.not_mem_nil j)
  · intro s hsol _ j hj
    rw [gridMapAllDigits, getD_replicate hj]
    exact hds.mem_iff.2 (hsol.2.1 j hj)

/-- One successful `_assign` of a possible digit extends the loop
invariant. -/
theorem GenInv_assign {m m' : GridMap} {assigned : List Nat} {i : Nat} {d : Char}
    (hG : GenInv m assigned) (hi : i < 81) (hd : d ∈ m.getD i [])
    (ha : assignF elimFuel m i d = Res.ok m') (hni : i ∉ assigned) :
    GenInv m' (assigned ++ [i]) := by
  obtain ⟨hInv, hasg, hnd, hsound⟩ := hG
  have hInv' : Inv m' := assignF_inv ha hInv
  have hle : MapLE m' m := mapLE_of_assign_ok ha
  have hsingle : m'.getD i [] = [d] ∧ d ∈ m.getD i [] :=
    assignF_singleton ha hInv.2.1 (hInv.2.2.1 i) (by rw [hInv.1]; exact hi)
  have hkeep : ∀ j ∈ assigned, m'.getD j [] = m.getD j [] := by
    intro j hj
    rcases hasg j hj with ⟨hj81, hj1⟩
    rcases List.length_eq_one.1 hj1 with ⟨c, hc⟩
    rw [hc]
    exact singleton_preserved hle hInv'.2.1 (by rw [hInv.1]; exact hj81) hc
  refine ⟨hInv', ?_, ?_, ?_⟩
  · intro j hj
    rcases List.mem_append.1 hj with hj | hj
    · rcases hasg j hj with ⟨hj81, hj1⟩
      exact ⟨hj81, by rw [hkeep j hj]; exact hj1⟩
    · rcases List.mem_singleton.1 hj with rfl
      exact ⟨hi, by rw [hsingle.1]; rfl⟩
  · refine hnd.append (List.nodup_singleton i) ?_
    intro a ha1 hb
    rcases List.mem_singleton.1 hb with rfl
    exact hni ha1
  · intro s hsol hmatch
    have hmatchm : ∀ j ∈ assigned, s.getD j '.' = (m.getD j []).headD '.' := by
      intro j hj
      rw [← hkeep j hj]
      exact hmatch j (List.mem_append.2 (Or.inl hj))
    have hsmd : SoundFor s m := hsound s hsol hmatchm
    have hsieq : s.getD i '.' = d := by
      have := hmatch i (List.mem_append.2 (Or.inr (by simp)))
      rw [hsingle.1] at this
      exact this
    have hSP : SP s elimFuel m := by
      refine ⟨hInv.1, ?_, hsmd, hInv.2.2.2.1⟩
      have := totalCand_le_729 hInv
      rw [elimFuel]
      omega
    rcases assignF_sound hsol hSP hi with ⟨m2, ha2, hSP2⟩
    rw [hsieq, ha] at ha2
    rw [Res.ok.injEq] at ha2
    rw [ha2]
    exact hSP2.2.2.1

/-- The mirror assignment preserves the loop invariant and restores the
mirror closure. -/
theorem mirrorStep_spec {sym : Bool} {m1 m2 : GridMap} {i : Nat}
    {assigned assigned2 picks picks2 : List Nat}
    (h : mirrorStep sym m1 i (assigned ++ [i]) picks = some (m2, assigned2, picks2))
    (hG1 : GenInv m1 (assigned ++ [i])) (hi81 : i < 81)
    (hM : MirrorClosed sym assigned) (hni : i ∉ assigned) :
    GenInv m2 assigned2 ∧ MirrorClosed sym assigned2 := by
  rw [mirrorStep] at h
  by_cases hcond : sym = true ∧ 80 - i ≠ i
  · rw [if_pos hcond] at h
    simp only [] at h
    have hj81 : 80 - i < 81 := by omega
    have hjne : 80 - i ∉ assigned ++ [i] := by
      intro hmem
      rcases List.mem_append.1 hmem with hmem | hmem
      · have := hM hcond.1 (80 - i) hmem
        rw [show 80 - (80 - i) = i by omega] at this
        exact hni this
      · exact hcond.2 (List.mem_singleton.1 hmem)
    have hcne : m1.getD (80 - i) [] ≠ [] := hG1.1.2.1 (80 - i) (by rw [hG1.1.1]; omega)
    have hclen : 0 < (m1.getD (80 - i) []).length := List.length_pos.2 hcne
    have hdmem : (m1.getD (80 - i) []).getD
        (picks.headD 0 % (m1.getD (80 - i) []).length) '.' ∈ m1.getD (80 - i) [] :=
      getD_mem_of_lt (Nat.mod_lt _ hclen)
    cases ha : assignF elimFuel m1 (80 - i)
        ((m1.getD (80 - i) []).getD (picks.headD 0 % (m1.getD (80 - i) []).length) '.') with
    | fuelOut => rw [ha] at h; exact absurd h (by simp)
    | failed mf => rw [ha] at h; exact absurd h (by simp)
    | ok m2' =>
      rw [ha] at h
      simp only [Option.some.injEq, Prod.mk.injEq] at h
      obtain ⟨hm2, hass2, hp2⟩ := h
      subst hm2
      subst hass2
      refine ⟨GenInv_assign hG1 hj81 hdmem ha hjne, ?_⟩
      intro hsym j hj
      rcases List.mem_append.1 hj with hj | hj
      · rcases List.mem_append.1 hj with hj | hj
        · exact List.mem_append.2 (Or.inl (List.mem_append.2 (Or.inl (hM hsym j hj))))
        · rcases List.mem_singleton.1 hj with rfl
          exact List.mem_append.2 (Or.inr (by simp))
      · rcases List.mem_singleton.1 hj with rfl
        rw [show 80 - (80 - i) = i by omega]
        exact List.mem_append.2 (Or.inl (List.mem_append.2 (Or.inr (by simp))))
  · rw [if_neg hcond] at h
    simp only [Option.some.injEq, Prod.mk.injEq] at h
    obtain ⟨hm2, hass2, hp2⟩ := h
    subst hm2
    subst hass2
    refine ⟨hG1, ?_⟩
    intro hsym j hj
    have hmir : 80 - i = i := by
      by_contra hne
      exact hcond ⟨hsym, hne⟩
    rcases List.mem_append.1 hj with hj | hj
    · exact List.mem_append.2 (Or.inl (hM hsym j hj))
    · rcases List.mem_singleton.1 hj with rfl
      rw [hmir]
      exact List.mem_append.2 (Or.inr (by simp))

/-- Inversion of a successful uniqueness checkpoint. -/
theorem genCheck_some_spec {minA : Nat} {m : GridMap} {assigned : List Nat}
    {pz sol : List Char}
    (h : genCheck minA m assigned = some (some (pz, sol))) :
    minA ≤ assigned.length ∧ ∃ s0, searchF searchFuel (some m) = [s0] ∧
      pz = toGrid m ((List.range 81).filter (fun j => !(assigned.contains j))) ∧
      sol = toGrid s0 [] := by
  simp only [genCheck] at h
  by_cases hcond : minA ≤ assigned.length ∧
      8 ≤ ((assigned.map (fun j => m.getD j [])).dedup).length
  · rw [if_pos hcond] at h
    by_cases hlen : (searchF searchFuel (some m)).length = 1
    · rw [if_pos hlen] at h
      simp only [Option.some.injEq, Prod.mk.injEq] at h
      rcases List.length_eq_one.1 hlen with ⟨s0, hs0⟩
      refine ⟨hcond.1, s0, hs0, h.1.symm, ?_⟩
      rw [← h.2, hs0]
      rfl
    · rw [if_neg hlen] at h
      exact absurd h (by simp)
  · rw [if_neg hcond] at h
    exact absurd h (by simp)

/-- Any pair produced by the generator loop comes from a state satisfying
the loop invariant whose candidate grid admits exactly one solved
completion; the pair is the masked puzzle and that completion. -/
theorem randomStep_spec {minA : Nat} {sym : Bool} :
    ∀ {order : List Nat}, (∀ i ∈ order, i < 81) →
      ∀ {m : GridMap} {assigned picks : List Nat} {pz sol : List Char},
      GenInv m assigned → MirrorClosed sym assigned →
      randomStep minA sym order m assigned picks = some (pz, sol) →
      ∃ m2 assigned2 s0,
        GenInv m2 assigned2 ∧ minA ≤ assigned2.length ∧
        searchF searchFuel (some m2) = [s0] ∧
        pz = toGrid m2 ((List.range 81).filter (fun j => !(assigned2.contains j))) ∧
        sol = toGrid s0 [] := by
  intro order
  induction order with
  | nil =>
    intro _ m assigned picks pz sol _ _ h
    exact absurd h (by simp [randomStep])
  | cons i rest ih =>
    intro horder m assigned picks pz sol hG hM h
    have hi81 : i < 81 := horder i (by simp)
    have horder' : ∀ x ∈ rest, x < 81 := fun x hx => horder x (by simp [hx])
    rw [randomStep] at h
    by_cases hasg : assigned.contains i = true
    · rw [if_pos hasg] at h
      exact ih horder' hG hM h
    · rw [if_neg hasg] at h
      simp only [] at h
      have hni : i ∉ assigned := fun hmem => hasg ((containsNat_true_iff _ _).2 hmem)
      have hcne : m.getD i [] ≠ [] := hG.1.2.1 i (by rw [hG.1.1]; exact hi81)
      have hclen : 0 < (m.getD i []).length := List.length_pos.2 hcne
      have hdmem : (m.getD i []).getD (picks.headD 0 % (m.getD i []).length) '.'
          ∈ m.getD i [] := getD_mem_of_lt (Nat.mod_lt _ hclen)
      cases ha : assignF elimFuel m i
          ((m.getD i []).getD (picks.headD 0 % (m.getD i []).length) '.') with
      | fuelOut => rw [ha] at h; exact absurd h (by simp)
      | failed mf => rw [ha] at h; exact absurd h (by simp)
      | ok m1 =>
        simp only [ha] at h
        have hG1 : GenInv m1 (assigned ++ [i]) := GenInv_assign hG hi81 hdmem ha hni
        cases hm : mirrorStep sym m1 i (assigned ++ [i]) picks.tail with
        | none =>
          simp only [hm] at h
          exact absurd h (by simp)
        | some t =>
          obtain ⟨m2, assigned2, picks2⟩ := t
          simp only [hm] at h
          obtain ⟨hG2, hM2⟩ := mirrorStep_spec hm hG1 hi81 hM hni
          cases hg : genCheck minA m2 assigned2 with
          | none =>
            simp only [hg] at h
            exact ih horder' hG2 hM2 h
          | some r =>
            simp only [hg] at h
            rw [h] at hg
            rcases genCheck_some_spec hg with ⟨hminA, s0, hone, hpz, hsol⟩
            exact ⟨m2, assigned2, s0, hG2, hminA, hone, hpz, hsol⟩

/-- Unfolds `random_grid` and runs the loop analysis from the initial
state, clamping included. -/
theorem randomGrid_post {n : Nat} {sym : Bool} {ds : List Char}
    {order picks : List Nat} {pz sol : List Char}
    (hds : ds.Perm stdDigits) (horder : ∀ i ∈ order, i < 81)
    (hr : random_grid n sym ds order picks = some (pz, sol)) :
    ∃ m2 assigned2 s0,
      GenInv m2 assigned2 ∧ min (max n 17) 80 ≤ assigned2.length ∧
      searchF searchFuel (some m2) = [s0] ∧
      pz = toGrid m2 ((List.range 81).filter (fun j => !(assigned2.contains j))) ∧
      sol = toGrid s0 [] := by
  have hr' : randomStep (min (max n 17) 80) sym order (gridMapAllDigits ds) [] picks =
      some (pz, sol) := hr
  exact randomStep_spec horder (GenInv_init hds) (fun _ j hj => absurd hj (List.not_mem_nil j)) hr'

/-- One successful, non-mirrored, checkpoint-failing iteration of the
generator loop, stated for stepwise evaluation of a recorded run. -/
theorem randomStep_cons_ok {minA : Nat} {i : Nat} {rest : List Nat}
    {m m1 : GridMap} {assigned picks : List Nat}
    (assigned2 picks2 : List Nat)
    (hni : assigned.contains i = false)
    (ha : assignF elimFuel m i
      ((m.getD i []).getD (picks.headD 0 % (m.getD i []).length) '.') = Res.ok m1)
    (hA : assigned ++ [i] = assigned2)
    (hp : picks.tail = picks2)
    (hg : genCheck minA m1 assigned2 = none) :
    randomStep minA false (i :: rest) m assigned picks =
      randomStep minA false rest m1 assigned2 picks2 := by
  rw [randomStep, if_neg (by rw [hni]; exact Bool.false_ne_true)]
  simp only []
  rw [ha]
  simp only []
  rw [mirrorStep, if_neg (fun hc => absurd hc.1 Bool.false_ne_true)]
  simp only [hA, hp, hg]

/-- The final iteration of a recorded run: the checkpoint succeeds. -/
theorem randomStep_cons_done {minA : Nat} {i : Nat} {rest : List Nat}
    {m m1 : GridMap} {assigned picks : List Nat} {r : List Char × List Char}
    (assigned2 : List Nat)
    (hni : assigned.contains i = false)
    (ha : assignF elimFuel m i
      ((m.getD i []).getD (picks.headD 0 % (m.getD i []).length) '.') = Res.ok m1)
    (hA : assigned ++ [i] = assigned2)
    (hg : genCheck minA m1 assigned2 = some (some r)) :
    randomStep minA false (i :: rest) m assigned picks = some r := by
  rw [randomStep, if_neg (by rw [hni]; exact Bool.false_ne_true)]
  simp only []
  rw [ha]
  simp only []
  rw [mirrorStep, if_neg (fun hc => absurd hc.1 Bool.false_ne_true)]
  simp only [hA, hg]

/-! ### The produced puzzle and its unique completion -/

theorem gen_pz_shown {m : GridMap} {assigned : List Nat} (hG : GenInv m assigned) :
    ∀ j ∈ assigned,
      (toGrid m ((List.range 81).filter (fun j => !(assigned.contains j)))).getD j '.' =
        (m.getD j []).headD '.' ∧
      (toGrid m ((List.range 81).filter (fun j => !(assigned.contains j)))).getD j '.'
        ∈ stdDigits := by
  intro j hj
  rcases hG.2.1 j hj with ⟨hj81, hj1⟩
  have hnotmask : ((List.range 81).filter
      (fun j => !(assigned.contains j))).contains j = false := by
    cases hc : ((List.range 81).filter (fun j => !(assigned.contains j))).contains j
    · rfl
    · exfalso
      have := (containsNat_true_iff _ _).1 hc
      rcases List.mem_filter.1 this with ⟨_, hpred⟩
      rw [(containsNat_true_iff _ _).2 hj] at hpred
      simp at hpred
  have hcond : ((m.getD j []).length == 1 &&
      !(((List.range 81).filter (fun j => !(assigned.contains j))).contains j)) = true := by
    rw [hnotmask, hj1]
    rfl
  rw [toGrid_getD hj81, if_pos hcond]
  rcases List.length_eq_one.1 hj1 with ⟨c, hc⟩
  have hcstd : c ∈ stdDigits := hG.1.2.2.2.1 j c (by rw [hc]; simp)
  rw [hc]
  exact ⟨rfl, hcstd⟩

theorem gen_pz_hidden {m : GridMap} {assigned : List Nat} :
    ∀ i, i < 81 → i ∉ assigned →
      (toGrid m ((List.range 81).filter (fun j => !(assigned.contains j)))).getD i '.'
        = '.' := by
  intro i hi81 hni
  have hmask : ((List.range 81).filter
      (fun j => !(assigned.contains j))).contains i = true := by
    refine (containsNat_true_iff _ _).2 ?_
    refine List.mem_filter.2 ⟨List.mem_range.2 hi81, ?_⟩
    cases hc : assigned.contains i
    · rfl
    · exact absurd ((containsNat_true_iff _ _).1 hc) hni
  have hcond : ¬ ((m.getD i []).length == 1 &&
      !(((List.range 81).filter (fun j => !(assigned.contains j))).contains i)) = true := by
    rw [hmask]
    simp
  rw [toGrid_getD hi81, if_neg hcond]

theorem gen_pz_chars {m : GridMap} {assigned : List Nat} (hG : GenInv m assigned) :
    ∀ c ∈ toGrid m ((List.range 81).filter (fun j => !(assigned.contains j))),
      c ∈ stdDigits ∨ c = '.' := by
  intro c hc
  rcases List.mem_map.1 hc with ⟨i, _, rfl⟩
  by_cases hcond : ((m.getD i []).length == 1 &&
      !(((List.range 81).filter (fun j => !(assigned.contains j))).contains i)) = true
  · rw [if_pos hcond]
    have hlen1 : (m.getD i []).length = 1 := by
      have hand := hcond
      rw [Bool.and_eq_true] at hand
      have := hand.1
      rwa [beq_iff_eq] at this
    rcases List.length_eq_one.1 hlen1 with ⟨c0, hc0⟩
    rw [hc0]
    exact Or.inl (hG.1.2.2.2.1 i c0 (by rw [hc0]; simp))
  · rw [if_neg hcond]
    exact Or.inr rfl

theorem gen_pz_normalize {m : GridMap} {assigned : List Nat} (hG : GenInv m assigned) :
    normalize (toGrid m ((List.range 81).filter (fun j => !(assigned.contains j)))) =
      some (toGrid m ((List.range 81).filter (fun j => !(assigned.contains j)))) :=
  normalize_of_chars (toGrid_length _ _) (gen_pz_chars hG)

/-- Heart of the generator's guarantee: the masked puzzle solves to exactly
the recorded completion, whose assignments extend the puzzle's. -/
theorem gen_main {m2 : GridMap} {assigned2 : List Nat} {s0 : GridMap}
    (hG : GenInv m2 assigned2)
    (hone : searchF searchFuel (some m2) = [s0]) {ds2 : List Char}
    (hds2 : ds2.Perm stdDigits) :
    solve ds2 (toGrid m2 ((List.range 81).filter (fun j => !(assigned2.contains j)))) =
      some [toGrid s0 []] ∧
    ∀ i, i < 81 →
      (toGrid m2 ((List.range 81).filter (fun j => !(assigned2.contains j)))).getD i '.'
        ≠ '.' →
      (toGrid m2 ((List.range 81).filter (fun j => !(assigned2.contains j)))).getD i '.' =
        (toGrid s0 []).getD i '.' := by
  have hmap : (searchF searchFuel (some m2)).map (fun sm => toGrid sm []) =
      [toGrid s0 []] := by
    rw [hone]
    rfl
  have hsolmem : toGrid s0 [] ∈ (searchF searchFuel (some m2)).map
      (fun sm => toGrid sm []) := by
    rw [hmap]
    simp
  obtain ⟨hsolG, hsolSound⟩ := (mem_searchF_iff hG.1 (toGrid s0 [])).1 hsolmem
  have hshown : ∀ i, i < 81 →
      (toGrid m2 ((List.range 81).filter (fun j => !(assigned2.contains j)))).getD i '.'
        ≠ '.' → i ∈ assigned2 := by
    intro i hi81 hne
    by_contra hni
    exact hne (gen_pz_hidden i hi81 hni)
  have hagree_ext : ∀ i ∈ assigned2,
      (toGrid s0 []).getD i '.' =
      (toGrid m2 ((List.range 81).filter (fun j => !(assigned2.contains j)))).getD i '.' := by
    intro i hi
    rcases hG.2.1 i hi with ⟨hi81, hi1⟩
    rcases List.length_eq_one.1 hi1 with ⟨c, hc⟩
    have hpzi := (gen_pz_shown hG i hi).1
    rw [hc] at hpzi
    have hsoli : (toGrid s0 []).getD i '.' ∈ m2.getD i [] := hsolSound i hi81
    rw [hc] at hsoli
    rw [hpzi]
    exact List.mem_singleton.1 hsoli
  constructor
  · rcases @solve_isSome ds2 _ _ (gen_pz_normalize hG) with ⟨sols, hsolve⟩
    obtain ⟨hnd, hiff⟩ := solve_char hds2 (gen_pz_normalize hG) hsolve
    have hmem : toGrid s0 [] ∈ sols := by
      refine (hiff _).2 ⟨hsolG, ?_⟩
      intro i hi81 hdig
      refine hagree_ext i (hshown i hi81 ?_)
      intro hdot
      rw [hdot] at hdig
      exact absurd hdig (by decide)
    have hall : ∀ s ∈ sols, s = toGrid s0 [] := by
      intro s hs
      obtain ⟨hsolS, hagrS⟩ := (hiff s).1 hs
      have hmatch : ∀ j ∈ assigned2, s.getD j '.' = (m2.getD j []).headD '.' := by
        intro j hj
        rcases gen_pz_shown hG j hj with ⟨hpzj, hpzdig⟩
        rw [← hpzj]
        exact hagrS j (hG.2.1 j hj).1 hpzdig
      have hsndS : SoundFor s m2 := hG.2.2.2 s hsolS hmatch
      have : s ∈ (searchF searchFuel (some m2)).map (fun sm => toGrid sm []) :=
        (mem_searchF_iff hG.1 s).2 ⟨hsolS, hsndS⟩
      rw [hmap] at this
      exact List.mem_singleton.1 this
    rw [hsolve, nodup_mem_singleton hnd hmem hall]
  · intro i hi81 hne
    exact (hagree_ext i (hshown i hi81 hne)).symm

/-- Every assigned square shows as a digit in the masked puzzle, so the
clue count is at least the number of assigned squares. -/
theorem gen_pz_count {m : GridMap} {assigned : List Nat} (hG : GenInv m assigned) :
    assigned.length ≤
      (toGrid m ((List.range 81).filter (fun j => !(assigned.contains j)))).countP
        (fun c => !(c == '.')) := by
  rw [toGrid, List.countP_map, List.countP_eq_length_filter]
  have hsub : assigned ⊆ (List.range 81).filter (fun i =>
      ((fun c => !(c == '.')) ∘ (fun i =>
        if (m.getD i []).length == 1 &&
            !((((List.range 81).filter (fun j => !(assigned.contains j)))).contains i)
        then (m.getD i []).headD '.' else '.')) i) := by
    intro j hj
    have hj81 := (hG.2.1 j hj).1
    refine List.mem_filter.2 ⟨List.mem_range.2 hj81, ?_⟩
    rcases gen_pz_shown hG j hj with ⟨hpzj, hpzdig⟩
    rw [toGrid_getD hj81] at hpzj hpzdig
    simp only [Function.comp]
    rw [Bool.not_eq_true', beq_eq_false_iff_ne]
    exact stdDigits_ne_dot _ hpzdig
  exact (List.Nodup.subperm hG.2.2.1 hsub).length_le

/-! ### The claims -/

theorem validGridChars_contains_eq (c : Char) :
    validGridChars.contains c = decide (c ∈ stdDigits ∨ c = '0' ∨ c = '.') := by
  by_cases h : c ∈ stdDigits ∨ c = '0' ∨ c = '.'
  · rw [decide_eq_true h]
    refine (contains_true_iff _ _).2 ?_
    rw [validGridChars]
    rcases h with h | h | h
    · exact List.mem_append.2 (Or.inl h)
    · rw [h]; simp
    · rw [h]; simp
  · rw [decide_eq_false h]
    cases hc : validGridChars.contains c
    · rfl
    · exfalso
      have hm := (contains_true_iff _ _).1 hc
      rw [validGridChars] at hm
      rcases List.mem_append.1 hm with h1 | h1
      · exact h (Or.inl h1)
      · rcases List.mem_cons.1 h1 with h2 | h2
        · exact h (Or.inr (Or.inl h2))
        · exact h (Or.inr (Or.inr (List.mem_singleton.1 h2)))

/-- C1.  For every accepted grid, every yielded solution is an
81-character digit grid whose 27 units each hold every digit exactly once,
and which carries the input's digit at every originally assigned square. -/
theorem C1_solve_sound {ds G g s : List Char} {sols : List (List Char)}
    (hds : ds.Perm stdDigits) (hn : normalize G = some g)
    (hs : solve ds G = some sols) (hmem : s ∈ sols) :
    s.length = 81 ∧ (∀ i, i < 81 → s.getD i '.' ∈ stdDigits) ∧
    (∀ u ∈ allUnits, (u.map (fun j => s.getD j '.')).Perm stdDigits) ∧
    (∀ i, i < 81 → g.getD i '.' ∈ stdDigits → s.getD i '.' = g.getD i '.') := by
  obtain ⟨-, hiff⟩ := solve_char hds hn hs
  obtain ⟨hsol, hagr⟩ := (hiff s).1 hmem
  exact ⟨hsol.1, hsol.2.1, fun u hu => solGrid_unit_perm hsol hu, hagr⟩

/-- C4.  `is_valid` returns `False` exactly when two distinct squares of
one unit of the normalized grid carry the same assigned value, solvable or
not. -/
theorem C4_is_valid_iff {G g : List Char} (hn : normalize G = some g) :
    is_valid G = some (isValidN g) ∧
    (is_valid G = some false ↔ ∃ u, u ∈ allUnits ∧ ∃ a, a ∈ u ∧ ∃ b, b ∈ u ∧
      a ≠ b ∧ g.getD a '.' ≠ '.' ∧ g.getD a '.' = g.getD b '.') := by
  have h1 : is_valid G = some (isValidN g) := by
    rw [is_valid, hn]
    rfl
  refine ⟨h1, ?_⟩
  rw [h1]
  constructor
  · intro h
    rw [Option.some.injEq] at h
    exact (isValidN_false_iff g).1 h
  · intro h
    rw [(isValidN_false_iff g).2 h]

/-- Closed check of C4 on a grid with a duplicated `'1'` in its first
row. -/
theorem C4_is_valid_iff_witness :
    normalize dupG = some dupG ∧ is_valid dupG = some false :=
  ⟨by decide, (@C4_is_valid_iff dupG dupG (by decide)).2.2 (by decide)⟩

/-- C5.  `normalize` strips characters outside digits, `'0'` and `'.'`,
maps `'0'` to `'.'`, fails exactly when the result is not 81 characters,
and on success returns 81 characters over digits and `'.'`. -/
theorem C5_normalize (text : List Char) :
    normalize text = normalizeSpec text ∧
    ∀ g, normalize text = some g →
      g.length = 81 ∧ ∀ c ∈ g, c ∈ stdDigits ∨ c = '.' := by
  constructor
  · rw [normalize, normalizeSpec, filteredGrid]
    have hfil : text.filter (fun c => validGridChars.contains c) =
        text.filter (fun c => decide (c ∈ stdDigits ∨ c = '0' ∨ c = '.')) := by
      refine List.filter_congr ?_
      intro c _
      exact validGridChars_contains_eq c
    have hmap : ∀ c : Char, (if c == '0' then '.' else c) = (if c = '0' then '.' else c) := by
      intro c
      by_cases h : c = '0'
      · simp [h]
      · simp [h]
    rw [hfil, List.map_congr_left (fun c _ => hmap c)]
  · intro g hg
    exact ⟨(normalize_eq_some hg).2, normalized_chars hg⟩

/-- Closed check of C5 on raw text with a stray letter and a `'0'`. -/
theorem C5_normalize_witness :
    normalize junkG = normalizeSpec junkG ∧ normalize junkG = some blankG ∧
    blankG.length = 81 ∧ (∀ c ∈ blankG, c ∈ stdDigits ∨ c = '.') :=
  ⟨(C5_normalize junkG).1, by decide,
    ((C5_normalize junkG).2 blankG (by decide)).1,
    ((C5_normalize junkG).2 blankG (by decide)).2⟩

/-- C6.  On any input that normalizes, `solve` returns a sequence rather
than raising; a duplicate assigned digit in a unit, or a propagation
contradiction, yields the empty sequence. -/
theorem C6_no_raise {ds G g : List Char} (hn : normalize G = some g) :
    (∃ sols, solve ds G = some sols) ∧
    ((∃ u, u ∈ allUnits ∧ ∃ a, a ∈ u ∧ ∃ b, b ∈ u ∧ a ≠ b ∧
        g.getD a '.' ≠ '.' ∧ g.getD a '.' = g.getD b '.') →
      solve ds G = some []) ∧
    (gridMapPropagated ds g = none → solve ds G = some []) := by
  have h1 : is_valid g = some (isValidN g) := by
    rw [is_valid, normalize_idem hn]
    rfl
  refine ⟨solve_isSome hn, ?_, ?_⟩
  · intro hdup
    have hval : isValidN g = false := (isValidN_false_iff g).2 hdup
    simp only [solve, hn, h1, hval]
  · intro hp
    simp only [solve, hn, h1]
    cases hv : isValidN g
    · rfl
    · simp only [hp]

/-- Closed check of C6 on the duplicated grid. -/
theorem C6_no_raise_witness :
    normalize dupG = some dupG ∧ (∃ sols, solve stdDigits dupG = some sols) ∧
    solve stdDigits dupG = some [] :=
  ⟨by decide, (@C6_no_raise stdDigits dupG dupG (by decide)).1,
    (@C6_no_raise stdDigits dupG dupG (by decide)).2.1 (by decide)⟩

/-- C9 (amended).  `_eliminate` and `_assign` terminate whenever the fuel
exceeds the total number of remaining candidates: every nesting level
strictly shrinks some square's candidate list, so the nesting depth is
bounded by `totalCand` (at most 729), though not by 81. -/
theorem C9_termination_amended (fuel : Nat) (m : GridMap) (i : Nat) (d : Char)
    (h : totalCand m < fuel) :
    eliminateF fuel m i d ≠ Res.fuelOut ∧ assignF fuel m i d ≠ Res.fuelOut :=
  ⟨eliminateF_no_fuelOut fuel m i d h, assignF_no_fuelOut fuel m i d h⟩

/-- Closed check of the amended C9 on the all-open grid. -/
theorem C9_termination_amended_witness :
    totalCand (gridMapAllDigits stdDigits) < 730 ∧
    eliminateF 730 (gridMapAllDigits stdDigits) 0 '1' ≠ Res.fuelOut ∧
    assignF 730 (gridMapAllDigits stdDigits) 0 '1' ≠ Res.fuelOut :=
  ⟨by decide, (C9_termination_amended 730 (gridMapAllDigits stdDigits) 0 '1' (by decide)).1,
    (C9_termination_amended 730 (gridMapAllDigits stdDigits) 0 '1' (by decide)).2⟩

/-- C10.  Whether it succeeds or fails, `_eliminate` / `_assign` leaves
every square's candidate list a sublist of what it was: no digit is ever
added back. -/
theorem C10_shrinking (fuel : Nat) (m : GridMap) (i : Nat) (d : Char) :
    (∀ m', eliminateF fuel m i d = Res.failed m' ∨ eliminateF fuel m i d = Res.ok m' →
      ∀ j, (m'.getD j []).Sublist (m.getD j [])) ∧
    (∀ m', assignF fuel m i d = Res.failed m' ∨ assignF fuel m i d = Res.ok m' →
      ∀ j, (m'.getD j []).Sublist (m.getD j [])) := by
  constructor
  · intro m' hcase j
    have hr := eliminateF_rel fuel m i d
    rcases hcase with h | h
    · rw [h] at hr
      exact (show MapLE m' m from hr).2 j
    · rw [h] at hr
      exact (show MapLE m' m from hr).2 j
  · intro m' hcase j
    have hr := assignF_rel fuel m i d
    rcases hcase with h | h
    · rw [h] at hr
      exact (show MapLE m' m from hr).2 j
    · rw [h] at hr
      exact (show MapLE m' m from hr).2 j

/-- Closed check of C10 on a failing elimination that still shrank the
grid. -/
theorem C10_shrinking_witness :
    eliminateF 2 [['1', '2']] 0 '2' = Res.failed [['1']] ∧
    assignF 2 [['1', '2']] 0 '1' = Res.failed [['1']] ∧
    (∀ j, (([['1']] : GridMap).getD j []).Sublist (([['1', '2']] : GridMap).getD j [])) :=
  ⟨by decide, by decide,
    (C10_shrinking 2 [['1', '2']] 0 '2').1 [['1']] (Or.inl (by decide))⟩

set_option maxRecDepth 40000 in
/-- C3 (counterexample).  With the legal `DIGITS` iteration order
`dsSwapped`, the empty grid is accepted, its first search node branches on
square 0, and the digits are tried in the stored order `'2', '1', '3', …`,
which is not increasing. -/
theorem C3_branch_order_counterexample :
    dsSwapped.Perm stdDigits ∧
    normalize blankG = some blankG ∧
    isValidN blankG = true ∧
    gridMapPropagated dsSwapped blankG = some (gridMapAllDigits dsSwapped) ∧
    allSingleton (gridMapAllDigits dsSwapped) = false ∧
    nextCell (gridMapAllDigits dsSwapped) = 0 ∧
    branchDigits (gridMapAllDigits dsSwapped) = dsSwapped ∧
    ¬ List.Pairwise (· ≤ ·) (branchDigits (gridMapAllDigits dsSwapped)) := by
  refine ⟨?_, ?_, ?_, ?_, ?_, ?_, ?_, ?_⟩ <;> decide

/-- C3 (amended).  At every unsolved search node the enumerator branches
on the square with the fewest (more than one) candidates, ties broken by
lowest index, and tries the digits in the order stored in that square's
candidate list, which follows the unspecified `DIGITS` iteration order. -/
theorem C3_branch_order_amended {m : GridMap} (hInv : Inv m)
    (hns : allSingleton m = false) (fuel : Nat) :
    nextCell m < 81 ∧ 1 < (m.getD (nextCell m) []).length ∧
    (∀ j, j < 81 → 1 < (m.getD j []).length →
      (m.getD (nextCell m) []).length < (m.getD j []).length ∨
        ((m.getD (nextCell m) []).length = (m.getD j []).length ∧ nextCell m ≤ j)) ∧
    branchDigits m = m.getD (nextCell m) [] ∧
    searchF (fuel + 1) (some m) =
      (m.getD (nextCell m) []).flatMap (fun d =>
        searchF fuel (resOpt (assignF elimFuel m (nextCell m) d))) := by
  have hne := unsolved_cands_ne hInv (by rw [hns]; simp)
  obtain ⟨hmem, hmin⟩ := nextCell_spec hne
  rcases List.mem_filter.1 hmem with ⟨hr81, hlen⟩
  have h81 : nextCell m < 81 := List.mem_range.1 hr81
  have hlen2 : 1 < (m.getD (nextCell m) []).length := by simpa using hlen
  refine ⟨h81, hlen2, ?_, rfl, ?_⟩
  · intro j hj hjlen
    have hjf : j ∈ (List.range 81).filter (fun i => 1 < (m.getD i []).length) :=
      List.mem_filter.2 ⟨List.mem_range.2 hj, by simpa using hjlen⟩
    exact hmin j hjf
  · simp only [searchF, hns, Bool.false_eq_true, if_false]
    rfl

/-- Closed check of the amended C3 on the all-open grid. -/
theorem C3_branch_order_amended_witness :
    Inv (gridMapAllDigits stdDigits) ∧
    allSingleton (gridMapAllDigits stdDigits) = false ∧
    (nextCell (gridMapAllDigits stdDigits) < 81 ∧
      1 < ((gridMapAllDigits stdDigits).getD (nextCell (gridMapAllDigits stdDigits)) []).length ∧
      (∀ j, j < 81 → 1 < ((gridMapAllDigits stdDigits).getD j []).length →
        ((gridMapAllDigits stdDigits).getD (nextCell (gridMapAllDigits stdDigits)) []).length <
            ((gridMapAllDigits stdDigits).getD j []).length ∨
          (((gridMapAllDigits stdDigits).getD (nextCell (gridMapAllDigits stdDigits)) []).length =
              ((gridMapAllDigits stdDigits).getD j []).length ∧
            nextCell (gridMapAllDigits stdDigits) ≤ j)) ∧
      branchDigits (gridMapAllDigits stdDigits) =
        (gridMapAllDigits stdDigits).getD (nextCell (gridMapAllDigits stdDigits)) [] ∧
      searchF (0 + 1) (some (gridMapAllDigits stdDigits)) =
        ((gridMapAllDigits stdDigits).getD (nextCell (gridMapAllDigits stdDigits)) []).flatMap
          (fun d => searchF 0 (resOpt (assignF elimFuel (gridMapAllDigits stdDigits)
            (nextCell (gridMapAllDigits stdDigits)) d)))) :=
  ⟨Inv_init (List.Perm.refl stdDigits), by decide,
    C3_branch_order_amended (Inv_init (List.Perm.refl stdDigits)) (by decide) 0⟩

/-- The full grid `fullS` is accepted by `solve` and solves to itself
alone: derived from the solver characterization rather than by raw
evaluation. -/
theorem solve_fullS : solve stdDigits fullS = some [fullS] := by
  have hn : normalize fullS = some fullS := by decide
  rcases @solve_isSome stdDigits fullS fullS hn with ⟨sols, hs⟩
  obtain ⟨hnd, hiff⟩ := solve_char (List.Perm.refl stdDigits) hn hs
  have hsol : IsSolGrid fullS := by decide
  have hmem : fullS ∈ sols := (hiff fullS).2 ⟨hsol, fun i hi hd => rfl⟩
  have hall : ∀ x ∈ sols, x = fullS := by
    intro x hx
    obtain ⟨hsolx, hagr⟩ := (hiff x).1 hx
    refine eq_of_getD_81 hsolx.1 hsol.1 ?_
    intro i hi
    exact hagr i hi (hsol.2.1 i hi)
  rw [hs, nodup_mem_singleton hnd hmem hall]

/-- One `_assign` of the recorded generator run each. -/
theorem rsAsg0 : assignF elimFuel (gridMapAllDigits stdDigits) 0
    (((gridMapAllDigits stdDigits).getD 0 []).getD ((genPicks).headD 0 % ((gridMapAllDigits stdDigits).getD 0 []).length) '.') =
    Res.ok rsGm1 := by decide!

theorem rsAsg1 : assignF elimFuel (rsGm1) 1
    (((rsGm1).getD 1 []).getD ((rsP1).headD 0 % ((rsGm1).getD 1 []).length) '.') =
    Res.ok rsGm2 := by decide!

theorem rsAsg2 : assignF elimFuel (rsGm2) 2
    (((rsGm2).getD 2 []).getD ((rsP2).headD 0 % ((rsGm2).getD 2 []).length) '.') =
    Res.ok rsGm3 := by decide!

theorem rsAsg3 : assignF elimFuel (rsGm3) 3
    (((rsGm3).getD 3 []).getD ((rsP3).headD 0 % ((rsGm3).getD 3 []).length) '.') =
    Res.ok rsGm4 := by decide!

theorem rsAsg4 : assignF elimFuel (rsGm4) 4
    (((rsGm4).getD 4 []).getD ((rsP4).headD 0 % ((rsGm4).getD 4 []).length) '.') =
    Res.ok rsGm5 := by decide!

theorem rsAsg5 : assignF elimFuel (rsGm5) 5
    (((rsGm5).getD 5 []).getD ((rsP5).headD 0 % ((rsGm5).getD 5 []).length) '.') =
    Res.ok rsGm6 := by decide!

theorem rsAsg6 : assignF elimFuel (rsGm6) 6
    (((rsGm6).getD 6 []).getD ((rsP6).headD 0 % ((rsGm6).getD 6 []).length) '.') =
    Res.ok rsGm7 := by decide!

theorem rsAsg7 : assignF elimFuel (rsGm7) 7
    (((rsGm7).getD 7 []).getD ((rsP7).headD 0 % ((rsGm7).getD 7 []).length) '.') =
    Res.ok rsGm8 := by decide!

theorem rsAsg8 : assignF elimFuel (rsGm8) 8
    (((rsGm8).getD 8 []).getD ((rsP8).headD 0 % ((rsGm8).getD 8 []).length) '.') =
    Res.ok rsGm9 := by decide!

theorem rsAsg9 : assignF elimFuel (rsGm9) 9
    (((rsGm9).getD 9 []).getD ((rsP9).headD 0 % ((rsGm9).getD 9 []).length) '.') =
    Res.ok rsGm10 := by decide!

theorem rsAsg10 : assignF elimFuel (rsGm10) 10
    (((rsGm10).getD 10 []).getD ((rsP10).headD 0 % ((rsGm10).getD 10 []).length) '.') =
    Res.ok rsGm11 := by decide!

theorem rsAsg11 : assignF elimFuel (rsGm11) 11
    (((rsGm11).getD 11 []).getD ((rsP11).headD 0 % ((rsGm11).getD 11 []).length) '.') =
    Res.ok rsGm12 := by decide!

theorem rsAsg12 : assignF elimFuel (rsGm12) 12
    (((rsGm12).getD 12 []).getD ((rsP12).headD 0 % ((rsGm12).getD 12 []).length) '.') =
    Res.ok rsGm13 := by decide!

theorem rsAsg13 : assignF elimFuel (rsGm13) 13
    (((rsGm13).getD 13 []).getD ((rsP13).headD 0 % ((rsGm13).getD 13 []).length) '.') =
    Res.ok rsGm14 := by decide!

theorem rsAsg14 : assignF elimFuel (rsGm14) 14
    (((rsGm14).getD 14 []).getD ((rsP14).headD 0 % ((rsGm14).getD 14 []).length) '.') =
    Res.ok rsGm15 := by decide!

theorem rsAsg15 : assignF elimFuel (rsGm15) 15
    (((rsGm15).getD 15 []).getD ((rsP15).headD 0 % ((rsGm15).getD 15 []).length) '.') =
    Res.ok rsGm16 := by decide!

theorem rsAsg16 : assignF elimFuel (rsGm16) 16
    (((rsGm16).getD 16 []).getD ((rsP16).headD 0 % ((rsGm16).getD 16 []).length) '.') =
    Res.ok rsGm17 := by decide!

theorem rsAsg17 : assignF elimFuel (rsGm17) 17
    (((rsGm17).getD 17 []).getD ((rsP17).headD 0 % ((rsGm17).getD 17 []).length) '.') =
    Res.ok rsGm18 := by decide!

theorem rsAsg18 : assignF elimFuel (rsGm18) 18
    (((rsGm18).getD 18 []).getD ((rsP18).headD 0 % ((rsGm18).getD 18 []).length) '.') =
    Res.ok rsGm19 := by decide!

theorem rsAsg19 : assignF elimFuel (rsGm19) 19
    (((rsGm19).getD 19 []).getD ((rsP19).headD 0 % ((rsGm19).getD 19 []).length) '.') =
    Res.ok rsGm20 := by decide!

theorem rsAsg20 : assignF elimFuel (rsGm20) 20
    (((rsGm20).getD 20 []).getD ((rsP20).headD 0 % ((rsGm20).getD 20 []).length) '.') =
    Res.ok rsGm21 := by decide!

theorem rsAsg21 : assignF elimFuel (rsGm21) 21
    (((rsGm21).getD 21 []).getD ((rsP21).headD 0 % ((rsGm21).getD 21 []).length) '.') =
    Res.ok rsGm22 := by decide!

theorem rsAsg22 : assignF elimFuel (rsGm22) 22
    (((rsGm22).getD 22 []).getD ((rsP22).headD 0 % ((rsGm22).getD 22 []).length) '.') =
    Res.ok rsGm23 := by decide!

theorem rsAsg23 : assignF elimFuel (rsGm23) 23
    (((rsGm23).getD 23 []).getD ((rsP23).headD 0 % ((rsGm23).getD 23 []).length) '.') =
    Res.ok rsGm24 := by decide!

theorem rsAsg24 : assignF elimFuel (rsGm24) 24
    (((rsGm24).getD 24 []).getD ((rsP24).headD 0 % ((rsGm24).getD 24 []).length) '.') =
    Res.ok rsGm25 := by decide!

theorem rsAsg25 : assignF elimFuel (rsGm25) 25
    (((rsGm25).getD 25 []).getD ((rsP25).headD 0 % ((rsGm25).getD 25 []).length) '.') =
    Res.ok rsGm26 := by decide!

theorem rsAsg26 : assignF elimFuel (rsGm26) 26
    (((rsGm26).getD 26 []).getD ((rsP26).headD 0 % ((rsGm26).getD 26 []).length) '.') =
    Res.ok rsGm27 := by decide!

theorem rsAsg27 : assignF elimFuel (rsGm27) 27
    (((rsGm27).getD 27 []).getD ((rsP27).headD 0 % ((rsGm27).getD 27 []).length) '.') =
    Res.ok rsGm28 := by decide!

theorem rsAsg28 : assignF elimFuel (rsGm28) 28
    (((rsGm28).getD 28 []).getD ((rsP28).headD 0 % ((rsGm28).getD 28 []).length) '.') =
    Res.ok rsGm29 := by decide!

theorem rsAsg29 : assignF elimFuel (rsGm29) 29
    (((rsGm29).getD 29 []).getD ((rsP29).headD 0 % ((rsGm29).getD 29 []).length) '.') =
    Res.ok rsGm30 := by decide!

theorem rsAsg30 : assignF elimFuel (rsGm30) 30
    (((rsGm30).getD 30 []).getD ((rsP30).headD 0 % ((rsGm30).getD 30 []).length) '.') =
    Res.ok rsGm31 := by decide!

theorem rsAsg31 : assignF elimFuel (rsGm31) 31
    (((rsGm31).getD 31 []).getD ((rsP31).headD 0 % ((rsGm31).getD 31 []).length) '.') =
    Res.ok rsGm32 := by decide!

theorem rsAsg32 : assignF elimFuel (rsGm32) 32
    (((rsGm32).getD 32 []).getD ((rsP32).headD 0 % ((rsGm32).getD 32 []).length) '.') =
    Res.ok rsGm33 := by decide!

theorem rsAsg33 : assignF elimFuel (rsGm33) 33
    (((rsGm33).getD 33 []).getD ((rsP33).headD 0 % ((rsGm33).getD 33 []).length) '.') =
    Res.ok rsGm34 := by decide!

theorem rsAsg34 : assignF elimFuel (rsGm34) 34
    (((rsGm34).getD 34 []).getD ((rsP34).headD 0 % ((rsGm34).getD 34 []).length) '.') =
    Res.ok rsGm35 := by decide!

theorem rsAsg35 : assignF elimFuel (rsGm35) 35
    (((rsGm35).getD 35 []).getD ((rsP35).headD 0 % ((rsGm35).getD 35 []).length) '.') =
    Res.ok rsGm36 := by decide!

theorem rsAsg36 : assignF elimFuel (rsGm36) 36
    (((rsGm36).getD 36 []).getD ((rsP36).headD 0 % ((rsGm36).getD 36 []).length) '.') =
    Res.ok rsGm37 := by decide!

theorem rsAsg37 : assignF elimFuel (rsGm37) 37
    (((rsGm37).getD 37 []).getD ((rsP37).headD 0 % ((rsGm37).getD 37 []).length) '.') =
    Res.ok rsGm38 := by decide!

theorem rsAsg38 : assignF elimFuel (rsGm38) 38
    (((rsGm38).getD 38 []).getD ((rsP38).headD 0 % ((rsGm38).getD 38 []).length) '.') =
    Res.ok rsGm39 := by decide!

theorem rsAsg39 : assignF elimFuel (rsGm39) 39
    (((rsGm39).getD 39 []).getD ((rsP39).headD 0 % ((rsGm39).getD 39 []).length) '.') =
    Res.ok rsGm40 := by decide!

theorem rsAsg40 : assignF elimFuel (rsGm40) 40
    (((rsGm40).getD 40 []).getD ((rsP40).headD 0 % ((rsGm40).getD 40 []).length) '.') =
    Res.ok rsGm41 := by decide!

theorem rsAsg41 : assignF elimFuel (rsGm41) 41
    (((rsGm41).getD 41 []).getD ((rsP41).headD 0 % ((rsGm41).getD 41 []).length) '.') =
    Res.ok rsGm42 := by decide!

theorem rsAsg42 : assignF elimFuel (rsGm42) 42
    (((rsGm42).getD 42 []).getD ((rsP42).headD 0 % ((rsGm42).getD 42 []).length) '.') =
    Res.ok rsGm43 := by decide!

theorem rsAsg43 : assignF elimFuel (rsGm43) 43
    (((rsGm43).getD 43 []).getD ((rsP43).headD 0 % ((rsGm43).getD 43 []).length) '.') =
    Res.ok rsGm44 := by decide!

theorem rsAsg44 : assignF elimFuel (rsGm44) 44
    (((rsGm44).getD 44 []).getD ((rsP44).headD 0 % ((rsGm44).getD 44 []).length) '.') =
    Res.ok rsGm45 := by decide!

theorem rsAsg45 : assignF elimFuel (rsGm45) 45
    (((rsGm45).getD 45 []).getD ((rsP45).headD 0 % ((rsGm45).getD 45 []).length) '.') =
    Res.ok rsGm46 := by decide!

theorem rsAsg46 : assignF elimFuel (rsGm46) 46
    (((rsGm46).getD 46 []).getD ((rsP46).headD 0 % ((rsGm46).getD 46 []).length) '.') =
    Res.ok rsGm47 := by decide!

theorem rsAsg47 : assignF elimFuel (rsGm47) 47
    (((rsGm47).getD 47 []).getD ((rsP47).headD 0 % ((rsGm47).getD 47 []).length) '.') =
    Res.ok rsGm48 := by decide!

theorem rsAsg48 : assignF elimFuel (rsGm48) 48
    (((rsGm48).getD 48 []).getD ((rsP48).headD 0 % ((rsGm48).getD 48 []).length) '.') =
    Res.ok rsGm49 := by decide!

theorem rsAsg49 : assignF elimFuel (rsGm49) 49
    (((rsGm49).getD 49 []).getD ((rsP49).headD 0 % ((rsGm49).getD 49 []).length) '.') =
    Res.ok rsGm50 := by decide!

theorem rsAsg50 : assignF elimFuel (rsGm50) 50
    (((rsGm50).getD 50 []).getD ((rsP50).headD 0 % ((rsGm50).getD 50 []).length) '.') =
    Res.ok rsGm51 := by decide!

theorem rsAsg51 : assignF elimFuel (rsGm51) 51
    (((rsGm51).getD 51 []).getD ((rsP51).headD 0 % ((rsGm51).getD 51 []).length) '.') =
    Res.ok rsGm52 := by decide!

theorem rsAsg52 : assignF elimFuel (rsGm52) 52
    (((rsGm52).getD 52 []).getD ((rsP52).headD 0 % ((rsGm52).getD 52 []).length) '.') =
    Res.ok rsGm53 := by decide!

theorem rsAsg53 : assignF elimFuel (rsGm53) 53
    (((rsGm53).getD 53 []).getD ((rsP53).headD 0 % ((rsGm53).getD 53 []).length) '.') =
    Res.ok rsGm54 := by decide!

theorem rsAsg54 : assignF elimFuel (rsGm54) 54
    (((rsGm54).getD 54 []).getD ((rsP54).headD 0 % ((rsGm54).getD 54 []).length) '.') =
    Res.ok rsGm55 := by decide!

theorem rsAsg55 : assignF elimFuel (rsGm55) 55
    (((rsGm55).getD 55 []).getD ((rsP55).headD 0 % ((rsGm55).getD 55 []).length) '.') =
    Res.ok rsGm56 := by decide!

theorem rsAsg56 : assignF elimFuel (rsGm56) 56
    (((rsGm56).getD 56 []).getD ((rsP56).headD 0 % ((rsGm56).getD 56 []).length) '.') =
    Res.ok rsGm57 := by decide!

theorem rsAsg57 : assignF elimFuel (rsGm57) 57
    (((rsGm57).getD 57 []).getD ((rsP57).headD 0 % ((rsGm57).getD 57 []).length) '.') =
    Res.ok rsGm58 := by decide!

theorem rsAsg58 : assignF elimFuel (rsGm58) 58
    (((rsGm58).getD 58 []).getD ((rsP58).headD 0 % ((rsGm58).getD 58 []).length) '.') =
    Res.ok rsGm59 := by decide!

theorem rsAsg59 : assignF elimFuel (rsGm59) 59
    (((rsGm59).getD 59 []).getD ((rsP59).headD 0 % ((rsGm59).getD 59 []).length) '.') =
    Res.ok rsGm60 := by decide!

theorem rsAsg60 : assignF elimFuel (rsGm60) 60
    (((rsGm60).getD 60 []).getD ((rsP60).headD 0 % ((rsGm60).getD 60 []).length) '.') =
    Res.ok rsGm61 := by decide!

theorem rsAsg61 : assignF elimFuel (rsGm61) 61
    (((rsGm61).getD 61 []).getD ((rsP61).headD 0 % ((rsGm61).getD 61 []).length) '.') =
    Res.ok rsGm62 := by decide!

theorem rsAsg62 : assignF elimFuel (rsGm62) 62
    (((rsGm62).getD 62 []).getD ((rsP62).headD 0 % ((rsGm62).getD 62 []).length) '.') =
    Res.ok rsGm63 := by decide!

theorem rsAsg63 : assignF elimFuel (rsGm63) 63
    (((rsGm63).getD 63 []).getD ((rsP63).headD 0 % ((rsGm63).getD 63 []).length) '.') =
    Res.ok rsGm64 := by decide!

theorem rsAsg64 : assignF elimFuel (rsGm64) 64
    (((rsGm64).getD 64 []).getD ((rsP64).headD 0 % ((rsGm64).getD 64 []).length) '.') =
    Res.ok rsGm65 := by decide!

theorem rsAsg65 : assignF elimFuel (rsGm65) 65
    (((rsGm65).getD 65 []).getD ((rsP65).headD 0 % ((rsGm65).getD 65 []).length) '.') =
    Res.ok rsGm66 := by decide!

theorem rsAsg66 : assignF elimFuel (rsGm66) 66
    (((rsGm66).getD 66 []).getD ((rsP66).headD 0 % ((rsGm66).getD 66 []).length) '.') =
    Res.ok rsGm67 := by decide!

theorem rsAsg67 : assignF elimFuel (rsGm67) 67
    (((rsGm67).getD 67 []).getD ((rsP67).headD 0 % ((rsGm67).getD 67 []).length) '.') =
    Res.ok rsGm68 := by decide!

theorem rsAsg68 : assignF elimFuel (rsGm68) 68
    (((rsGm68).getD 68 []).getD ((rsP68).headD 0 % ((rsGm68).getD 68 []).length) '.') =
    Res.ok rsGm69 := by decide!

theorem rsAsg69 : assignF elimFuel (rsGm69) 69
    (((rsGm69).getD 69 []).getD ((rsP69).headD 0 % ((rsGm69).getD 69 []).length) '.') =
    Res.ok rsGm70 := by decide!

theorem rsAsg70 : assignF elimFuel (rsGm70) 70
    (((rsGm70).getD 70 []).getD ((rsP70).headD 0 % ((rsGm70).getD 70 []).length) '.') =
    Res.ok rsGm71 := by decide!

theorem rsAsg71 : assignF elimFuel (rsGm71) 71
    (((rsGm71).getD 71 []).getD ((rsP71).headD 0 % ((rsGm71).getD 71 []).length) '.') =
    Res.ok rsGm72 := by decide!

theorem rsAsg72 : assignF elimFuel (rsGm72) 72
    (((rsGm72).getD 72 []).getD ((rsP72).headD 0 % ((rsGm72).getD 72 []).length) '.') =
    Res.ok rsGm73 := by decide!

theorem rsAsg73 : assignF elimFuel (rsGm73) 73
    (((rsGm73).getD 73 []).getD ((rsP73).headD 0 % ((rsGm73).getD 73 []).length) '.') =
    Res.ok rsGm74 := by decide!

theorem rsAsg74 : assignF elimFuel (rsGm74) 74
    (((rsGm74).getD 74 []).getD ((rsP74).headD 0 % ((rsGm74).getD 74 []).length) '.') =
    Res.ok rsGm75 := by decide!

theorem rsAsg75 : assignF elimFuel (rsGm75) 75
    (((rsGm75).getD 75 []).getD ((rsP75).headD 0 % ((rsGm75).getD 75 []).length) '.') =
    Res.ok rsGm76 := by decide!

theorem rsAsg76 : assignF elimFuel (rsGm76) 76
    (((rsGm76).getD 76 []).getD ((rsP76).headD 0 % ((rsGm76).getD 76 []).length) '.') =
    Res.ok rsGm77 := by decide!

theorem rsAsg77 : assignF elimFuel (rsGm77) 77
    (((rsGm77).getD 77 []).getD ((rsP77).headD 0 % ((rsGm77).getD 77 []).length) '.') =
    Res.ok rsGm78 := by decide!

theorem rsAsg78 : assignF elimFuel (rsGm78) 78
    (((rsGm78).getD 78 []).getD ((rsP78).headD 0 % ((rsGm78).getD 78 []).length) '.') =
    Res.ok rsGm79 := by decide!

theorem rsAsg79 : assignF elimFuel (rsGm79) 79
    (((rsGm79).getD 79 []).getD ((rsP79).headD 0 % ((rsGm79).getD 79 []).length) '.') =
    Res.ok rsGm80 := by decide!

/-- Kernel evaluation, one loop step at a time: the recorded generator
run succeeds and returns `(puzzle80, fullS)`. -/
theorem random_grid_eval :
    random_grid 80 false stdDigits (List.range 81) genPicks = some (puzzle80, fullS) := by
  show randomStep 80 false (List.range 81) (gridMapAllDigits stdDigits) [] genPicks =
    some (puzzle80, fullS)
  rw [show (List.range 81) = [0, 1, 2, 3, 4, 5, 6, 7, 8, 9, 10, 11, 12, 13, 14, 15, 16, 17, 18, 19, 20, 21, 22, 23, 24, 25, 26, 27, 28, 29, 30, 31, 32, 33, 34, 35, 36, 37, 38, 39, 40, 41, 42, 43, 44, 45, 46, 47, 48, 49, 50, 51, 52, 53, 54, 55, 56, 57, 58, 59, 60, 61, 62, 63, 64, 65, 66, 67, 68, 69, 70, 71, 72, 73, 74, 75, 76, 77, 78, 79, 80] from by decide]
  rw [randomStep_cons_ok [0] rsP1 (by decide) rsAsg0 (by decide) rfl (by decide)]
  rw [randomStep_cons_ok [0, 1] rsP2 (by decide) rsAsg1 (by decide) rfl (by decide)]
  rw [randomStep_cons_ok [0, 1, 2] rsP3 (by decide) rsAsg2 (by decide) rfl (by decide)]
  rw [randomStep_cons_ok [0, 1, 2, 3] rsP4 (by decide) rsAsg3 (by decide) rfl (by decide)]
  rw [randomStep_cons_ok [0, 1, 2, 3, 4] rsP5 (by decide) rsAsg4 (by decide) rfl (by decide)]
  rw [randomStep_cons_ok [0, 1, 2, 3, 4, 5] rsP6 (by decide) rsAsg5 (by decide) rfl (by decide)]
  rw [randomStep_cons_ok [0, 1, 2, 3, 4, 5, 6] rsP7 (by decide) rsAsg6 (by decide) rfl (by decide)]
  rw [randomStep_cons_ok [0, 1, 2, 3, 4, 5, 6, 7] rsP8 (by decide) rsAsg7 (by decide) rfl (by decide)]
  rw [randomStep_cons_ok [0, 1, 2, 3, 4, 5, 6, 7, 8] rsP9 (by decide) rsAsg8 (by decide) rfl (by decide)]
  rw [randomStep_cons_ok [0, 1, 2, 3, 4, 5, 6, 7, 8, 9] rsP10 (by decide) rsAsg9 (by decide) rfl (by decide)]
  rw [randomStep_cons_ok [0, 1, 2, 3, 4, 5, 6, 7, 8, 9, 10] rsP11 (by decide) rsAsg10 (by decide) rfl (by decide)]
  rw [randomStep_cons_ok [0, 1, 2, 3, 4, 5, 6, 7, 8, 9, 10, 11] rsP12 (by decide) rsAsg11 (by decide) rfl (by decide)]
  rw [randomStep_cons_ok [0, 1, 2, 3, 4, 5, 6, 7, 8, 9, 10, 11, 12] rsP13 (by decide) rsAsg12 (by decide) rfl (by decide)]
  rw [randomStep_cons_ok [0, 1, 2, 3, 4, 5, 6, 7, 8, 9, 10, 11, 12, 13] rsP14 (by decide) rsAsg13 (by decide) rfl (by decide)]
  rw [randomStep_cons_ok [0, 1, 2, 3, 4, 5, 6, 7, 8, 9, 10, 11, 12, 13, 14] rsP15 (by decide) rsAsg14 (by decide) rfl (by decide)]
  rw [randomStep_cons_ok [0, 1, 2, 3, 4, 5, 6, 7, 8, 9, 10, 11, 12, 13, 14, 15] rsP16 (by decide) rsAsg15 (by decide) rfl (by decide)]
  rw [randomStep_cons_ok [0, 1, 2, 3, 4, 5, 6, 7, 8, 9, 10, 11, 12, 13, 14, 15, 16] rsP17 (by decide) rsAsg16 (by decide) rfl (by decide)]
  rw [randomStep_cons_ok [0, 1, 2, 3, 4, 5, 6, 7, 8, 9, 10, 11, 12, 13, 14, 15, 16, 17] rsP18 (by decide) rsAsg17 (by decide) rfl (by decide)]
  rw [randomStep_cons_ok [0, 1, 2, 3, 4, 5, 6, 7, 8, 9, 10, 11, 12, 13, 14, 15, 16, 17, 18] rsP19 (by decide) rsAsg18 (by decide) rfl (by decide)]
  rw [randomStep_cons_ok [0, 1, 2, 3, 4, 5, 6, 7, 8, 9, 10, 11, 12, 13, 14, 15, 16, 17, 18, 19] rsP20 (by decide) rsAsg19 (by decide) rfl (by decide)]
  rw [randomStep_cons_ok [0, 1, 2, 3, 4, 5, 6, 7, 8, 9, 10, 11, 12, 13, 14, 15, 16, 17, 18, 19, 20] rsP21 (by decide) rsAsg20 (by decide) rfl (by decide)]
  rw [randomStep_cons_ok [0, 1, 2, 3, 4, 5, 6, 7, 8, 9, 10, 11, 12, 13, 14, 15, 16, 17, 18, 19, 20, 21] rsP22 (by decide) rsAsg21 (by decide) rfl (by decide)]
  rw [randomStep_cons_ok [0, 1, 2, 3, 4, 5, 6, 7, 8, 9, 10, 11, 12, 13, 14, 15, 16, 17, 18, 19, 20, 21, 22] rsP23 (by decide) rsAsg22 (by decide) rfl (by decide)]
  rw [randomStep_cons_ok [0, 1, 2, 3, 4, 5, 6, 7, 8, 9, 10, 11, 12, 13, 14, 15, 16, 17, 18, 19, 20, 21, 22, 23] rsP24 (by decide) rsAsg23 (by decide) rfl (by decide)]
  rw [randomStep_cons_ok [0, 1, 2, 3, 4, 5, 6, 7, 8, 9, 10, 11, 12, 13, 14, 15, 16, 17, 18, 19, 20, 21, 22, 23, 24] rsP25 (by decide) rsAsg24 (by decide) rfl (by decide)]
  rw [randomStep_cons_ok [0, 1, 2, 3, 4, 5, 6, 7, 8, 9, 10, 11, 12, 13, 14, 15, 16, 17, 18, 19, 20, 21, 22, 23, 24, 25] rsP26 (by decide) rsAsg25 (by decide) rfl (by decide)]
  rw [randomStep_cons_ok [0, 1, 2, 3, 4, 5, 6, 7, 8, 9, 10, 11, 12, 13, 14, 15, 16, 17, 18, 19, 20, 21, 22, 23, 24, 25, 26] rsP27 (by decide) rsAsg26 (by decide) rfl (by decide)]
  rw [randomStep_cons_ok [0, 1, 2, 3, 4, 5, 6, 7, 8, 9, 10, 11, 12, 13, 14, 15, 16, 17, 18, 19, 20, 21, 22, 23, 24, 25, 26, 27] rsP28 (by decide) rsAsg27 (by decide) rfl (by decide)]
  rw [randomStep_cons_ok [0, 1, 2, 3, 4, 5, 6, 7, 8, 9, 10, 11, 12, 13, 14, 15, 16, 17, 18, 19, 20, 21, 22, 23, 24, 25, 26, 27, 28] rsP29 (by decide) rsAsg28 (by decide) rfl (by decide)]
  rw [randomStep_cons_ok [0, 1, 2, 3, 4, 5, 6, 7, 8, 9, 10, 11, 12, 13, 14, 15, 16, 17, 18, 19, 20, 21, 22, 23, 24, 25, 26, 27, 28, 29] rsP30 (by decide) rsAsg29 (by decide) rfl (by decide)]
  rw [randomStep_cons_ok [0, 1, 2, 3, 4, 5, 6, 7, 8, 9, 10, 11, 12, 13, 14, 15, 16, 17, 18, 19, 20, 21, 22, 23, 24, 25, 26, 27, 28, 29, 30] rsP31 (by decide) rsAsg30 (by decide) rfl (by decide)]
  rw [randomStep_cons_ok [0, 1, 2, 3, 4, 5, 6, 7, 8, 9, 10, 11, 12, 13, 14, 15, 16, 17, 18, 19, 20, 21, 22, 23, 24, 25, 26, 27, 28, 29, 30, 31] rsP32 (by decide) rsAsg31 (by decide) rfl (by decide)]
  rw [randomStep_cons_ok [0, 1, 2, 3, 4, 5, 6, 7, 8, 9, 10, 11, 12, 13, 14, 15, 16, 17, 18, 19, 20, 21, 22, 23, 24, 25, 26, 27, 28, 29, 30, 31, 32] rsP33 (by decide) rsAsg32 (by decide) rfl (by decide)]
  rw [randomStep_cons_ok [0, 1, 2, 3, 4, 5, 6, 7, 8, 9, 10, 11, 12, 13, 14, 15, 16, 17, 18, 19, 20, 21, 22, 23, 24, 25, 26, 27, 28, 29, 30, 31, 32, 33] rsP34 (by decide) rsAsg33 (by decide) rfl (by decide)]
  rw [randomStep_cons_ok [0, 1, 2, 3, 4, 5, 6, 7, 8, 9, 10, 11, 12, 13, 14, 15, 16, 17, 18, 19, 20, 21, 22, 23, 24, 25, 26, 27, 28, 29, 30, 31, 32, 33, 34] rsP35 (by decide) rsAsg34 (by decide) rfl (by decide)]
  rw [randomStep_cons_ok [0, 1, 2, 3, 4, 5, 6, 7, 8, 9, 10, 11, 12, 13, 14, 15, 16, 17, 18, 19, 20, 21, 22, 23, 24, 25, 26, 27, 28, 29, 30, 31, 32, 33, 34, 35] rsP36 (by decide) rsAsg35 (by decide) rfl (by decide)]
  rw [randomStep_cons_ok [0, 1, 2, 3, 4, 5, 6, 7, 8, 9, 10, 11, 12, 13, 14, 15, 16, 17, 18, 19, 20, 21, 22, 23, 24, 25, 26, 27, 28, 29, 30, 31, 32, 33, 34, 35, 36] rsP37 (by decide) rsAsg36 (by decide) rfl (by decide)]
  rw [randomStep_cons_ok [0, 1, 2, 3, 4, 5, 6, 7, 8, 9, 10, 11, 12, 13, 14, 15, 16, 17, 18, 19, 20, 21, 22, 23, 24, 25, 26, 27, 28, 29, 30, 31, 32, 33, 34, 35, 36, 37] rsP38 (by decide) rsAsg37 (by decide) rfl (by decide)]
  rw [randomStep_cons_ok [0, 1, 2, 3, 4, 5, 6, 7, 8, 9, 10, 11, 12, 13, 14, 15, 16, 17, 18, 19, 20, 21, 22, 23, 24, 25, 26, 27, 28, 29, 30, 31, 32, 33, 34, 35, 36, 37, 38] rsP39 (by decide) rsAsg38 (by decide) rfl (by decide)]
  rw [randomStep_cons_ok [0, 1, 2, 3, 4, 5, 6, 7, 8, 9, 10, 11, 12, 13, 14, 15, 16, 17, 18, 19, 20, 21, 22, 23, 24, 25, 26, 27, 28, 29, 30, 31, 32, 33, 34, 35, 36, 37, 38, 39] rsP40 (by decide) rsAsg39 (by decide) rfl (by decide)]
  rw [randomStep_cons_ok [0, 1, 2, 3, 4, 5, 6, 7, 8, 9, 10, 11, 12, 13, 14, 15, 16, 17, 18, 19, 20, 21, 22, 23, 24, 25, 26, 27, 28, 29, 30, 31, 32, 33, 34, 35, 36, 37, 38, 39, 40] rsP41 (by decide) rsAsg40 (by decide) rfl (by decide)]
  rw [randomStep_cons_ok [0, 1, 2, 3, 4, 5, 6, 7, 8, 9, 10, 11, 12, 13, 14, 15, 16, 17, 18, 19, 20, 21, 22, 23, 24, 25, 26, 27, 28, 29, 30, 31, 32, 33, 34, 35, 36, 37, 38, 39, 40, 41] rsP42 (by decide) rsAsg41 (by decide) rfl (by decide)]
  rw [randomStep_cons_ok [0, 1, 2, 3, 4, 5, 6, 7, 8, 9, 10, 11, 12, 13, 14, 15, 16, 17, 18, 19, 20, 21, 22, 23, 24, 25, 26, 27, 28, 29, 30, 31, 32, 33, 34, 35, 36, 37, 38, 39, 40, 41, 42] rsP43 (by decide) rsAsg42 (by decide) rfl (by decide)]
  rw [randomStep_cons_ok [0, 1, 2, 3, 4, 5, 6, 7, 8, 9, 10, 11, 12, 13, 14, 15, 16, 17, 18, 19, 20, 21, 22, 23, 24, 25, 26, 27, 28, 29, 30, 31, 32, 33, 34, 35, 36, 37, 38, 39, 40, 41, 42, 43] rsP44 (by decide) rsAsg43 (by decide) rfl (by decide)]
  rw [randomStep_cons_ok [0, 1, 2, 3, 4, 5, 6, 7, 8, 9, 10, 11, 12, 13, 14, 15, 16, 17, 18, 19, 20, 21, 22, 23, 24, 25, 26, 27, 28, 29, 30, 31, 32, 33, 34, 35, 36, 37, 38, 39, 40, 41, 42, 43, 44] rsP45 (by decide) rsAsg44 (by decide) rfl (by decide)]
  rw [randomStep_cons_ok [0, 1, 2, 3, 4, 5, 6, 7, 8, 9, 10, 11, 12, 13, 14, 15, 16, 17, 18, 19, 20, 21, 22, 23, 24, 25, 26, 27, 28, 29, 30, 31, 32, 33, 34, 35, 36, 37, 38, 39, 40, 41, 42, 43, 44, 45] rsP46 (by decide) rsAsg45 (by decide) rfl (by decide)]
  rw [randomStep_cons_ok [0, 1, 2, 3, 4, 5, 6, 7, 8, 9, 10, 11, 12, 13, 14, 15, 16, 17, 18, 19, 20, 21, 22, 23, 24, 25, 26, 27, 28, 29, 30, 31, 32, 33, 34, 35, 36, 37, 38, 39, 40, 41, 42, 43, 44, 45, 46] rsP47 (by decide) rsAsg46 (by decide) rfl (by decide)]
  rw [randomStep_cons_ok [0, 1, 2, 3, 4, 5, 6, 7, 8, 9, 10, 11, 12, 13, 14, 15, 16, 17, 18, 19, 20, 21, 22, 23, 24, 25, 26, 27, 28, 29, 30, 31, 32, 33, 34, 35, 36, 37, 38, 39, 40, 41, 42, 43, 44, 45, 46, 47] rsP48 (by decide) rsAsg47 (by decide) rfl (by decide)]
  rw [randomStep_cons_ok [0, 1, 2, 3, 4, 5, 6, 7, 8, 9, 10, 11, 12, 13, 14, 15, 16, 17, 18, 19, 20, 21, 22, 23, 24, 25, 26, 27, 28, 29, 30, 31, 32, 33, 34, 35, 36, 37, 38, 39, 40, 41, 42, 43, 44, 45, 46, 47, 48] rsP49 (by decide) rsAsg48 (by decide) rfl (by decide)]
  rw [randomStep_cons_ok [0, 1, 2, 3, 4, 5, 6, 7, 8, 9, 10, 11, 12, 13, 14, 15, 16, 17, 18, 19, 20, 21, 22, 23, 24, 25, 26, 27, 28, 29, 30, 31, 32, 33, 34, 35, 36, 37, 38, 39, 40, 41, 42, 43, 44, 45, 46, 47, 48, 49] rsP50 (by decide) rsAsg49 (by decide) rfl (by decide)]
  rw [randomStep_cons_ok [0, 1, 2, 3, 4, 5, 6, 7, 8, 9, 10, 11, 12, 13, 14, 15, 16, 17, 18, 19, 20, 21, 22, 23, 24, 25, 26, 27, 28, 29, 30, 31, 32, 33, 34, 35, 36, 37, 38, 39, 40, 41, 42, 43, 44, 45, 46, 47, 48, 49, 50] rsP51 (by decide) rsAsg50 (by decide) rfl (by decide)]
  rw [randomStep_cons_ok [0, 1, 2, 3, 4, 5, 6, 7, 8, 9, 10, 11, 12, 13, 14, 15, 16, 17, 18, 19, 20, 21, 22, 23, 24, 25, 26, 27, 28, 29, 30, 31, 32, 33, 34, 35, 36, 37, 38, 39, 40, 41, 42, 43, 44, 45, 46, 47, 48, 49, 50, 51] rsP52 (by decide) rsAsg51 (by decide) rfl (by decide)]
  rw [randomStep_cons_ok [0, 1, 2, 3, 4, 5, 6, 7, 8, 9, 10, 11, 12, 13, 14, 15, 16, 17, 18, 19, 20, 21, 22, 23, 24, 25, 26, 27, 28, 29, 30, 31, 32, 33, 34, 35, 36, 37, 38, 39, 40, 41, 42, 43, 44, 45, 46, 47, 48, 49, 50, 51, 52] rsP53 (by decide) rsAsg52 (by decide) rfl (by decide)]
  rw [randomStep_cons_ok [0, 1, 2, 3, 4, 5, 6, 7, 8, 9, 10, 11, 12, 13, 14, 15, 16, 17, 18, 19, 20, 21, 22, 23, 24, 25, 26, 27, 28, 29, 30, 31, 32, 33, 34, 35, 36, 37, 38, 39, 40, 41, 42, 43, 44, 45, 46, 47, 48, 49, 50, 51, 52, 53] rsP54 (by decide) rsAsg53 (by decide) rfl (by decide)]
  rw [randomStep_cons_ok [0, 1, 2, 3, 4, 5, 6, 7, 8, 9, 10, 11, 12, 13, 14, 15, 16, 17, 18, 19, 20, 21, 22, 23, 24, 25, 26, 27, 28, 29, 30, 31, 32, 33, 34, 35, 36, 37, 38, 39, 40, 41, 42, 43, 44, 45, 46, 47, 48, 49, 50, 51, 52, 53, 54] rsP55 (by decide) rsAsg54 (by decide) rfl (by decide)]
  rw [randomStep_cons_ok [0, 1, 2, 3, 4, 5, 6, 7, 8, 9, 10, 11, 12, 13, 14, 15, 16, 17, 18, 19, 20, 21, 22, 23, 24, 25, 26, 27, 28, 29, 30, 31, 32, 33, 34, 35, 36, 37, 38, 39, 40, 41, 42, 43, 44, 45, 46, 47, 48, 49, 50, 51, 52, 53, 54, 55] rsP56 (by decide) rsAsg55 (by decide) rfl (by decide)]
  rw [randomStep_cons_ok [0, 1, 2, 3, 4, 5, 6, 7, 8, 9, 10, 11, 12, 13, 14, 15, 16, 17, 18, 19, 20, 21, 22, 23, 24, 25, 26, 27, 28, 29, 30, 31, 32, 33, 34, 35, 36, 37, 38, 39, 40, 41, 42, 43, 44, 45, 46, 47, 48, 49, 50, 51, 52, 53, 54, 55, 56] rsP57 (by decide) rsAsg56 (by decide) rfl (by decide)]
  rw [randomStep_cons_ok [0, 1, 2, 3, 4, 5, 6, 7, 8, 9, 10, 11, 12, 13, 14, 15, 16, 17, 18, 19, 20, 21, 22, 23, 24, 25, 26, 27, 28, 29, 30, 31, 32, 33, 34, 35, 36, 37, 38, 39, 40, 41, 42, 43, 44, 45, 46, 47, 48, 49, 50, 51, 52, 53, 54, 55, 56, 57] rsP58 (by decide) rsAsg57 (by decide) rfl (by decide)]
  rw [randomStep_cons_ok [0, 1, 2, 3, 4, 5, 6, 7, 8, 9, 10, 11, 12, 13, 14, 15, 16, 17, 18, 19, 20, 21, 22, 23, 24, 25, 26, 27, 28, 29, 30, 31, 32, 33, 34, 35, 36, 37, 38, 39, 40, 41, 42, 43, 44, 45, 46, 47, 48, 49, 50, 51, 52, 53, 54, 55, 56, 57, 58] rsP59 (by decide) rsAsg58 (by decide) rfl (by decide)]
  rw [randomStep_cons_ok [0, 1, 2, 3, 4, 5, 6, 7, 8, 9, 10, 11, 12, 13, 14, 15, 16, 17, 18, 19, 20, 21, 22, 23, 24, 25, 26, 27, 28, 29, 30, 31, 32, 33, 34, 35, 36, 37, 38, 39, 40, 41, 42, 43, 44, 45, 46, 47, 48, 49, 50, 51, 52, 53, 54, 55, 56, 57, 58, 59] rsP60 (by decide) rsAsg59 (by decide) rfl (by decide)]
  rw [randomStep_cons_ok [0, 1, 2, 3, 4, 5, 6, 7, 8, 9, 10, 11, 12, 13, 14, 15, 16, 17, 18, 19, 20, 21, 22, 23, 24, 25, 26, 27, 28, 29, 30, 31, 32, 33, 34, 35, 36, 37, 38, 39, 40, 41, 42, 43, 44, 45, 46, 47, 48, 49, 50, 51, 52, 53, 54, 55, 56, 57, 58, 59, 60] rsP61 (by decide) rsAsg60 (by decide) rfl (by decide)]
  rw [randomStep_cons_ok [0, 1, 2, 3, 4, 5, 6, 7, 8, 9, 10, 11, 12, 13, 14, 15, 16, 17, 18, 19, 20, 21, 22, 23, 24, 25, 26, 27, 28, 29, 30, 31, 32, 33, 34, 35, 36, 37, 38, 39, 40, 41, 42, 43, 44, 45, 46, 47, 48, 49, 50, 51, 52, 53, 54, 55, 56, 57, 58, 59, 60, 61] rsP62 (by decide) rsAsg61 (by decide) rfl (by decide)]
  rw [randomStep_cons_ok [0, 1, 2, 3, 4, 5, 6, 7, 8, 9, 10, 11, 12, 13, 14, 15, 16, 17, 18, 19, 20, 21, 22, 23, 24, 25, 26, 27, 28, 29, 30, 31, 32, 33, 34, 35, 36, 37, 38, 39, 40, 41, 42, 43, 44, 45, 46, 47, 48, 49, 50, 51, 52, 53, 54, 55, 56, 57, 58, 59, 60, 61, 62] rsP63 (by decide) rsAsg62 (by decide) rfl (by decide)]
  rw [randomStep_cons_ok [0, 1, 2, 3, 4, 5, 6, 7, 8, 9, 10, 11, 12, 13, 14, 15, 16, 17, 18, 19, 20, 21, 22, 23, 24, 25, 26, 27, 28, 29, 30, 31, 32, 33, 34, 35, 36, 37, 38, 39, 40, 41, 42, 43, 44, 45, 46, 47, 48, 49, 50, 51, 52, 53, 54, 55, 56, 57, 58, 59, 60, 61, 62, 63] rsP64 (by decide) rsAsg63 (by decide) rfl (by decide)]
  rw [randomStep_cons_ok [0, 1, 2, 3, 4, 5, 6, 7, 8, 9, 10, 11, 12, 13, 14, 15, 16, 17, 18, 19, 20, 21, 22, 23, 24, 25, 26, 27, 28, 29, 30, 31, 32, 33, 34, 35, 36, 37, 38, 39, 40, 41, 42, 43, 44, 45, 46, 47, 48, 49, 50, 51, 52, 53, 54, 55, 56, 57, 58, 59, 60, 61, 62, 63, 64] rsP65 (by decide) rsAsg64 (by decide) rfl (by decide)]
  rw [randomStep_cons_ok [0, 1, 2, 3, 4, 5, 6, 7, 8, 9, 10, 11, 12, 13, 14, 15, 16, 17, 18, 19, 20, 21, 22, 23, 24, 25, 26, 27, 28, 29, 30, 31, 32, 33, 34, 35, 36, 37, 38, 39, 40, 41, 42, 43, 44, 45, 46, 47, 48, 49, 50, 51, 52, 53, 54, 55, 56, 57, 58, 59, 60, 61, 62, 63, 64, 65] rsP66 (by decide) rsAsg65 (by decide) rfl (by decide)]
  rw [randomStep_cons_ok [0, 1, 2, 3, 4, 5, 6, 7, 8, 9, 10, 11, 12, 13, 14, 15, 16, 17, 18, 19, 20, 21, 22, 23, 24, 25, 26, 27, 28, 29, 30, 31, 32, 33, 34, 35, 36, 37, 38, 39, 40, 41, 42, 43, 44, 45, 46, 47, 48, 49, 50, 51, 52, 53, 54, 55, 56, 57, 58, 59, 60, 61, 62, 63, 64, 65, 66] rsP67 (by decide) rsAsg66 (by decide) rfl (by decide)]
  rw [randomStep_cons_ok [0, 1, 2, 3, 4, 5, 6, 7, 8, 9, 10, 11, 12, 13, 14, 15, 16, 17, 18, 19, 20, 21, 22, 23, 24, 25, 26, 27, 28, 29, 30, 31, 32, 33, 34, 35, 36, 37, 38, 39, 40, 41, 42, 43, 44, 45, 46, 47, 48, 49, 50, 51, 52, 53, 54, 55, 56, 57, 58, 59, 60, 61, 62, 63, 64, 65, 66, 67] rsP68 (by decide) rsAsg67 (by decide) rfl (by decide)]
  rw [randomStep_cons_ok [0, 1, 2, 3, 4, 5, 6, 7, 8, 9, 10, 11, 12, 13, 14, 15, 16, 17, 18, 19, 20, 21, 22, 23, 24, 25, 26, 27, 28, 29, 30, 31, 32, 33, 34, 35, 36, 37, 38, 39, 40, 41, 42, 43, 44, 45, 46, 47, 48, 49, 50, 51, 52, 53, 54, 55, 56, 57, 58, 59, 60, 61, 62, 63, 64, 65, 66, 67, 68] rsP69 (by decide) rsAsg68 (by decide) rfl (by decide)]
  rw [randomStep_cons_ok [0, 1, 2, 3, 4, 5, 6, 7, 8, 9, 10, 11, 12, 13, 14, 15, 16, 17, 18, 19, 20, 21, 22, 23, 24, 25, 26, 27, 28, 29, 30, 31, 32, 33, 34, 35, 36, 37, 38, 39, 40, 41, 42, 43, 44, 45, 46, 47, 48, 49, 50, 51, 52, 53, 54, 55, 56, 57, 58, 59, 60, 61, 62, 63, 64, 65, 66, 67, 68, 69] rsP70 (by decide) rsAsg69 (by decide) rfl (by decide)]
  rw [randomStep_cons_ok [0, 1, 2, 3, 4, 5, 6, 7, 8, 9, 10, 11, 12, 13, 14, 15, 16, 17, 18, 19, 20, 21, 22, 23, 24, 25, 26, 27, 28, 29, 30, 31, 32, 33, 34, 35, 36, 37, 38, 39, 40, 41, 42, 43, 44, 45, 46, 47, 48, 49, 50, 51, 52, 53, 54, 55, 56, 57, 58, 59, 60, 61, 62, 63, 64, 65, 66, 67, 68, 69, 70] rsP71 (by decide) rsAsg70 (by decide) rfl (by decide)]
  rw [randomStep_cons_ok [0, 1, 2, 3, 4, 5, 6, 7, 8, 9, 10, 11, 12, 13, 14, 15, 16, 17, 18, 19, 20, 21, 22, 23, 24, 25, 26, 27, 28, 29, 30, 31, 32, 33, 34, 35, 36, 37, 38, 39, 40, 41, 42, 43, 44, 45, 46, 47, 48, 49, 50, 51, 52, 53, 54, 55, 56, 57, 58, 59, 60, 61, 62, 63, 64, 65, 66, 67, 68, 69, 70, 71] rsP72 (by decide) rsAsg71 (by decide) rfl (by decide)]
  rw [randomStep_cons_ok [0, 1, 2, 3, 4, 5, 6, 7, 8, 9, 10, 11, 12, 13, 14, 15, 16, 17, 18, 19, 20, 21, 22, 23, 24, 25, 26, 27, 28, 29, 30, 31, 32, 33, 34, 35, 36, 37, 38, 39, 40, 41, 42, 43, 44, 45, 46, 47, 48, 49, 50, 51, 52, 53, 54, 55, 56, 57, 58, 59, 60, 61, 62, 63, 64, 65, 66, 67, 68, 69, 70, 71, 72] rsP73 (by decide) rsAsg72 (by decide) rfl (by decide)]
  rw [randomStep_cons_ok [0, 1, 2, 3, 4, 5, 6, 7, 8, 9, 10, 11, 12, 13, 14, 15, 16, 17, 18, 19, 20, 21, 22, 23, 24, 25, 26, 27, 28, 29, 30, 31, 32, 33, 34, 35, 36, 37, 38, 39, 40, 41, 42, 43, 44, 45, 46, 47, 48, 49, 50, 51, 52, 53, 54, 55, 56, 57, 58, 59, 60, 61, 62, 63, 64, 65, 66, 67, 68, 69, 70, 71, 72, 73] rsP74 (by decide) rsAsg73 (by decide) rfl (by decide)]
  rw [randomStep_cons_ok [0, 1, 2, 3, 4, 5, 6, 7, 8, 9, 10, 11, 12, 13, 14, 15, 16, 17, 18, 19, 20, 21, 22, 23, 24, 25, 26, 27, 28, 29, 30, 31, 32, 33, 34, 35, 36, 37, 38, 39, 40, 41, 42, 43, 44, 45, 46, 47, 48, 49, 50, 51, 52, 53, 54, 55, 56, 57, 58, 59, 60, 61, 62, 63, 64, 65, 66, 67, 68, 69, 70, 71, 72, 73, 74] rsP75 (by decide) rsAsg74 (by decide) rfl (by decide)]
  rw [randomStep_cons_ok [0, 1, 2, 3, 4, 5, 6, 7, 8, 9, 10, 11, 12, 13, 14, 15, 16, 17, 18, 19, 20, 21, 22, 23, 24, 25, 26, 27, 28, 29, 30, 31, 32, 33, 34, 35, 36, 37, 38, 39, 40, 41, 42, 43, 44, 45, 46, 47, 48, 49, 50, 51, 52, 53, 54, 55, 56, 57, 58, 59, 60, 61, 62, 63, 64, 65, 66, 67, 68, 69, 70, 71, 72, 73, 74, 75] rsP76 (by decide) rsAsg75 (by decide) rfl (by decide)]
  rw [randomStep_cons_ok [0, 1, 2, 3, 4, 5, 6, 7, 8, 9, 10, 11, 12, 13, 14, 15, 16, 17, 18, 19, 20, 21, 22, 23, 24, 25, 26, 27, 28, 29, 30, 31, 32, 33, 34, 35, 36, 37, 38, 39, 40, 41, 42, 43, 44, 45, 46, 47, 48, 49, 50, 51, 52, 53, 54, 55, 56, 57, 58, 59, 60, 61, 62, 63, 64, 65, 66, 67, 68, 69, 70, 71, 72, 73, 74, 75, 76] rsP77 (by decide) rsAsg76 (by decide) rfl (by decide)]
  rw [randomStep_cons_ok [0, 1, 2, 3, 4, 5, 6, 7, 8, 9, 10, 11, 12, 13, 14, 15, 16, 17, 18, 19, 20, 21, 22, 23, 24, 25, 26, 27, 28, 29, 30, 31, 32, 33, 34, 35, 36, 37, 38, 39, 40, 41, 42, 43, 44, 45, 46, 47, 48, 49, 50, 51, 52, 53, 54, 55, 56, 57, 58, 59, 60, 61, 62, 63, 64, 65, 66, 67, 68, 69, 70, 71, 72, 73, 74, 75, 76, 77] rsP78 (by decide) rsAsg77 (by decide) rfl (by decide)]
  rw [randomStep_cons_ok [0, 1, 2, 3, 4, 5, 6, 7, 8, 9, 10, 11, 12, 13, 14, 15, 16, 17, 18, 19, 20, 21, 22, 23, 24, 25, 26, 27, 28, 29, 30, 31, 32, 33, 34, 35, 36, 37, 38, 39, 40, 41, 42, 43, 44, 45, 46, 47, 48, 49, 50, 51, 52, 53, 54, 55, 56, 57, 58, 59, 60, 61, 62, 63, 64, 65, 66, 67, 68, 69, 70, 71, 72, 73, 74, 75, 76, 77, 78] rsP79 (by decide) rsAsg78 (by decide) rfl (by decide)]
  exact randomStep_cons_done [0, 1, 2, 3, 4, 5, 6, 7, 8, 9, 10, 11, 12, 13, 14, 15, 16, 17, 18, 19, 20, 21, 22, 23, 24, 25, 26, 27, 28, 29, 30, 31, 32, 33, 34, 35, 36, 37, 38, 39, 40, 41, 42, 43, 44, 45, 46, 47, 48, 49, 50, 51, 52, 53, 54, 55, 56, 57, 58, 59, 60, 61, 62, 63, 64, 65, 66, 67, 68, 69, 70, 71, 72, 73, 74, 75, 76, 77, 78, 79] (by decide) rsAsg79 (by decide) (by decide!)

/-- Kernel evaluation: 82 nesting levels are not enough for the
elimination below. -/
theorem deepState_fuelOut : eliminateF 82 deepState 47 '4' = Res.fuelOut := by decide!

/-- The same elimination terminates within the full budget: immediate from
the termination theorem, since `deepState` has fewer than 730 candidates. -/
theorem deepState_terminates : eliminateF 730 deepState 47 '4' ≠ Res.fuelOut :=
  eliminateF_no_fuelOut 730 deepState 47 '4' (by decide)

/-- Closed check of C1 on the full grid `fullS`. -/
theorem C1_solve_sound_witness :
    stdDigits.Perm stdDigits ∧ normalize fullS = some fullS ∧
    solve stdDigits fullS = some [fullS] ∧ fullS ∈ [fullS] ∧
    (fullS.length = 81 ∧ (∀ i, i < 81 → fullS.getD i '.' ∈ stdDigits) ∧
      (∀ u ∈ allUnits, (u.map (fun j => fullS.getD j '.')).Perm stdDigits) ∧
      (∀ i, i < 81 → fullS.getD i '.' ∈ stdDigits → fullS.getD i '.' = fullS.getD i '.')) :=
  ⟨List.Perm.refl stdDigits, by decide, solve_fullS, by decide,
    C1_solve_sound (List.Perm.refl stdDigits) (by decide) solve_fullS (by decide)⟩

/-- C2.  Every pair the generator returns consists of a puzzle whose only
completion is the returned solution — `solve` on the puzzle yields exactly
that one grid — and whose assigned squares all carry the solution's
digit. -/
theorem C2_generator_unique {n : Nat} {sym : Bool} {ds ds2 : List Char}
    {order picks : List Nat} {pz sol : List Char}
    (hds : ds.Perm stdDigits) (hds2 : ds2.Perm stdDigits)
    (horder : ∀ i ∈ order, i < 81)
    (hr : random_grid n sym ds order picks = some (pz, sol)) :
    solve ds2 pz = some [sol] ∧
    ∀ i, i < 81 → pz.getD i '.' ≠ '.' → pz.getD i '.' = sol.getD i '.' := by
  rcases randomGrid_post hds horder hr with ⟨m2, a2, s0, hG, -, hone, rfl, rfl⟩
  exact gen_main hG hone hds2

/-- Closed check of C2 on the recorded generator run. -/
theorem C2_generator_unique_witness :
    random_grid 80 false stdDigits (List.range 81) genPicks = some (puzzle80, fullS) ∧
    solve stdDigits puzzle80 = some [fullS] ∧
    (∀ i, i < 81 → puzzle80.getD i '.' ≠ '.' → puzzle80.getD i '.' = fullS.getD i '.') :=
  ⟨random_grid_eval,
    (C2_generator_unique (List.Perm.refl stdDigits) (List.Perm.refl stdDigits)
      (by decide) random_grid_eval).1,
    (C2_generator_unique (List.Perm.refl stdDigits) (List.Perm.refl stdDigits)
      (by decide) random_grid_eval).2⟩

/-- C7.  Any solution yielded by `solve` is itself accepted by `solve` and
is its own unique solution. -/
theorem C7_roundtrip {ds ds2 G : List Char} {sols : List (List Char)} {s : List Char}
    (hds : ds.Perm stdDigits) (hds2 : ds2.Perm stdDigits)
    (hs : solve ds G = some sols) (hmem : s ∈ sols) :
    solve ds2 s = some [s] := by
  rcases solve_some_normalize hs with ⟨g, hn⟩
  obtain ⟨-, hiff⟩ := solve_char hds hn hs
  obtain ⟨hsol, -⟩ := (hiff s).1 hmem
  have hns : normalize s = some s :=
    normalize_of_chars hsol.1 (fun c hc => Or.inl (solGrid_chars hsol c hc))
  rcases @solve_isSome ds2 s s hns with ⟨sols2, hs2⟩
  obtain ⟨hnd2, hiff2⟩ := solve_char hds2 hns hs2
  have hmem2 : s ∈ sols2 := (hiff2 s).2 ⟨hsol, fun i hi _ => rfl⟩
  have hall : ∀ x ∈ sols2, x = s := by
    intro x hx
    obtain ⟨hsolx, hagrx⟩ := (hiff2 x).1 hx
    refine eq_of_getD_81 hsolx.1 hsol.1 ?_
    intro i hi
    exact hagrx i hi (hsol.2.1 i hi)
  rw [hs2, nodup_mem_singleton hnd2 hmem2 hall]

/-- Closed check of C7: re-solving `fullS` under another digit order. -/
theorem C7_roundtrip_witness :
    solve stdDigits fullS = some [fullS] ∧ fullS ∈ [fullS] ∧
    solve dsSwapped fullS = some [fullS] :=
  ⟨solve_fullS, by decide,
    C7_roundtrip (List.Perm.refl stdDigits) (by decide) solve_fullS (by decide)⟩

/-- C8.  `random_grid` clamps the requested number of assigned squares
into `[17, 80]` before walking the squares, and every returned puzzle
carries at least 17 assigned cells. -/
theorem C8_min_clues {n : Nat} {sym : Bool} {ds : List Char} {order picks : List Nat}
    {pz sol : List Char} (hds : ds.Perm stdDigits) (horder : ∀ i ∈ order, i < 81)
    (hr : random_grid n sym ds order picks = some (pz, sol)) :
    (random_grid n sym ds order picks =
      randomStep (min (max n 17) 80) sym order (gridMapAllDigits ds) [] picks) ∧
    17 ≤ min (max n 17) 80 ∧ min (max n 17) 80 ≤ 80 ∧
    17 ≤ pz.countP (fun c => !(c == '.')) := by
  rcases randomGrid_post hds horder hr with ⟨m2, a2, s0, hG, hlen, -, rfl, -⟩
  refine ⟨rfl, by omega, by omega, ?_⟩
  have h1 := gen_pz_count hG
  omega

/-- Closed check of C8: a request of 80 squares yields an 80-clue puzzle. -/
theorem C8_min_clues_witness :
    random_grid 80 false stdDigits (List.range 81) genPicks = some (puzzle80, fullS) ∧
    17 ≤ puzzle80.countP (fun c => !(c == '.')) :=
  ⟨random_grid_eval,
    (C8_min_clues (List.Perm.refl stdDigits) (by decide) random_grid_eval).2.2.2⟩

/-- C9 (counterexample).  `deepState` is a well-formed candidate grid (81
squares over the standard digits) on which eliminating `'4'` from square
47 nests deeper than 82 levels — the recursion depth is not bounded by 81
— although it does terminate within the `totalCand` budget. -/
theorem C9_depth_counterexample :
    deepState.length = 81 ∧ (∀ l ∈ deepState, ∀ c ∈ l, c ∈ stdDigits) ∧
    47 < 81 ∧ '4' ∈ stdDigits ∧
    eliminateF 82 deepState 47 '4' = Res.fuelOut ∧
    eliminateF 730 deepState 47 '4' ≠ Res.fuelOut :=
  ⟨by decide, by decide, by decide, by decide, deepState_fuelOut, deepState_terminates⟩

end Sudoku
